import Mathlib

/-!
# Autoaprendizaje API: access control, enrollment and exam scheduling

A shallow embedding of the request gates (`src/middleware/apiKeyAuth.js`,
`src/middleware/auth.js`), the enrollment operations (`src/routes/cursos/index.js`,
`src/services/cursoService.js`, `src/services/usuarioService.js`,
`src/services/AdminService.js`) and the exam-scheduling operations
(`src/services/AdminService.js`, `src/routes/admin/index.js`).

The relational store is a record of tables, each table a list of rows in insertion
order.  A `SELECT ... WHERE p` is `List.filter p`, `rows[0]` is the head of the
filtered list, `INSERT` appends a row whose `id` is drawn from the table's serial
counter, `UPDATE ... WHERE p` maps over the rows and `DELETE ... WHERE p` filters
them out.  The SQL schema is not part of the sources, so no uniqueness or
foreign-key constraint is modelled: the duplicate checks that exist are the ones the
JavaScript performs.  What the store does with a parameter (reading a text as a
time of day, casting to an enum) is a function argument or a definition marked as
modelled.  Requests are handled one after another (serial execution).
-/

namespace Autoaprendizaje

/-! ## Data model -/

/-- Row of `usuarios`.  `codigo_institucional` is nullable. -/
structure Usuario where
  id : Nat
  email : String
  activo : Bool
  codigo_institucional : Option String := none
deriving DecidableEq

/-- Row of `usuario_roles`. -/
structure UsuarioRol where
  usuario_id : Nat
  rol : String
deriving DecidableEq

/-- Row of `estudiantes`: the student record, whose `id` is distinct from the user id. -/
structure Estudiante where
  id : Nat
  usuario_id : Nat
deriving DecidableEq

/-- Row of `cursos`. -/
structure Curso where
  id : Nat
  nombre : String
  activo : Bool
deriving DecidableEq

/-- Row of `curso_docentes`. -/
structure CursoDocente where
  curso_id : Nat
  usuario_id : Nat
  activo : Bool
deriving DecidableEq

/-- Row of `curso_estudiantes`.  `nota_final` is the nullable grade, numbers being
modelled by integers (the source only tells 0 from the other numbers and passes
them on); `fecha_estado` is the time of the last status change, which the
enrollment inserts below leave at the field's initial value. -/
structure CursoEstudiante where
  id : Nat
  curso_id : Nat
  usuario_id : Nat
  estado : String
  nota_final : Option Int := none
  fecha_estado : Nat := 0
deriving DecidableEq

/-- Row of `horarios_examenes`.  `fecha_examen` is the calendar date as the number
the source obtains from `new Date(fecha_examen)`; `hora_inicio` and `hora_fin` are
the stored times of day, in seconds since midnight; the counters are SQL integers. -/
structure HorarioExamen where
  id : Nat
  fecha_examen : Int
  hora_inicio : Nat
  hora_fin : Nat
  cupos_disponibles : Int
  cupos_ocupados : Int
  activo : Bool
  creado_por : Nat
deriving DecidableEq

/-- Row of `agendamientos_examen`. -/
structure AgendamientoExamen where
  id : Nat
  horario_examen_id : Nat
  estudiante_id : Nat
  estado : String
deriving DecidableEq

/-- The relational store: one list of rows per table plus the serial counters that
hand out the `id` of inserted rows. -/
structure Db where
  usuarios : List Usuario
  usuario_roles : List UsuarioRol
  estudiantes : List Estudiante
  cursos : List Curso
  curso_docentes : List CursoDocente
  curso_estudiantes : List CursoEstudiante
  horarios_examenes : List HorarioExamen
  agendamientos_examen : List AgendamientoExamen
  curso_estudiantes_seq : Nat
  horarios_examenes_seq : Nat
  agendamientos_examen_seq : Nat
  usuarios_seq : Nat := 1
deriving DecidableEq

/-- The empty store. -/
def Db.empty : Db :=
  { usuarios := [], usuario_roles := [], estudiantes := [], cursos := [],
    curso_docentes := [], curso_estudiantes := [], horarios_examenes := [],
    agendamientos_examen := [], curso_estudiantes_seq := 1,
    horarios_examenes_seq := 1, agendamientos_examen_seq := 1 }

/-- An HTTP reply: status code and the machine-readable `code` of the body
(the empty string on success replies, which carry no `code`). -/
structure Reply where
  status : Nat
  code : String
deriving DecidableEq

/-- What a `preHandler` or hook does with a request: let it continue, or answer. -/
inductive Gate where
  | pass
  | reply (r : Reply)
deriving DecidableEq

/-- The value of `String.prototype.includes`: `needle` occurs in `hay`. -/
def includesChars : List Char → List Char → Bool
  | [], needle => needle.isEmpty
  | c :: hay, needle => needle.isPrefixOf (c :: hay) || includesChars hay needle

/-- JavaScript `msg.includes(needle)`. -/
def includes (msg needle : String) : Bool :=
  includesChars msg.toList needle.toList

/-- The UTF-16 code units of one character, the units JavaScript compares strings by. -/
def utf16Units (c : Char) : List Nat :=
  if c.toNat < 0x10000 then [c.toNat]
  else [0xD800 + (c.toNat - 0x10000) / 0x400, 0xDC00 + (c.toNat - 0x10000) % 0x400]

/-- Lexicographic `<` on sequences of code units. -/
def unitsLt : List Nat → List Nat → Bool
  | _, [] => false
  | [], _ :: _ => true
  | a :: as, b :: bs => a < b || (a == b && unitsLt as bs)

/-- JavaScript `a < b` on two strings. -/
def jsStrLt (a b : String) : Bool :=
  unitsLt (a.toList.flatMap utf16Units) (b.toList.flatMap utf16Units)

/-- JavaScript `a <= b` on two strings. -/
def jsStrLe (a b : String) : Bool :=
  !jsStrLt b a

/-! ## Exam scheduling (`AdminService`) -/

/-- A thrown JavaScript `Error`: its message and the `code` property the services
attach to some of them (`none` when the source sets no `error.code`). -/
structure JsError where
  message : String
  code : Option String := none
deriving DecidableEq

deriving instance DecidableEq for Except

/-- Outcome of a service call: the store after the call and either the returned
value or the thrown `Error`. -/
structure Outcome (α : Type) where
  db : Db
  result : Except JsError α

/-- Modelled from the spec: the column default of `agendamientos_examen.estado`
(the SQL schema is not in the sources; the spec has the booking inserted "with
status=booked"). -/
def estadoAgendado : String := "agendado"

/-- Modelled from the spec: the column default of `horarios_examenes.cupos_ocupados`
(the SQL schema is not in the sources; the spec has the occupied count
"initialize to 0"). -/
def cuposOcupadosDefault : Int := 0

/-- Modelled from the spec: the column default of `horarios_examenes.activo` (the SQL
schema is not in the sources; in the spec a schedule that was just created takes
bookings, which the code allows on active schedules only). -/
def activoDefault : Bool := true

/-- The statements of `addStudentToExamSchedule` between `BEGIN` and `COMMIT`.
A thrown error carries the working store at the point of the throw. -/
def addStudentToExamScheduleBody (db : Db) (scheduleId studentId : Nat) :
    Except (JsError × Db) (AgendamientoExamen × Db) :=
  -- SELECT * FROM horarios_examenes WHERE id = $1 AND activo = true
  match db.horarios_examenes.filter (fun h => h.id == scheduleId && h.activo) with
  | [] => .error ({ message := "Horario no encontrado o inactivo" }, db)
  | horario :: _ =>
    if horario.cupos_ocupados ≥ horario.cupos_disponibles then
      .error ({ message := "No hay cupos disponibles en este horario" }, db)
    else
      -- SELECT id FROM agendamientos_examen WHERE horario_examen_id = $1 AND estudiante_id = $2
      -- with parameters [scheduleId, studentId]
      match db.agendamientos_examen.filter
          (fun a => a.horario_examen_id == scheduleId && a.estudiante_id == studentId) with
      | _ :: _ => .error ({ message := "El estudiante ya está agendado para este horario" }, db)
      | [] =>
        -- SELECT id FROM estudiantes WHERE usuario_id = $1
        match db.estudiantes.filter (fun e => e.usuario_id == studentId) with
        | [] => .error ({ message := "Estudiante no encontrado" }, db)
        | estudiante :: _ =>
          let estudianteId := estudiante.id
          -- INSERT INTO agendamientos_examen (horario_examen_id, estudiante_id)
          let row : AgendamientoExamen :=
            { id := db.agendamientos_examen_seq, horario_examen_id := scheduleId,
              estudiante_id := estudianteId, estado := estadoAgendado }
          let db1 : Db :=
            { db with agendamientos_examen := db.agendamientos_examen ++ [row],
                      agendamientos_examen_seq := db.agendamientos_examen_seq + 1 }
          -- UPDATE horarios_examenes SET cupos_ocupados = cupos_ocupados + 1 WHERE id = $1
          let db2 : Db :=
            { db1 with horarios_examenes := db1.horarios_examenes.map (fun h =>
                if h.id == scheduleId then { h with cupos_ocupados := h.cupos_ocupados + 1 }
                else h) }
          .ok (row, db2)

/-- `AdminService.addStudentToExamSchedule`: `COMMIT` keeps the working store,
the `catch` branch issues `ROLLBACK` and rethrows. -/
def addStudentToExamSchedule (db : Db) (scheduleId studentId : Nat) :
    Outcome AgendamientoExamen :=
  match addStudentToExamScheduleBody db scheduleId studentId with
  | .ok (row, db2) => { db := db2, result := .ok row }
  | .error (err, _) => { db := db, result := .error err }

/-- The statements of `removeStudentFromExamSchedule` between `BEGIN` and `COMMIT`. -/
def removeStudentFromExamScheduleBody (db : Db) (scheduleId studentId : Nat) :
    Except (JsError × Db) Db :=
  -- SELECT id FROM estudiantes WHERE usuario_id = $1
  match db.estudiantes.filter (fun e => e.usuario_id == studentId) with
  | [] => .error ({ message := "Estudiante no encontrado" }, db)
  | estudiante :: _ =>
    let estudianteId := estudiante.id
    -- DELETE FROM agendamientos_examen WHERE horario_examen_id = $1 AND estudiante_id = $2
    let deleted := db.agendamientos_examen.filter
      (fun a => a.horario_examen_id == scheduleId && a.estudiante_id == estudianteId)
    let db1 : Db :=
      { db with agendamientos_examen := db.agendamientos_examen.filter (fun a =>
          !(a.horario_examen_id == scheduleId && a.estudiante_id == estudianteId)) }
    if deleted.length = 0 then
      .error ({ message := "Agendamiento no encontrado" }, db1)
    else
      -- UPDATE horarios_examenes SET cupos_ocupados = GREATEST(cupos_ocupados - 1, 0) WHERE id = $1
      let db2 : Db :=
        { db1 with horarios_examenes := db1.horarios_examenes.map (fun h =>
            if h.id == scheduleId then { h with cupos_ocupados := max (h.cupos_ocupados - 1) 0 }
            else h) }
      .ok db2

/-- `AdminService.removeStudentFromExamSchedule`. -/
def removeStudentFromExamSchedule (db : Db) (scheduleId studentId : Nat) : Outcome Unit :=
  match removeStudentFromExamScheduleBody db scheduleId studentId with
  | .ok db2 => { db := db2, result := .ok () }
  | .error (err, _) => { db := db, result := .error err }

/-- Modelled from the spec: the labels of the enum type `estado_agendamiento` (the
SQL schema is not in the sources; the spec lists the booking statuses agendado,
confirmado, cancelado, completado, and the route schema lists the same four). -/
def estadoAgendamientoLabels : List String :=
  ["agendado", "confirmado", "cancelado", "completado"]

/-- The error the store raises when the cast `$1::estado_agendamiento` fails. -/
def invalidEnumError : JsError :=
  { message := "invalid input value for enum estado_agendamiento", code := some "22P02" }

/-- `AdminService.updateStudentExamStatus` (no transaction: a single `UPDATE`). -/
def updateStudentExamStatus (db : Db) (scheduleId studentId : Nat) (newStatus : String) :
    Outcome AgendamientoExamen :=
  match db.estudiantes.filter (fun e => e.usuario_id == studentId) with
  | [] => { db := db, result := .error { message := "Estudiante no encontrado" } }
  | estudiante :: _ =>
    let estudianteId := estudiante.id
    -- UPDATE agendamientos_examen SET estado = $1::estado_agendamiento
    -- WHERE horario_examen_id = $2 AND estudiante_id = $3 RETURNING *
    if !estadoAgendamientoLabels.contains newStatus then
      { db := db, result := .error invalidEnumError }
    else
      let hit := fun (a : AgendamientoExamen) =>
        a.horario_examen_id == scheduleId && a.estudiante_id == estudianteId
      let db1 : Db :=
        { db with agendamientos_examen := db.agendamientos_examen.map (fun a =>
            if hit a then { a with estado := newStatus } else a) }
      match db1.agendamientos_examen.filter hit with
      | [] => { db := db1, result := .error { message := "Agendamiento no encontrado" } }
      | row :: _ => { db := db1, result := .ok row }

/-- The `scheduleData` argument of `createExamSchedule`. -/
structure ScheduleData where
  fecha_examen : Int
  hora_inicio : String
  hora_fin : String
  cupos_disponibles : Int
  creado_por : Nat

/-- The error the store raises for a parameter it cannot read as a time of day. -/
def invalidTimeError : JsError :=
  { message := "invalid input syntax for type time", code := some "22007" }

/-- `AdminService.createExamSchedule`.  `hoy` is local midnight of the current day
(`new Date()` after `setHours(0, 0, 0, 0)`); both dates are compared as numbers and
the times as strings, as `<` and `<=` do in the source.  `timeIn` is the store's
reading of a string parameter as a time of day (`none` when it rejects the string):
the store applies it to the parameters of the `SELECT` and of the `INSERT`.  The
inserted row takes the column defaults for `cupos_ocupados` and `activo`. -/
def createExamSchedule (timeIn : String → Option Nat) (db : Db) (hoy : Int)
    (d : ScheduleData) : Outcome HorarioExamen :=
  if d.fecha_examen < hoy then
    { db := db, result := .error { message := "La fecha del examen debe ser futura" } }
  else if jsStrLe d.hora_fin d.hora_inicio then
    { db := db, result := .error { message := "La hora de fin debe ser posterior a la hora de inicio" } }
  else
    -- SELECT id FROM horarios_examenes WHERE fecha_examen = $1 AND hora_inicio = $2
    match timeIn d.hora_inicio with
    | none => { db := db, result := .error invalidTimeError }
    | some inicio =>
      match db.horarios_examenes.filter
          (fun h => h.fecha_examen == d.fecha_examen && h.hora_inicio == inicio) with
      | _ :: _ =>
        { db := db, result := .error { message := "Ya existe un horario para esa fecha y hora" } }
      | [] =>
        -- INSERT INTO horarios_examenes (fecha_examen, hora_inicio, hora_fin, ...)
        match timeIn d.hora_fin with
        | none => { db := db, result := .error invalidTimeError }
        | some fin =>
          let row : HorarioExamen :=
            { id := db.horarios_examenes_seq, fecha_examen := d.fecha_examen,
              hora_inicio := inicio, hora_fin := fin,
              cupos_disponibles := d.cupos_disponibles, cupos_ocupados := cuposOcupadosDefault,
              activo := activoDefault, creado_por := d.creado_por }
          { db := { db with horarios_examenes := db.horarios_examenes ++ [row],
                            horarios_examenes_seq := db.horarios_examenes_seq + 1 },
            result := .ok row }

/-- The `updateData` argument of `updateExamSchedule`: a field that is `none` is
`undefined` in the object and is skipped by the dynamic `SET` list.  The source
passes the values on without inspecting them, so the two times are recorded as the
store reads them. -/
structure UpdateData where
  fecha_examen : Option Int := none
  hora_inicio : Option Nat := none
  hora_fin : Option Nat := none
  cupos_disponibles : Option Int := none
  cupos_ocupados : Option Int := none
  activo : Option Bool := none

/-- The dynamic `SET` list of `updateExamSchedule` applied to one row. -/
def UpdateData.apply (u : UpdateData) (h : HorarioExamen) : HorarioExamen :=
  { h with
    fecha_examen := u.fecha_examen.getD h.fecha_examen
    hora_inicio := u.hora_inicio.getD h.hora_inicio
    hora_fin := u.hora_fin.getD h.hora_fin
    cupos_disponibles := u.cupos_disponibles.getD h.cupos_disponibles
    cupos_ocupados := u.cupos_ocupados.getD h.cupos_ocupados
    activo := u.activo.getD h.activo }

/-- Whether `updateFields` is empty: no field of the object is defined. -/
def UpdateData.isEmpty (u : UpdateData) : Bool :=
  u.fecha_examen.isNone && u.hora_inicio.isNone && u.hora_fin.isNone &&
  u.cupos_disponibles.isNone && u.cupos_ocupados.isNone && u.activo.isNone

/-- `AdminService.updateExamSchedule`: `none` is the `null` returned for a missing
schedule; otherwise the (possibly unchanged) row is returned. -/
def updateExamSchedule (db : Db) (scheduleId : Nat) (u : UpdateData) :
    Db × Option HorarioExamen :=
  -- SELECT * FROM horarios_examenes WHERE id = $1
  match db.horarios_examenes.filter (fun h => h.id == scheduleId) with
  | [] => (db, none)
  | found :: _ =>
    if u.isEmpty then (db, some found)
    else
      let db1 : Db :=
        { db with horarios_examenes := db.horarios_examenes.map (fun h =>
            if h.id == scheduleId then u.apply h else h) }
      (db1, (db1.horarios_examenes.filter (fun h => h.id == scheduleId)).head?)

/-- Handler of `POST /api/admin/exam-schedules/:id/students`: the reply it sends for
each outcome of the service call. -/
def postExamScheduleStudents (db : Db) (horario_id estudiante_id : Nat) : Db × Reply :=
  let o := addStudentToExamSchedule db horario_id estudiante_id
  match o.result with
  | .ok _ => (o.db, { status := 201, code := "" })
  | .error err =>
    if includes err.message "No hay cupos disponibles" then
      (o.db, { status := 400, code := "NO_SLOTS_AVAILABLE" })
    else if includes err.message "ya está agendado" then
      (o.db, { status := 409, code := "STUDENT_ALREADY_SCHEDULED" })
    else
      (o.db, { status := 500, code := "ADD_STUDENT_ERROR" })

/-- One call of the serial histories considered for a schedule. -/
inductive ExamCall where
  | add (scheduleId studentId : Nat)
  | remove (scheduleId studentId : Nat)
deriving DecidableEq

/-- The store after one call, whether it succeeded or threw. -/
def ExamCall.run (db : Db) : ExamCall → Db
  | .add s u => (addStudentToExamSchedule db s u).db
  | .remove s u => (removeStudentFromExamSchedule db s u).db

/-- The store after a serial sequence of calls. -/
def runExamCalls (db : Db) (calls : List ExamCall) : Db :=
  calls.foldl ExamCall.run db

/-- The booking rows that reference a schedule. -/
def bookingsOf (db : Db) (scheduleId : Nat) : List AgendamientoExamen :=
  db.agendamientos_examen.filter (fun a => a.horario_examen_id == scheduleId)

/-- The capacity invariant on every schedule row of the store. -/
def CapacityOk (db : Db) : Prop :=
  ∀ h ∈ db.horarios_examenes, h.cupos_ocupados ≤ h.cupos_disponibles

instance (db : Db) : Decidable (CapacityOk db) := by
  unfold CapacityOk; infer_instance

/-- Handler of `DELETE /api/admin/exam-schedules/:id/students/:studentId`. -/
def deleteExamScheduleStudent (db : Db) (horario_id estudiante_id : Nat) : Db × Reply :=
  let o := removeStudentFromExamSchedule db horario_id estudiante_id
  match o.result with
  | .ok _ => (o.db, { status := 200, code := "" })
  | .error err =>
    if includes err.message "no encontrado" then
      (o.db, { status := 404, code := "APPOINTMENT_NOT_FOUND" })
    else
      (o.db, { status := 500, code := "REMOVE_STUDENT_ERROR" })

/-- Which of the two writes of `addStudentToExamSchedule` the store rejects (a lost
connection, a violated constraint): the `INSERT`, the counter `UPDATE`, or none.
`insertTakesId` tells whether the rejected `INSERT` had already drawn an `id` from
the serial counter. -/
structure StoreFaults where
  insertFails : Bool := false
  insertTakesId : Bool := false
  updateFails : Bool := false
deriving DecidableEq

/-- The store after `ROLLBACK`: the tables are those of `BEGIN`; the serial counters
keep the values they reached in the transaction, since a sequence is not rolled
back. -/
def rollback (atBegin working : Db) : Db :=
  { atBegin with
    curso_estudiantes_seq := working.curso_estudiantes_seq
    horarios_examenes_seq := working.horarios_examenes_seq
    agendamientos_examen_seq := working.agendamientos_examen_seq
    usuarios_seq := working.usuarios_seq }

/-- The error object a rejected statement throws. -/
def storeError : JsError :=
  { message := "store error", code := some "XX000" }

/-- The statements of `addStudentToExamSchedule` between `BEGIN` and `COMMIT` on a
store that may reject the writes.  A thrown error carries the working store at the
point of the throw: after a rejected counter update it already holds the new
booking row. -/
def addStudentToExamScheduleBodyWith (faults : StoreFaults) (db : Db)
    (scheduleId studentId : Nat) : Except (JsError × Db) (AgendamientoExamen × Db) :=
  match db.horarios_examenes.filter (fun h => h.id == scheduleId && h.activo) with
  | [] => .error ({ message := "Horario no encontrado o inactivo" }, db)
  | horario :: _ =>
    if horario.cupos_ocupados ≥ horario.cupos_disponibles then
      .error ({ message := "No hay cupos disponibles en este horario" }, db)
    else
      match db.agendamientos_examen.filter
          (fun a => a.horario_examen_id == scheduleId && a.estudiante_id == studentId) with
      | _ :: _ => .error ({ message := "El estudiante ya está agendado para este horario" }, db)
      | [] =>
        match db.estudiantes.filter (fun e => e.usuario_id == studentId) with
        | [] => .error ({ message := "Estudiante no encontrado" }, db)
        | estudiante :: _ =>
          let estudianteId := estudiante.id
          if faults.insertFails then
            .error (storeError,
              if faults.insertTakesId then
                { db with agendamientos_examen_seq := db.agendamientos_examen_seq + 1 }
              else db)
          else
            let row : AgendamientoExamen :=
              { id := db.agendamientos_examen_seq, horario_examen_id := scheduleId,
                estudiante_id := estudianteId, estado := estadoAgendado }
            let db1 : Db :=
              { db with agendamientos_examen := db.agendamientos_examen ++ [row],
                        agendamientos_examen_seq := db.agendamientos_examen_seq + 1 }
            if faults.updateFails then .error (storeError, db1)
            else
              let db2 : Db :=
                { db1 with horarios_examenes := db1.horarios_examenes.map (fun h =>
                    if h.id == scheduleId then { h with cupos_ocupados := h.cupos_ocupados + 1 }
                    else h) }
              .ok (row, db2)

/-- `AdminService.addStudentToExamSchedule` on a store that may reject the writes:
`COMMIT` keeps the working store, the `catch` branch issues `ROLLBACK` and
rethrows. -/
def addStudentToExamScheduleWith (faults : StoreFaults) (db : Db)
    (scheduleId studentId : Nat) : Outcome AgendamientoExamen :=
  match addStudentToExamScheduleBodyWith faults db scheduleId studentId with
  | .ok (row, db2) => { db := db2, result := .ok row }
  | .error (err, working) => { db := rollback db working, result := .error err }

/-- `AdminService.deleteExamSchedule`: the returned flag is
`deleteResult.rows.length > 0`. -/
def deleteExamSchedule (db : Db) (scheduleId : Nat) : Outcome Bool :=
  -- SELECT COUNT(*) as total FROM agendamientos_examen WHERE horario_examen_id = $1
  if (db.agendamientos_examen.filter (fun a => a.horario_examen_id == scheduleId)).length > 0
  then
    { db := db, result := .error
        { message := "No se puede eliminar un horario que tiene estudiantes agendados" } }
  else
    -- DELETE FROM horarios_examenes WHERE id = $1 RETURNING id
    { db := { db with horarios_examenes :=
                db.horarios_examenes.filter (fun h => !(h.id == scheduleId)) },
      result := .ok
        (decide ((db.horarios_examenes.filter (fun h => h.id == scheduleId)).length > 0)) }

/-- Handler of `DELETE /api/admin/exam-schedules/:id`. -/
def deleteExamScheduleRoute (db : Db) (id : Nat) : Db × Reply :=
  let o := deleteExamSchedule db id
  match o.result with
  | .ok deleted =>
    if !deleted then (o.db, { status := 404, code := "SCHEDULE_NOT_FOUND" })
    else (o.db, { status := 200, code := "" })
  | .error err =>
    if includes err.message "estudiantes agendados" then
      (o.db, { status := 400, code := "SCHEDULE_HAS_STUDENTS" })
    else
      (o.db, { status := 500, code := "SCHEDULE_DELETE_ERROR" })

/-- Handler of `POST /api/admin/exam-schedules`. -/
def postExamSchedules (timeIn : String → Option Nat) (db : Db) (hoy : Int)
    (d : ScheduleData) : Db × Reply :=
  let o := createExamSchedule timeIn db hoy d
  match o.result with
  | .ok _ => (o.db, { status := 201, code := "" })
  | .error err =>
    if includes err.message "Ya existe un horario" then
      (o.db, { status := 409, code := "SCHEDULE_CONFLICT" })
    else if includes err.message "fecha del examen debe ser futura" then
      (o.db, { status := 400, code := "INVALID_EXAM_DATE" })
    else
      (o.db, { status := 500, code := "SCHEDULE_CREATE_ERROR" })

/-- The value of a run of decimal digits, `none` for an empty run or another
character. -/
def digitsValue (cs : List Char) : Option Nat :=
  if cs.isEmpty || !cs.all (fun c => decide (48 ≤ c.toNat) && decide (c.toNat ≤ 57)) then none
  else some (cs.foldl (fun n c => 10 * n + (c.toNat - 48)) 0)

/-- The fields of a text separated by colons. -/
def splitColon : List Char → List (List Char)
  | [] => [[]]
  | c :: cs =>
    if c.toNat == 58 then [] :: splitColon cs
    else
      match splitColon cs with
      | [] => [[c]]
      | field :: fields => (c :: field) :: fields

/-- The time of day written as `H:MM`, `HH:MM` or `HH:MM:SS`, in seconds since
midnight: the reading of these forms by the store's `time` type, used to evaluate
`createExamSchedule` on concrete requests.  Other texts are not read. -/
def timeOfDay (s : String) : Option Nat :=
  match (splitColon s.toList).map digitsValue with
  | [some h, some m] =>
    if h < 24 && m < 60 then some (h * 3600 + m * 60) else none
  | [some h, some m, some sec] =>
    if h < 24 && m < 60 && sec < 60 then some (h * 3600 + m * 60 + sec) else none
  | _ => none

/-- The booking row belongs to the pair a call with `scheduleId` and `studentId`
addresses: it references the schedule and the student record the call resolves
from the user id. -/
def IsAddressedBooking (db : Db) (scheduleId studentId : Nat) (a : AgendamientoExamen) :
    Prop :=
  a.horario_examen_id = scheduleId ∧
    ∃ e es, db.estudiantes.filter (fun x => x.usuario_id == studentId) = e :: es ∧
      a.estudiante_id = e.id

/-! ## Request gates (`apiKeyAuth.js`, `auth.js`) -/

/-- The routes that need no API key. -/
def rutasPublicas : List String :=
  ["/", "/health", "/docs", "/docs/json", "/api/auth/login"]

/-- JavaScript truthiness of an optional string: `undefined` and the empty string
are falsy. -/
def truthyStr : Option String → Bool
  | none => false
  | some s => s != ""

/-- The `onRequest` hook of `apiKeyAuth`.  `secreta` is `env.API_KEY_SECRETA`
(`none` when the variable is unset), `routeUrl` is `request.routeOptions.url`
(`none` when no route matched) and `apiKey` is the `x-api-key` header. -/
def apiKeyAuth (secreta : Option String) (routeUrl : Option String)
    (apiKey : Option String) : Gate :=
  if (match routeUrl with
      | some url => rutasPublicas.contains url
      | none => false) then
    .pass
  else if !truthyStr apiKey || apiKey != secreta then
    .reply { status := 401, code := "INVALID_API_KEY" }
  else
    .pass

/-- The payload of a verified token, `request.user` after `authenticate`. -/
structure JwtClaims where
  usuario_id : Option Nat
  email : String
  roles : List String
deriving DecidableEq

/-- JavaScript truthiness of `usuario_id`: `undefined` and `0` are falsy. -/
def truthyId : Option Nat → Bool
  | none => false
  | some n => n != 0

/-- The `authenticate` decorator.  `jwtVerify` is the result of
`request.jwtVerify()` (an error when the token does not verify) and `store` is the
relational store, `none` standing for a store whose query rejects; both the
verification and the query sit inside the same `try`. -/
def authenticate (store : Option Db) (jwtVerify : Except String JwtClaims) : Gate :=
  match jwtVerify with
  | .error _ => .reply { status := 401, code := "INVALID_TOKEN" }
  | .ok user =>
    if !truthyId user.usuario_id then
      .reply { status := 401, code := "INVALID_TOKEN_PAYLOAD" }
    else
      match store with
      | none => .reply { status := 401, code := "INVALID_TOKEN" }
      | some db =>
        -- SELECT activo FROM usuarios WHERE id = $1
        match db.usuarios.filter (fun u => some u.id == user.usuario_id) with
        | [] => .reply { status := 401, code := "USER_INACTIVE" }
        | row :: _ =>
          if !row.activo then .reply { status := 401, code := "USER_INACTIVE" }
          else .pass

/-- The middleware returned by `authorize(allowedRoles)`, run on `request.user`. -/
def authorize (store : Option Db) (allowedRoles : List String) (user : JwtClaims) : Gate :=
  match store with
  | none => .reply { status := 500, code := "AUTHORIZATION_ERROR" }
  | some db =>
    -- SELECT rol FROM usuario_roles WHERE usuario_id = $1 AND rol = ANY($2)
    match db.usuario_roles.filter
        (fun r => some r.usuario_id == user.usuario_id && allowedRoles.contains r.rol) with
    | [] => .reply { status := 403, code := "INSUFFICIENT_ROLE" }
    | _ :: _ => .pass

/-- The rows of the `UNION` query of `requireCourseAccess`, as their `tipo` column.
`UNION` removes duplicate rows, so each branch contributes at most one row; SQL
leaves the order of the two open and `docenteFirst` fixes it. -/
def courseAccessRows (db : Db) (docenteFirst : Bool) (courseId : Nat) (user : JwtClaims) :
    List String :=
  let docente : List String :=
    if (db.curso_docentes.filter (fun d =>
        d.curso_id == courseId && some d.usuario_id == user.usuario_id && d.activo)).isEmpty
    then [] else ["docente"]
  let estudiante : List String :=
    if (db.curso_estudiantes.filter (fun e =>
        e.curso_id == courseId && some e.usuario_id == user.usuario_id
          && e.estado != "retirado")).isEmpty
    then [] else ["estudiante"]
  if docenteFirst then docente ++ estudiante else estudiante ++ docente

/-- The middleware returned by `requireCourseAccess(paramName)`: the gate decision
and the value stored in `request.courseAccess` (`none` when nothing is stored). -/
def requireCourseAccess (store : Option Db) (docenteFirst : Bool) (courseId : Nat)
    (user : JwtClaims) : Gate × Option String :=
  match store with
  | none => (.reply { status := 500, code := "COURSE_ACCESS_ERROR" }, none)
  | some db =>
    match courseAccessRows db docenteFirst courseId user with
    | [] => (.reply { status := 403, code := "COURSE_ACCESS_DENIED" }, none)
    | tipo :: _ => (.pass, some tipo)

/-! ## Enrollment (`cursos` routes, `CursoService`, `UsuarioService`, `AdminService`) -/

/-- `INSERT INTO curso_estudiantes (curso_id, usuario_id, estado ...) RETURNING *`. -/
def insertCursoEstudiante (db : Db) (courseId usuario_id : Nat) (estado : String) :
    CursoEstudiante × Db :=
  let row : CursoEstudiante :=
    { id := db.curso_estudiantes_seq, curso_id := courseId, usuario_id := usuario_id,
      estado := estado }
  (row, { db with curso_estudiantes := db.curso_estudiantes ++ [row],
                  curso_estudiantes_seq := db.curso_estudiantes_seq + 1 })

/-- Handler of `POST /api/courses/:id/enroll-student`. -/
def postEnrollStudent (db : Db) (courseId usuario_id : Nat) (estado : String) : Db × Reply :=
  -- SELECT id, nombre FROM cursos WHERE id = $1 AND activo = true
  match db.cursos.filter (fun c => c.id == courseId && c.activo) with
  | [] => (db, { status := 404, code := "COURSE_NOT_FOUND" })
  | _ :: _ =>
    -- SELECT ... FROM usuarios u JOIN usuario_roles ur ON u.id = ur.usuario_id
    -- WHERE u.id = $1 AND ur.rol = 'estudiante' AND u.activo = true
    match db.usuarios.filter (fun u => u.id == usuario_id && u.activo &&
        db.usuario_roles.any (fun ur => ur.usuario_id == u.id && ur.rol == "estudiante")) with
    | [] => (db, { status := 404, code := "STUDENT_NOT_FOUND" })
    | _ :: _ =>
      -- SELECT id FROM curso_estudiantes WHERE curso_id = $1 AND usuario_id = $2
      match db.curso_estudiantes.filter
          (fun e => e.curso_id == courseId && e.usuario_id == usuario_id) with
      | _ :: _ => (db, { status := 409, code := "ALREADY_ENROLLED" })
      | [] => ((insertCursoEstudiante db courseId usuario_id estado).2,
               { status := 201, code := "" })

/-- `CursoService.assignStudentToCourse`. -/
def assignStudentToCourse (db : Db) (courseId userId : Nat) (estado : String) :
    Outcome CursoEstudiante :=
  -- SELECT ur.rol FROM usuario_roles ur WHERE ur.usuario_id = $1 AND ur.rol = 'estudiante'
  match db.usuario_roles.filter (fun ur => ur.usuario_id == userId && ur.rol == "estudiante") with
  | [] => { db := db, result := .error { message := "El usuario no tiene rol de estudiante",
                                         code := some "USER_NOT_STUDENT" } }
  | _ :: _ =>
    match db.cursos.filter (fun c => c.id == courseId && c.activo) with
    | [] => { db := db, result := .error { message := "Curso no encontrado",
                                           code := some "COURSE_NOT_FOUND" } }
    | _ :: _ =>
      match db.curso_estudiantes.filter
          (fun e => e.curso_id == courseId && e.usuario_id == userId) with
      | _ :: _ => { db := db, result := .error
                      { message := "El estudiante ya está inscrito en este curso",
                        code := some "ALREADY_ENROLLED" } }
      | [] => { db := (insertCursoEstudiante db courseId userId estado).2,
                result := .ok (insertCursoEstudiante db courseId userId estado).1 }

/-- Handler of `POST /api/courses/:id/assign-student`. -/
def postAssignStudent (db : Db) (id usuario_id : Nat) (estado : String) : Db × Reply :=
  let o := assignStudentToCourse db id usuario_id estado
  match o.result with
  | .ok _ => (o.db, { status := 201, code := "" })
  | .error err =>
    if err.code == some "USER_NOT_STUDENT" then
      (o.db, { status := 400, code := "USER_NOT_STUDENT" })
    else if err.code == some "ALREADY_ENROLLED" then
      (o.db, { status := 409, code := "ALREADY_ENROLLED" })
    else
      (o.db, { status := 500, code := "STUDENT_ASSIGNMENT_ERROR" })

/-- Modelled from the spec: the column default of `curso_estudiantes.estado` (the
SQL schema is not in the sources; the spec has the row inserted "with
status=enrolled"). -/
def estadoInscrito : String := "inscrito"

/-- The callback `UsuarioService.enrollInCourse` hands to `withTransaction`. -/
def enrollInCourseBody (db : Db) (usuarioId cursoId : Nat) :
    Except (JsError × Db) (CursoEstudiante × Db) :=
  match db.cursos.filter (fun c => c.id == cursoId && c.activo) with
  | [] => .error ({ message := "Curso no encontrado", code := some "COURSE_NOT_FOUND" }, db)
  | _ :: _ =>
    match db.curso_estudiantes.filter
        (fun e => e.curso_id == cursoId && e.usuario_id == usuarioId) with
    | _ :: _ => .error ({ message := "Ya estás inscrito en este curso",
                          code := some "ALREADY_ENROLLED" }, db)
    | [] => .ok (insertCursoEstudiante db cursoId usuarioId estadoInscrito)

/-- `UsuarioService.enrollInCourse`: `withTransaction` commits the callback's work
or rolls back and rethrows. -/
def enrollInCourse (db : Db) (usuarioId cursoId : Nat) : Outcome CursoEstudiante :=
  match enrollInCourseBody db usuarioId cursoId with
  | .ok (row, db1) => { db := db1, result := .ok row }
  | .error (err, _) => { db := db, result := .error err }

/-- Handler of `POST /api/users/enroll/:courseId`. -/
def postUserEnroll (db : Db) (usuario_id courseId : Nat) : Db × Reply :=
  let o := enrollInCourse db usuario_id courseId
  match o.result with
  | .ok _ => (o.db, { status := 201, code := "" })
  | .error err =>
    if err.code == some "ALREADY_ENROLLED" then
      (o.db, { status := 409, code := "ALREADY_ENROLLED" })
    else if err.code == some "COURSE_NOT_FOUND" then
      (o.db, { status := 404, code := "COURSE_NOT_FOUND" })
    else
      (o.db, { status := 500, code := "ENROLLMENT_ERROR" })

/-- `AdminService.enrollStudent`: a bare `INSERT`, the row taking the column default
for `estado`. -/
def enrollStudent (db : Db) (courseId usuario_id : Nat) : Outcome Nat :=
  { db := (insertCursoEstudiante db courseId usuario_id estadoInscrito).2,
    result := .ok (insertCursoEstudiante db courseId usuario_id estadoInscrito).1.id }

/-- Handler of `POST /api/admin/courses/:id/enroll-student`. -/
def postAdminEnrollStudent (db : Db) (courseId usuario_id : Nat) : Db × Reply :=
  let o := enrollStudent db courseId usuario_id
  match o.result with
  | .ok _ => (o.db, { status := 200, code := "" })
  | .error _ => (o.db, { status := 500, code := "STUDENT_ENROLL_ERROR" })

/-- The `nota_final` of a request body as JavaScript sees it: missing (`undefined`
or `null`), the empty string, or a number. -/
inductive NotaInput where
  | absent
  | empty
  | num (n : Int)
deriving DecidableEq

/-- The `{ estado, nota_final }` of a status update; `estado = none` is `undefined`
or `null`. -/
structure StatusUpdate where
  estado : Option String := none
  nota_final : NotaInput := .absent

/-- The error the store raises for a parameter it cannot read as a number. -/
def invalidNumericError : JsError :=
  { message := "invalid input syntax for type numeric", code := some "22P02" }

/-- Modelled from the spec: `curso_estudiantes.estado` rejects `NULL` (the SQL schema
is not in the sources; in the spec every enrollment carries one of the four
statuses).  The error is the one the store raises for a `NULL` written to it. -/
def estadoNullError : JsError :=
  { message := "null value in column estado violates not-null constraint",
    code := some "23502" }

/-- `CursoService.updateStudentCourseStatus`; `now` is `CURRENT_TIMESTAMP` and the
value returned is `result.rows[0]`. -/
def updateStudentCourseStatus (db : Db) (now : Nat) (courseId studentId : Nat)
    (req : StatusUpdate) : Outcome (Option CursoEstudiante) :=
  let hit := fun (e : CursoEstudiante) => e.curso_id == courseId && e.usuario_id == studentId
  -- SELECT id FROM curso_estudiantes WHERE curso_id = $1 AND usuario_id = $2
  match db.curso_estudiantes.filter hit with
  | [] => { db := db, result := .error { message := "Inscripción no encontrada",
                                         code := some "ENROLLMENT_NOT_FOUND" } }
  | _ :: _ =>
    if req.estado.isNone && req.nota_final == .absent then
      { db := db, result := .error { message := "No hay campos para actualizar",
                                     code := some "NO_FIELDS_TO_UPDATE" } }
    else
      match req.nota_final with
      | .empty => { db := db, result := .error invalidNumericError }
      | nota =>
        -- UPDATE curso_estudiantes SET <updates>, fecha_estado = CURRENT_TIMESTAMP
        -- WHERE curso_id = $1 AND usuario_id = $2 RETURNING *
        let set := fun (e : CursoEstudiante) =>
          { e with estado := req.estado.getD e.estado,
                   nota_final := (match nota with
                     | .num n => some n
                     | _ => e.nota_final),
                   fecha_estado := now }
        let db1 : Db :=
          { db with curso_estudiantes := db.curso_estudiantes.map (fun e =>
              if hit e then set e else e) }
        { db := db1, result := .ok (db1.curso_estudiantes.filter hit).head? }

/-- Handler of `PUT /api/courses/:courseId/students/:studentId`. -/
def putStudentStatus (db : Db) (now : Nat) (courseId studentId : Nat) (req : StatusUpdate) :
    Db × Reply :=
  let o := updateStudentCourseStatus db now courseId studentId req
  match o.result with
  | .ok _ => (o.db, { status := 200, code := "" })
  | .error err =>
    if err.code == some "ENROLLMENT_NOT_FOUND" then
      (o.db, { status := 404, code := "ENROLLMENT_NOT_FOUND" })
    else
      (o.db, { status := 500, code := "STUDENT_STATUS_UPDATE_ERROR" })

/-- The `notaFinalValue` of `AdminService.updateEnrollment`:
`nota_final && nota_final !== "" ? parseFloat(nota_final) : null`. -/
def notaFinalValue : NotaInput → Option Int
  | .absent => none
  | .empty => none
  | .num n => if n != 0 then some n else none

/-- `AdminService.updateEnrollment`; `now` is `CURRENT_TIMESTAMP` and the value
returned is `result.rows[0]`.  An `UPDATE` that matches no row raises nothing and
reports `rowCount = 0`. -/
def updateEnrollment (db : Db) (now : Nat) (enrollmentId : Nat) (req : StatusUpdate) :
    Outcome (Option CursoEstudiante) :=
  -- UPDATE curso_estudiantes SET estado = $1, nota_final = $2,
  -- fecha_estado = CURRENT_TIMESTAMP WHERE id = $3 RETURNING *
  if (db.curso_estudiantes.filter (fun e => e.id == enrollmentId)).length = 0 then
    { db := db, result := .error { message := "Inscripción no encontrada" } }
  else
    match req.estado with
    | none => { db := db, result := .error estadoNullError }
    | some estado =>
      let db1 : Db :=
        { db with curso_estudiantes := db.curso_estudiantes.map (fun e =>
            if e.id == enrollmentId then
              { e with estado := estado, nota_final := notaFinalValue req.nota_final,
                       fecha_estado := now }
            else e) }
      { db := db1,
        result := .ok (db1.curso_estudiantes.filter (fun e => e.id == enrollmentId)).head? }

/-- Handler of `PUT /api/admin/student-enrollments/:id`. -/
def putStudentEnrollment (db : Db) (now : Nat) (enrollmentId : Nat) (req : StatusUpdate) :
    Db × Reply :=
  let o := updateEnrollment db now enrollmentId req
  match o.result with
  | .ok _ => (o.db, { status := 200, code := "" })
  | .error _ => (o.db, { status := 500, code := "ENROLLMENT_UPDATE_ERROR" })

/-- `AdminService.updateStudentEnrollment`: `none` is the `null` returned for a
missing enrollment. -/
def updateStudentEnrollment (db : Db) (now : Nat) (enrollmentId : Nat) (req : StatusUpdate) :
    Outcome (Option CursoEstudiante) :=
  -- SELECT id FROM curso_estudiantes WHERE id = $1
  match db.curso_estudiantes.filter (fun e => e.id == enrollmentId) with
  | [] => { db := db, result := .ok none }
  | _ :: _ =>
    match req.estado with
    | none => { db := db, result := .error estadoNullError }
    | some estado =>
      -- UPDATE curso_estudiantes SET estado = $1, fecha_estado = CURRENT_TIMESTAMP
      -- [, nota_final = $2] WHERE id = $n RETURNING *
      let db1 : Db :=
        { db with curso_estudiantes := db.curso_estudiantes.map (fun e =>
            if e.id == enrollmentId then
              { e with estado := estado,
                       nota_final := (match req.nota_final with
                         | .num n => some n
                         | _ => e.nota_final),
                       fecha_estado := now }
            else e) }
      { db := db1,
        result := .ok (db1.curso_estudiantes.filter (fun e => e.id == enrollmentId)).head? }

/-- `AdminService.deleteEnrollment`. -/
def deleteEnrollment (db : Db) (enrollmentId : Nat) : Outcome Unit :=
  -- DELETE FROM curso_estudiantes WHERE id = $1
  if (db.curso_estudiantes.filter (fun e => e.id == enrollmentId)).length = 0 then
    { db := db, result := .error { message := "Inscripción no encontrada" } }
  else
    { db := { db with curso_estudiantes :=
                db.curso_estudiantes.filter (fun e => !(e.id == enrollmentId)) },
      result := .ok () }

/-- Handler of `DELETE /api/admin/student-enrollments/:id`. -/
def deleteStudentEnrollment (db : Db) (enrollmentId : Nat) : Db × Reply :=
  let o := deleteEnrollment db enrollmentId
  match o.result with
  | .ok _ => (o.db, { status := 200, code := "" })
  | .error _ => (o.db, { status := 500, code := "ENROLLMENT_DELETE_ERROR" })

/-- The three enrollment entry points that check for an existing row. -/
inductive EnrollPath where
  | enrollStudentRoute
  | assignStudentRoute
  | userEnrollRoute
deriving DecidableEq

/-- One enrollment request through the given entry point.  `estado` is the body
field of the two course routes; the user route takes none. -/
def enroll (path : EnrollPath) (db : Db) (courseId usuario_id : Nat) (estado : String) :
    Db × Reply :=
  match path with
  | .enrollStudentRoute => postEnrollStudent db courseId usuario_id estado
  | .assignStudentRoute => postAssignStudent db courseId usuario_id estado
  | .userEnrollRoute => postUserEnroll db usuario_id courseId

/-- The handler's destructuring `estado = 'inscrito'`: the `estado` of the body, or
the default when the body has none. -/
def bodyEstado (estado : Option String) : String :=
  estado.getD "inscrito"

/-- One enrollment request whose body may omit `estado`. -/
def enrollWithBody (path : EnrollPath) (db : Db) (courseId usuario_id : Nat)
    (estado : Option String) : Db × Reply :=
  enroll path db courseId usuario_id (bodyEstado estado)

/-- The enrollment rows of a (course, student) pair. -/
def enrollmentsOf (db : Db) (courseId usuario_id : Nat) : List CursoEstudiante :=
  db.curso_estudiantes.filter (fun e => e.curso_id == courseId && e.usuario_id == usuario_id)

/-- The user of the context is an active teacher of the course. -/
def IsActiveTeacher (db : Db) (courseId : Nat) (user : JwtClaims) : Prop :=
  ∃ d ∈ db.curso_docentes,
    d.curso_id = courseId ∧ some d.usuario_id = user.usuario_id ∧ d.activo = true

/-- The user of the context has an enrollment in the course whose status is not
`retirado`. -/
def IsEnrolledStudent (db : Db) (courseId : Nat) (user : JwtClaims) : Prop :=
  ∃ e ∈ db.curso_estudiantes,
    e.curso_id = courseId ∧ some e.usuario_id = user.usuario_id ∧ e.estado ≠ "retirado"

/-- The course exists and is active. -/
def HasActiveCourse (db : Db) (courseId : Nat) : Prop :=
  ∃ c ∈ db.cursos, c.id = courseId ∧ c.activo = true

/-- The user holds the role `estudiante` in `usuario_roles`. -/
def HasStudentRole (db : Db) (usuario_id : Nat) : Prop :=
  ∃ r ∈ db.usuario_roles, r.usuario_id = usuario_id ∧ r.rol = "estudiante"

/-- The user exists, is active and holds the role `estudiante`. -/
def IsActiveStudent (db : Db) (usuario_id : Nat) : Prop :=
  (∃ u ∈ db.usuarios, u.id = usuario_id ∧ u.activo = true) ∧ HasStudentRole db usuario_id

/-! ## Tokens (`plugins/jwt.js`) -/

/-- The argument of `parseTimeToMs` as JavaScript sees it: a number, a string, or
`undefined`. -/
inductive TimeInput where
  | number (n : Int)
  | str (s : String)
  | undefined
deriving DecidableEq

/-- A decimal digit. -/
def isDigit (c : Char) : Bool :=
  decide (48 ≤ c.toNat) && decide (c.toNat ≤ 57)

/-- A hexadecimal digit. -/
def isHexDigit (c : Char) : Bool :=
  isDigit c || (decide (97 ≤ c.toNat) && decide (c.toNat ≤ 102)) ||
    (decide (65 ≤ c.toNat) && decide (c.toNat ≤ 70))

/-- The value of a hexadecimal digit. -/
def hexValue (c : Char) : Nat :=
  if isDigit c then c.toNat - 48
  else if decide (97 ≤ c.toNat) then c.toNat - 87
  else c.toNat - 55

/-- White space and line terminators of ECMAScript, the characters `trim` and
`parseInt` strip. -/
def isJsSpace (c : Char) : Bool :=
  [0x09, 0x0A, 0x0B, 0x0C, 0x0D, 0x20, 0xA0, 0x1680, 0x2028, 0x2029, 0x202F, 0x205F, 0x3000,
    0xFEFF].contains c.toNat || (decide (0x2000 ≤ c.toNat) && decide (c.toNat ≤ 0x200A))

/-- The digits of `parseInt` after white space and sign: a `0x` prefix selects
radix 16, otherwise the leading decimal digits are read; no digit gives `NaN`
(`none`). -/
def parseDigits : List Char → Option Nat
  | zero :: x :: rest =>
    if zero.toNat == 48 && (x.toNat == 120 || x.toNat == 88) then
      if (rest.takeWhile isHexDigit).isEmpty then none
      else some ((rest.takeWhile isHexDigit).foldl (fun n c => 16 * n + hexValue c) 0)
    else
      if ((zero :: x :: rest).takeWhile isDigit).isEmpty then none
      else some (((zero :: x :: rest).takeWhile isDigit).foldl
        (fun n c => 10 * n + (c.toNat - 48)) 0)
  | cs =>
    if (cs.takeWhile isDigit).isEmpty then none
    else some ((cs.takeWhile isDigit).foldl (fun n c => 10 * n + (c.toNat - 48)) 0)

/-- JavaScript `parseInt(s)`, `none` standing for `NaN`. -/
def parseInt (s : List Char) : Option Int :=
  match s.dropWhile isJsSpace with
  | c :: rest =>
    if c.toNat == 45 then (parseDigits rest).map (fun n => - Int.ofNat n)
    else if c.toNat == 43 then (parseDigits rest).map Int.ofNat
    else (parseDigits (c :: rest)).map Int.ofNat
  | [] => none

/-- The effect of `toLowerCase` on the Latin capital letters; the function below
only looks for the letters m, s, h and d afterwards, which no other character
lower-cases to. -/
def lowerChar (c : Char) : Char :=
  if decide (65 ≤ c.toNat) && decide (c.toNat ≤ 90) then Char.ofNat (c.toNat + 32) else c

/-- `parseTimeToMs` of `plugins/jwt.js`; `none` stands for `NaN`. -/
def parseTimeToMs : TimeInput → Option Int
  | .number n => some n
  | .undefined => some 15000
  | .str s =>
    if s == "" then some 15000
    else
      let timeStr := s.toList.map lowerChar
      let value := parseInt timeStr
      if includesChars timeStr ['m', 's'] then value
      else if includesChars timeStr ['s'] then value.map (fun v => v * 1000)
      else if includesChars timeStr ['m'] then value.map (fun v => v * 60 * 1000)
      else if includesChars timeStr ['h'] then value.map (fun v => v * 60 * 60 * 1000)
      else if includesChars timeStr ['d'] then value.map (fun v => v * 24 * 60 * 60 * 1000)
      else value.map (fun v => v * 1000)

/-- The decimal digit character of a number below ten. -/
def digitChar : Nat → Char
  | 0 => '0'
  | 1 => '1'
  | 2 => '2'
  | 3 => '3'
  | 4 => '4'
  | 5 => '5'
  | 6 => '6'
  | 7 => '7'
  | 8 => '8'
  | _ => '9'

/-- The decimal numeral of a natural number, as `String(n)` writes it. -/
def decimal (n : Nat) : List Char :=
  if n = 0 then ['0'] else ((Nat.digits 10 n).reverse).map digitChar

/-- The configuration `config/environment.js` reads.  `JWT_SECRET` is set, since the
JWT plugin does not register without a secret; `JWT_REFRESH_SECRET` may be unset;
`JWT_EXPIRY` and `JWT_REFRESH_EXPIRY` are the raw texts, and `accessTtl` and
`refreshTtl` are the numbers of seconds the signing library reads from them. -/
structure Env where
  JWT_SECRET : String
  JWT_REFRESH_SECRET : Option String
  JWT_EXPIRY : Option String
  JWT_REFRESH_EXPIRY : Option String
  accessTtl : Nat
  refreshTtl : Nat

/-- A signed token.  The signing library (`@fastify/jwt`, `jsonwebtoken`) is not
part of the repository; it is taken as an ideal signature scheme: a token carries
the payload it was signed over, the timing fields `iat` and `exp` the library adds
(seconds) and the secret it was signed with. -/
structure Token where
  claims : JwtClaims
  iat : Nat
  exp : Nat
  key : String
deriving DecidableEq

/-- The two failures of verification the handlers tell apart: `TokenExpiredError`
and any other error of the library. -/
inductive VerifyError where
  | expired
  | invalid
deriving DecidableEq

/-- `jwt.sign(payload, secret, { expiresIn })` at time `now`. -/
def jwtSign (payload : JwtClaims) (secret : String) (now ttl : Nat) : Token :=
  { claims := payload, iat := now, exp := now + ttl, key := secret }

/-- `jwt.verify(token, secret)` at time `now`: the signature is checked first, then
the expiry. -/
def jwtVerifyWith (secret : String) (now : Nat) (t : Token) : Except VerifyError Token :=
  if t.key != secret then .error .invalid
  else if now ≥ t.exp then .error .expired
  else .ok t

/-- What a client sends as a token: a text that is no token of the library, or a
signed token. -/
inductive RawToken where
  | garbage (text : String)
  | jwt (t : Token)
deriving DecidableEq

/-- `env.JWT_REFRESH_SECRET || env.JWT_SECRET + '_refresh'`. -/
def refreshSecret (env : Env) : String :=
  match env.JWT_REFRESH_SECRET with
  | some s => if s != "" then s else env.JWT_SECRET ++ "_refresh"
  | none => env.JWT_SECRET ++ "_refresh"

/-- The object `createTokens` returns. -/
structure TokenPair where
  accessToken : Token
  refreshToken : Token
  tokenDurationMs : Option Int
  refreshDurationMs : Option Int
deriving DecidableEq

/-- The argument `parseTimeToMs` receives for a variable of the environment. -/
def envTime : Option String → TimeInput
  | some s => .str s
  | none => .undefined

/-- The decorator `createTokens(payload)` at time `now`. -/
def createTokens (env : Env) (now : Nat) (payload : JwtClaims) : TokenPair :=
  { accessToken := jwtSign payload env.JWT_SECRET now env.accessTtl
    refreshToken := jwtSign payload (refreshSecret env) now env.refreshTtl
    tokenDurationMs := parseTimeToMs (envTime env.JWT_EXPIRY)
    refreshDurationMs := parseTimeToMs (envTime env.JWT_REFRESH_EXPIRY) }

/-- `request.jwtVerify()`: verification of the access token with the primary
secret. -/
def verifyAccessToken (env : Env) (now : Nat) : RawToken → Except VerifyError Token
  | .garbage _ => .error .invalid
  | .jwt t => jwtVerifyWith env.JWT_SECRET now t

/-- The decorator `verifyRefreshToken(token)`. -/
def verifyRefreshToken (env : Env) (now : Nat) : RawToken → Except VerifyError Token
  | .garbage _ => .error .invalid
  | .jwt t => jwtVerifyWith (refreshSecret env) now t

/-- The object the refresh handler hands to `reply.send`, with the status of the
reply.  Fields that are `none` are absent from the object. -/
structure RefreshReply where
  status : Nat
  code : Option String := none
  error : Option String := none
  token : Option Token := none
  refreshToken : Option RawToken := none
  message : Option String := none
deriving DecidableEq

/-- JavaScript `!refreshToken`: the field is missing or the empty string. -/
def refreshTokenMissing : Option RawToken → Bool
  | none => true
  | some (.garbage text) => text == ""
  | some (.jwt _) => false

/-- Handler of `POST /api/auth/refresh` at time `now`: the object it sends. -/
def postRefresh (env : Env) (now : Nat) (refreshToken : Option RawToken) : RefreshReply :=
  match refreshToken with
  | none => { status := 400, error := some "Refresh token requerido",
              code := some "REFRESH_TOKEN_MISSING" }
  | some raw =>
    if refreshTokenMissing (some raw) then
      { status := 400, error := some "Refresh token requerido",
        code := some "REFRESH_TOKEN_MISSING" }
    else
      match verifyRefreshToken env now raw with
      | .ok decoded =>
        { status := 200,
          token := some (jwtSign { usuario_id := decoded.claims.usuario_id,
                                   email := decoded.claims.email,
                                   roles := decoded.claims.roles }
                    env.JWT_SECRET now env.accessTtl),
          refreshToken := some raw,
          message := some "Token renovado exitosamente" }
      | .error .expired =>
        { status := 401, error := some "Refresh token expirado",
          code := some "REFRESH_TOKEN_EXPIRED" }
      | .error .invalid =>
        { status := 401, error := some "Refresh token inválido",
          code := some "REFRESH_TOKEN_INVALID" }

/-- The body of the refresh response as the framework serialises it.  The route
declares `schema: authSchemas.refresh`, whose `response` lists the properties
`token` and `message` for status 200 and `error` and `code` for status 401; for a
status with a response schema the framework serialises the listed properties only,
for the others the whole object. -/
def refreshResponse (r : RefreshReply) : RefreshReply :=
  if r.status == 200 then
    { status := r.status, token := r.token, message := r.message }
  else if r.status == 401 then
    { status := r.status, error := r.error, code := r.code }
  else r

/-- The request JWT check `request.jwtVerify()` as `authenticate` sees it: the
claims of the token, or the name of the error thrown. -/
def requestJwtVerify (env : Env) (now : Nat) (raw : RawToken) : Except String JwtClaims :=
  match verifyAccessToken env now raw with
  | .ok t => .ok t.claims
  | .error .expired => .error "TokenExpiredError"
  | .error .invalid => .error "JsonWebTokenError"

/-! ## Role sets (`AdminService.processUserRoles`, `parsePgArray`) -/

/-- The value the driver hands over for a `roles` column: absent (`null` or
`undefined`), a native array whose elements are strings or `null`, or the text of
a store array such as `{estudiante,docente}`. -/
inductive RolesRepr where
  | missing
  | array (xs : List (Option String))
  | text (s : String)
deriving DecidableEq

/-- The fields of a text separated by commas, JavaScript `split(',')`. -/
def splitComma : List Char → List (List Char)
  | [] => [[]]
  | c :: cs =>
    if c.toNat == 44 then [] :: splitComma cs
    else
      match splitComma cs with
      | [] => [[c]]
      | field :: fields => (c :: field) :: fields

/-- JavaScript `trim`. -/
def trim (cs : List Char) : List Char :=
  ((cs.dropWhile isJsSpace).reverse.dropWhile isJsSpace).reverse

/-- JavaScript `replace(/[{}]/g, '')`: every brace is removed. -/
def removeBraces (cs : List Char) : List Char :=
  cs.filter (fun c => !(c.toNat == 123 || c.toNat == 125))

/-- JavaScript `slice(1, -1)`: the text without its first and its last unit.  The
text is cut by characters, which are the units for the characters below U+10000. -/
def slice1 (cs : List Char) : List Char :=
  (cs.drop 1).dropLast

/-- `AdminService.processUserRoles`, on the `roles` of the user: the list of roles
it leaves in `user.roles`. -/
def processUserRoles : RolesRepr → List String
  | .missing => []
  | .array xs => xs.filterMap id
  | .text s =>
    if s == "" then []
    else
      (((splitComma (removeBraces s.toList)).map trim).filter
        (fun role => decide (role.length > 0))).map String.mk

/-- `parsePgArray` of `usuarioService.js`.  `filter(Boolean)` drops `null` and the
empty string from a native array. -/
def parsePgArray : RolesRepr → List String
  | .text s => ((splitComma (slice1 s.toList)).map trim).map String.mk
  | .array xs => xs.filterMap (fun x =>
      match x with
      | some role => if role != "" then some role else none
      | none => none)
  | .missing => []

/-- The roles of a user in `usuario_roles`, in table order. -/
def rolesOf (db : Db) (usuario_id : Nat) : List String :=
  (db.usuario_roles.filter (fun r => r.usuario_id == usuario_id)).map (fun r => r.rol)

/-- The text by which the store writes an array of role names, `NULL` standing for
a null element. -/
def pgArrayText (xs : List (Option String)) : String :=
  "\x7b" ++ ",".intercalate (xs.map (fun x => x.getD "NULL")) ++ "\x7d"

/-- What the driver hands over for an array column: a native array when it knows
the element type, the store's text otherwise (`asText`). -/
def driverRoles (asText : Bool) (xs : List (Option String)) : RolesRepr :=
  if asText then .text (pgArrayText xs) else .array xs

/-- One user of the list `getAllUsers` returns. -/
structure UsuarioConRoles where
  usuario : Usuario
  roles : List String
deriving DecidableEq

/-- `UsuarioService.getAllUsers`: every user in the order of `id`, the column
`COALESCE(array_agg(ur.rol) FILTER (WHERE ur.rol IS NOT NULL), '{}')` normalised by
`parsePgArray`. -/
def getAllUsers (asText : Bool) (db : Db) : List UsuarioConRoles :=
  (db.usuarios.insertionSort (fun a b => a.id ≤ b.id)).map (fun u =>
    { usuario := u,
      roles := parsePgArray (driverRoles asText ((rolesOf db u.id).map some)) })

/-- The body of a failure reply together with its status: the properties `error`
and `code` of the object handed to `reply.send`, `none` when the object lacks the
property. -/
structure FailureBody where
  status : Nat
  error : Option String
  code : Option String
deriving DecidableEq

/-- Handler of `GET /api/users`, run after `authenticate` let the request pass.
`store` is the relational store at the handler's query, `none` standing for a
store whose query rejects.  The route names `usuarioSchemas.getAllUsers`, which the
schema module does not export, so no response schema applies. -/
def getUsersRoute (asText : Bool) (store : Option Db) :
    Except FailureBody (List UsuarioConRoles) :=
  match store with
  | some db => .ok (getAllUsers asText db)
  | none => .error { status := 500, error := some storeError.message, code := none }

/-! ## Login and registration (`authService.js`, `routes/auth`) -/

/-- The rows of the login lookup
`WHERE u.email = $1 OR u.codigo_institucional = $2`, in table order. -/
def loginLookup (db : Db) (email cedula : String) : List Usuario :=
  db.usuarios.filter (fun u => u.email == email || u.codigo_institucional == some cedula)

/-- The column `array_agg(ur.rol)` of the login lookup for one user: the `LEFT JOIN`
gives a user without role rows one row with a null `rol`. -/
def arrayAggRoles (db : Db) (usuario_id : Nat) : List (Option String) :=
  match rolesOf db usuario_id with
  | [] => [none]
  | rol :: rest => (rol :: rest).map some

/-- The test `!usuario.roles || usuario.roles.length === 0 || usuario.roles[0] === null`
of `login`. -/
def rolesFaltan : RolesRepr → Bool
  | .missing => true
  | .array [] => true
  | .array (none :: _) => true
  | .array (some _ :: _) => false
  | .text s => s == ""

/-- The `roles` of `login` when none is missing: a native array is kept, a text is
cut by `replace(/[{}]/g, '').split(',').filter(Boolean)`.  A native array is
written as the list of its strings. -/
def rolesDeLogin : RolesRepr → List String
  | .missing => []
  | .array xs => xs.filterMap id
  | .text s =>
    (((splitComma (removeBraces s.toList)).filter
      (fun role => decide (role.length > 0)))).map String.mk

/-- The object `login` returns. -/
structure LoginResponse where
  token : Token
  refreshToken : Token
  tokenDurationMs : Option Int
  refreshDurationMs : Option Int
  id : Nat
  email : String
  codigo_institucional : Option String
  roles : List String
deriving DecidableEq

/-- The end of `login`: the tokens over `{usuario_id, email, roles}` and the
response. -/
def loginResponse (env : Env) (now : Nat) (usuario : Usuario) (roles : List String) :
    LoginResponse :=
  let tokens := createTokens env now
    { usuario_id := some usuario.id, email := usuario.email, roles := roles }
  { token := tokens.accessToken
    refreshToken := tokens.refreshToken
    tokenDurationMs := tokens.tokenDurationMs
    refreshDurationMs := tokens.refreshDurationMs
    id := usuario.id
    email := usuario.email
    codigo_institucional := usuario.codigo_institucional
    roles := roles }

/-- `AuthService.login` at time `now` on a store that answers every query.  The
password is not looked at; `cedula` is the number the stub of the external service
draws with `Math.random()`, as its decimal text; `asText` tells how the driver hands
over the aggregate of the roles. -/
def login (env : Env) (now : Nat) (asText : Bool) (db : Db) (email cedula : String) :
    Db × LoginResponse :=
  match loginLookup db email cedula with
  | [] =>
    -- INSERT INTO usuarios (codigo_institucional, email, ..., activo) RETURNING *
    let usuario : Usuario :=
      { id := db.usuarios_seq, email := email, activo := true,
        codigo_institucional := some cedula }
    let db1 : Db :=
      { db with usuarios := db.usuarios ++ [usuario], usuarios_seq := db.usuarios_seq + 1 }
    -- INSERT INTO usuario_roles (usuario_id, rol) VALUES ($1, 'estudiante')
    let db2 : Db :=
      { db1 with
        usuario_roles := db1.usuario_roles ++ [{ usuario_id := usuario.id, rol := "estudiante" }] }
    (db2, loginResponse env now usuario ["estudiante"])
  | usuario :: _ =>
    -- UPDATE usuarios SET activo = true WHERE id = $1
    let db1 : Db :=
      if !usuario.activo then
        { db with usuarios := db.usuarios.map (fun u =>
            if u.id == usuario.id then { u with activo := true } else u) }
      else db
    let roles := driverRoles asText (arrayAggRoles db usuario.id)
    if rolesFaltan roles then
      let db2 : Db :=
        { db1 with
          usuario_roles := db1.usuario_roles ++ [{ usuario_id := usuario.id, rol := "estudiante" }] }
      (db2, loginResponse env now usuario ["estudiante"])
    else
      (db1, loginResponse env now usuario (rolesDeLogin roles))

/-- `AdminService.deleteUser`: the store after the update and whether a row was
updated. -/
def deleteUser (db : Db) (id : Nat) : Db × Bool :=
  ({ db with usuarios := db.usuarios.map (fun u =>
      if u.id == id && u.activo then { u with activo := false } else u) },
    !(db.usuarios.filter (fun u => u.id == id && u.activo)).isEmpty)

/-- `AdminService.toggleUserStatus`: the store after the update and whether a row
was updated. -/
def toggleUserStatus (db : Db) (userId : Nat) (active : Bool) : Db × Bool :=
  ({ db with usuarios := db.usuarios.map (fun u =>
      if u.id == userId then { u with activo := active } else u) },
    !(db.usuarios.filter (fun u => u.id == userId)).isEmpty)

/-- The body of `POST /api/auth/register`. -/
structure RegisterBody where
  email : String
  nombres : String
  apellidos : String
  codigo_institucional : Option String := none
  password : Option String := none
deriving DecidableEq

/-- The call `authService.register(fastify, request.body)`.  The class `AuthService`
defines the method `login` and no other, so the property `register` is `undefined`
and the call throws a `TypeError`, which carries no `code`; the store is not
reached. -/
def authServiceRegister (db : Db) (_body : RegisterBody) : Outcome Usuario :=
  { db := db,
    result := .error { message := "authService.register is not a function", code := none } }

/-- Handler of `POST /api/auth/register` on a body that passed the validation of
the schema. -/
def postRegister (db : Db) (body : RegisterBody) : Reply × Db :=
  let out := authServiceRegister db body
  match out.result with
  | .ok _ => ({ status := 201, code := "" }, out.db)
  | .error e =>
    if e.code == some "23505" then ({ status := 409, code := "EMAIL_EXISTS" }, out.db)
    else ({ status := 500, code := "REGISTRATION_ERROR" }, out.db)

/-! ## The admin gate (`routes/admin`) -/

/-- The `requireAdmin` pre-handler of the admin routes.  It first runs
`authenticate`; a reply sent there is the reply of the request.  Otherwise the roles
of the token decide. -/
def requireAdmin (store : Option Db) (jwtVerify : Except String JwtClaims) : Gate :=
  match authenticate store jwtVerify with
  | .reply r => .reply r
  | .pass =>
    match jwtVerify with
    | .error _ => .reply { status := 401, code := "UNAUTHORIZED" }
    | .ok user =>
      if !user.roles.contains "administrador" then
        .reply { status := 403, code := "ADMIN_ACCESS_REQUIRED" }
      else .pass

/-! ## Error codes (`errorHandler.js`) -/

/-- The object literal `statusMap` of `getStatusCodeFromErrorCode`. -/
def statusMap : List (String × Nat) :=
  [("INVALID_CREDENTIALS", 401), ("USER_INACTIVE", 401), ("INVALID_TOKEN", 401),
   ("TOKEN_EXPIRED", 401), ("INSUFFICIENT_ROLE", 403), ("ACCESS_DENIED", 403),
   ("UNAUTHORIZED", 401),
   ("USER_NOT_FOUND", 404), ("COURSE_NOT_FOUND", 404), ("ACTIVITY_NOT_FOUND", 404),
   ("LEVEL_NOT_FOUND", 404), ("EXAM_NOT_FOUND", 404),
   ("EMAIL_EXISTS", 409), ("COURSE_CODE_EXISTS", 409), ("ALREADY_ENROLLED", 409),
   ("ALREADY_ASSIGNED", 409), ("DUPLICATE_RESOURCE", 409),
   ("VALIDATION_ERROR", 400), ("INVALID_DATA", 400), ("MISSING_REQUIRED_FIELD", 400),
   ("INVALID_FORMAT", 400),
   ("ACTIVITY_NOT_UNLOCKED", 403), ("COURSE_NOT_AVAILABLE", 403), ("EXAM_TIME_EXPIRED", 410),
   ("MAX_ATTEMPTS_REACHED", 429), ("INSUFFICIENT_PERMISSIONS", 403),
   ("RATE_LIMIT_EXCEEDED", 429), ("FILE_TOO_LARGE", 413), ("QUOTA_EXCEEDED", 429),
   ("DATABASE_ERROR", 500), ("EXTERNAL_SERVICE_ERROR", 502), ("CONFIGURATION_ERROR", 500)]

/-- The property names every object literal inherits from `Object.prototype`; each
holds a function, or for `__proto__` the prototype object. -/
def objectPrototypeKeys : List String :=
  ["constructor", "__defineGetter__", "__defineSetter__", "hasOwnProperty",
   "__lookupGetter__", "__lookupSetter__", "isPrototypeOf", "propertyIsEnumerable",
   "toString", "valueOf", "__proto__", "toLocaleString"]

/-- A value `getStatusCodeFromErrorCode` can return: a number, or the object found
under an inherited property name. -/
inductive StatusValue where
  | number (n : Nat)
  | inherited (name : String)
deriving DecidableEq

/-- `getStatusCodeFromErrorCode`: `statusMap[errorCode] || 500`.  The lookup of a
property on an object literal finds its own keys first, then those of
`Object.prototype`; a number other than 0 and an object are truthy. -/
def getStatusCodeFromErrorCode (errorCode : String) : StatusValue :=
  match statusMap.lookup errorCode with
  | some n => if n != 0 then .number n else .number 500
  | none =>
    if objectPrototypeKeys.contains errorCode then .inherited errorCode
    else .number 500

/-! ## Concrete stores used by the evaluations below -/

/-- The active schedule 1 with five slots, `ocupados` of them taken. -/
def horarioUno (ocupados : Int) : HorarioExamen :=
  { id := 1, fecha_examen := 20000, hora_inicio := 32400, hora_fin := 36000,
    cupos_disponibles := 5, cupos_ocupados := ocupados, activo := true, creado_por := 1 }

/-- User 2 owns student record 7 and has no booking; the only booking of schedule 1
belongs to user 9, whose student record happens to carry the id 2. -/
def dbOtherStudentBooked : Db :=
  { Db.empty with
    estudiantes := [{ id := 7, usuario_id := 2 }, { id := 2, usuario_id := 9 }],
    horarios_examenes := [horarioUno 1],
    agendamientos_examen := [{ id := 1, horario_examen_id := 1, estudiante_id := 2,
                               estado := "agendado" }],
    agendamientos_examen_seq := 2 }

/-- User 2 owns student record 7, which is already booked into schedule 1. -/
def dbAlreadyBooked : Db :=
  { Db.empty with
    estudiantes := [{ id := 7, usuario_id := 2 }],
    horarios_examenes := [horarioUno 1],
    agendamientos_examen := [{ id := 1, horario_examen_id := 1, estudiante_id := 7,
                               estado := "agendado" }],
    agendamientos_examen_seq := 2 }

/-- Schedule 1 with no bookings and `cupos_ocupados = 0`; user 2 owns student record 7. -/
def dbFreshSchedule : Db :=
  { Db.empty with
    estudiantes := [{ id := 7, usuario_id := 2 }],
    horarios_examenes := [horarioUno 0] }

/-- Course 1 with user 2 (a student) already enrolled once. -/
def dbEnrolledOnce : Db :=
  { Db.empty with
    usuarios := [{ id := 2, email := "a@b.com", activo := true }],
    usuario_roles := [{ usuario_id := 2, rol := "estudiante" }],
    cursos := [{ id := 1, nombre := "Algebra", activo := true }],
    curso_estudiantes := [{ id := 1, curso_id := 1, usuario_id := 2, estado := "inscrito" }],
    curso_estudiantes_seq := 2 }

/-- Course 1 and the active student user 2, not yet enrolled. -/
def dbNotEnrolled : Db :=
  { dbEnrolledOnce with curso_estudiantes := [], curso_estudiantes_seq := 1 }

/-- User 1 holds the role `administrador` in `usuario_roles`. -/
def dbAdminRole : Db :=
  { Db.empty with
    usuarios := [{ id := 1, email := "root@b.com", activo := true }],
    usuario_roles := [{ usuario_id := 1, rol := "administrador" }] }

/-- Course 1 with user 2 enrolled and graded 45. -/
def dbGraded : Db :=
  { dbEnrolledOnce with
    curso_estudiantes := [{ id := 1, curso_id := 1, usuario_id := 2, estado := "inscrito",
                            nota_final := some 45, fecha_estado := 10 }] }

/-- Schedule 1 with three of its five slots taken. -/
def dbThreeTaken : Db :=
  { Db.empty with horarios_examenes := [horarioUno 3] }

/-- An environment with the refresh secret unset and lives of one hour and one
day. -/
def envSample : Env :=
  { JWT_SECRET := "clave", JWT_REFRESH_SECRET := none,
    JWT_EXPIRY := some "1h", JWT_REFRESH_EXPIRY := some "1d",
    accessTtl := 3600, refreshTtl := 86400 }

/-- The payload of `test-jwt.js`. -/
def payloadSample : JwtClaims :=
  { usuario_id := some 27, email := "asasa123@utm.edu.ec", roles := ["estudiante"] }

/-- One user, `x@y.com`, with the institutional code `1234567890` and the role
`docente`. -/
def dbOneTeacher : Db :=
  { Db.empty with
    usuarios := [{ id := 1, email := "x@y.com", activo := true,
                   codigo_institucional := some "1234567890" }],
    usuario_roles := [{ usuario_id := 1, rol := "docente" }],
    usuarios_seq := 2 }

/-- User 1 is active and holds no role in `usuario_roles`: the store `dbAdminRole`
after the role `administrador` was removed. -/
def dbRoleRemoved : Db :=
  { dbAdminRole with usuario_roles := [] }

/-- The claims of a token signed for user 1 while the user held the role
`administrador`. -/
def adminClaims : JwtClaims :=
  { usuario_id := some 1, email := "root@b.com", roles := ["administrador"] }

/-- Course 1, the student user 2 and the active user 3, who holds no role; nobody
is enrolled. -/
def dbRolelessUser : Db :=
  { dbNotEnrolled with
    usuarios := [{ id := 2, email := "a@b.com", activo := true },
                 { id := 3, email := "c@d.com", activo := true }] }

/-- Course 1 and user 2, who holds the role `estudiante` and is not active; nobody is
enrolled. -/
def dbInactiveStudent : Db :=
  { dbNotEnrolled with
    usuarios := [{ id := 2, email := "a@b.com", activo := false }] }

/-- The store `dbOneTeacher` with a second user, `z@w.com`, who holds the role
`estudiante` and has been deactivated. -/
def dbInactiveSecond : Db :=
  { dbOneTeacher with
    usuarios := dbOneTeacher.usuarios ++
      [{ id := 2, email := "z@w.com", activo := false,
         codigo_institucional := some "2222222222" }],
    usuario_roles := dbOneTeacher.usuario_roles ++ [{ usuario_id := 2, rol := "estudiante" }],
    usuarios_seq := 3 }

/-! ## Exam scheduling: the duplicate check of `addStudentToExamSchedule` -/

/-- C1: at this store user 2 has student record 7, that record has no booking in the
active schedule 1 and one of five slots is taken, yet `addStudentToExamSchedule`
throws the already-scheduled error (409 at the route): its duplicate check compares
`estudiante_id` with the user id 2, which is the student record of another user. -/
theorem addStudent_rejects_user_without_booking :
    (dbOtherStudentBooked.estudiantes.filter (fun e => e.usuario_id == 2)).map (fun e => e.id)
        = [7] ∧
    dbOtherStudentBooked.agendamientos_examen.filter
        (fun a => a.horario_examen_id == 1 && a.estudiante_id == 7) = [] ∧
    dbOtherStudentBooked.horarios_examenes.map
        (fun h => (h.id, h.activo, h.cupos_ocupados, h.cupos_disponibles)) = [(1, true, 1, 5)] ∧
    (addStudentToExamSchedule dbOtherStudentBooked 1 2).result
        = .error { message := "El estudiante ya está agendado para este horario" } ∧
    (postExamScheduleStudents dbOtherStudentBooked 1 2).2
        = { status := 409, code := "STUDENT_ALREADY_SCHEDULED" } := by
  decide

/-- C2: at this store the student record 7 of user 2 is already booked into
schedule 1, yet `addStudentToExamSchedule` succeeds (201 at the route) and inserts a
second booking row for the same (schedule, student) pair; two serial adds for user 2
on a schedule without bookings leave the same two rows. -/
theorem addStudent_inserts_duplicate_booking :
    (dbAlreadyBooked.agendamientos_examen.filter
        (fun a => a.horario_examen_id == 1 && a.estudiante_id == 7)).length = 1 ∧
    (addStudentToExamSchedule dbAlreadyBooked 1 2).result
        = .ok { id := 2, horario_examen_id := 1, estudiante_id := 7, estado := "agendado" } ∧
    (postExamScheduleStudents dbAlreadyBooked 1 2).2 = { status := 201, code := "" } ∧
    ((postExamScheduleStudents dbAlreadyBooked 1 2).1.agendamientos_examen.filter
        (fun a => a.horario_examen_id == 1 && a.estudiante_id == 7)).length = 2 ∧
    ((runExamCalls dbFreshSchedule [.add 1 2, .add 1 2]).agendamientos_examen.filter
        (fun a => a.horario_examen_id == 1 && a.estudiante_id == 7)).length = 2 := by
  decide

/-- C3: from schedule 1 with no bookings and `cupos_ocupados = 0`, the serial calls
add, add, remove for user 2 all succeed and leave `cupos_ocupados = 1` while no
booking row references the schedule: the second add inserts a duplicate row and the
remove deletes both rows but decrements once. -/
theorem counter_drifts_after_add_add_remove :
    bookingsOf dbFreshSchedule 1 = [] ∧
    (addStudentToExamSchedule dbFreshSchedule 1 2).result.toBool = true ∧
    (addStudentToExamSchedule (runExamCalls dbFreshSchedule [.add 1 2]) 1 2).result.toBool
        = true ∧
    (removeStudentFromExamSchedule (runExamCalls dbFreshSchedule [.add 1 2, .add 1 2]) 1
        2).result.toBool = true ∧
    dbFreshSchedule.horarios_examenes.map (fun h => h.cupos_ocupados) = [0] ∧
    (runExamCalls dbFreshSchedule [.add 1 2, .add 1 2, .remove 1 2]).horarios_examenes.map
        (fun h => h.cupos_ocupados) = [1] ∧
    (bookingsOf (runExamCalls dbFreshSchedule [.add 1 2, .add 1 2, .remove 1 2]) 1).length
        = 0 := by
  decide

/-! ## Request gates -/

/-- A filtered list is non-empty exactly when some row satisfies the predicate. -/
theorem filter_cons_iff {α : Type} (p : α → Bool) (l : List α) :
    (∃ x xs, l.filter p = x :: xs) ↔ ∃ x ∈ l, p x = true := by
  constructor
  · rintro ⟨x, xs, h⟩
    have hx : x ∈ l.filter p := by rw [h]; exact List.mem_cons_self _ _
    exact ⟨x, (List.mem_filter.mp hx).1, (List.mem_filter.mp hx).2⟩
  · rintro ⟨x, hx, hp⟩
    have hmem : x ∈ l.filter p := List.mem_filter.mpr ⟨hx, hp⟩
    cases h : l.filter p with
    | nil => rw [h] at hmem; exact absurd hmem (List.not_mem_nil _)
    | cons y ys => exact ⟨y, ys, rfl⟩

/-- A filtered list is empty exactly when no row satisfies the predicate. -/
theorem filter_nil_iff {α : Type} (p : α → Bool) (l : List α) :
    l.filter p = [] ↔ ∀ x ∈ l, p x = false := by
  rw [List.filter_eq_nil_iff]
  constructor
  · intro h x hx
    simpa using h x hx
  · intro h x hx
    simp [h x hx]

/-- C4, as stated, fails: a context whose token carries `roles = []` passes
`authorize(['administrador'])` when `usuario_roles` holds the role for the user, and
a context whose token carries `['administrador']` is answered 403 when the table
holds no row for the user. -/
theorem authorize_ignores_context_roles :
    (({ usuario_id := some 1, email := "root@b.com", roles := [] } : JwtClaims).roles = []) ∧
    authorize (some dbAdminRole) ["administrador"]
        { usuario_id := some 1, email := "root@b.com", roles := [] } = .pass ∧
    authorize (some Db.empty) ["administrador"]
        { usuario_id := some 1, email := "root@b.com", roles := ["administrador"] }
      = .reply { status := 403, code := "INSUFFICIENT_ROLE" } := by
  decide

/-- C4, amended: `authorize(allowedRoles)` lets the request through exactly when
`usuario_roles` holds a row for the context's `usuario_id` whose `rol` is one of
`allowedRoles`; otherwise it answers 403 INSUFFICIENT_ROLE, in particular for every
user without a role row, and 500 AUTHORIZATION_ERROR when the query rejects. -/
theorem authorize_pass_iff_store_role (db : Db) (allowedRoles : List String)
    (user : JwtClaims) :
    (authorize (some db) allowedRoles user = .pass ↔
      ∃ r ∈ db.usuario_roles, some r.usuario_id = user.usuario_id ∧ r.rol ∈ allowedRoles) ∧
    (authorize (some db) allowedRoles user ≠ .pass →
      authorize (some db) allowedRoles user
        = .reply { status := 403, code := "INSUFFICIENT_ROLE" }) ∧
    ((∀ r ∈ db.usuario_roles, some r.usuario_id ≠ user.usuario_id) →
      authorize (some db) allowedRoles user
        = .reply { status := 403, code := "INSUFFICIENT_ROLE" }) ∧
    authorize none allowedRoles user
      = .reply { status := 500, code := "AUTHORIZATION_ERROR" } := by
  refine ⟨?_, ?_, ?_, rfl⟩
  · simp only [authorize]
    split
    · next h =>
      simp only [false_iff, reduceCtorEq]
      rintro ⟨r, hr, h1, h2⟩
      have := (filter_nil_iff _ _).mp h r hr
      simp [h1, h2] at this
    · next y ys h =>
      simp only [true_iff]
      obtain ⟨r, hr, hp⟩ := (filter_cons_iff _ _).mp ⟨y, ys, h⟩
      refine ⟨r, hr, ?_⟩
      simpa using hp
  · simp only [authorize]
    split <;> simp
  · intro hno
    simp only [authorize]
    split
    · rfl
    · next y ys h =>
      obtain ⟨r, hr, hp⟩ := (filter_cons_iff _ _).mp ⟨y, ys, h⟩
      simp only [Bool.and_eq_true, beq_iff_eq] at hp
      exact absurd hp.1 (hno r hr)

/-- C9: the API-key hook lets a request pass exactly when its route is one of the
five public paths or its `x-api-key` header is present (JavaScript truthiness: it
carries a non-empty value) and equal to the configured secret; every other request
is answered 401 INVALID_API_KEY, in particular every non-public request when no
secret is configured (the variable is unset or empty). -/
theorem apiKeyAuth_pass_iff (secreta routeUrl apiKey : Option String) :
    (apiKeyAuth secreta routeUrl apiKey = .pass ↔
      (∃ url, routeUrl = some url ∧
        url ∈ ["/", "/health", "/docs", "/docs/json", "/api/auth/login"]) ∨
      (∃ k, k ≠ "" ∧ apiKey = some k ∧ secreta = some k)) ∧
    (apiKeyAuth secreta routeUrl apiKey ≠ .pass →
      apiKeyAuth secreta routeUrl apiKey
        = .reply { status := 401, code := "INVALID_API_KEY" }) ∧
    ((secreta = none ∨ secreta = some "") →
      (∀ url, routeUrl = some url →
        url ∉ ["/", "/health", "/docs", "/docs/json", "/api/auth/login"]) →
      apiKeyAuth secreta routeUrl apiKey
        = .reply { status := 401, code := "INVALID_API_KEY" }) := by
  have hpub : ∀ r : Option String,
      (match r with
        | some url => rutasPublicas.contains url
        | none => false) = true ↔
      ∃ url, r = some url ∧
        url ∈ ["/", "/health", "/docs", "/docs/json", "/api/auth/login"] := by
    intro r
    cases r with
    | none => simp
    | some u => simp [rutasPublicas]
  have hkey : (!truthyStr apiKey || apiKey != secreta) = false ↔
      ∃ k, k ≠ "" ∧ apiKey = some k ∧ secreta = some k := by
    cases apiKey with
    | none => simp [truthyStr]
    | some a =>
      cases secreta with
      | none => simp [truthyStr]
      | some b =>
        simp only [truthyStr, Bool.or_eq_false_iff, Bool.not_eq_false', bne_iff_ne, ne_eq,
          Option.some.injEq, bne_eq_false_iff_eq]
        constructor
        · rintro ⟨h1, h2⟩
          exact ⟨a, h1, rfl, h2 ▸ rfl⟩
        · rintro ⟨k, h1, h2, h3⟩
          subst h2
          exact ⟨h1, h3.symm ▸ rfl⟩
  have main : apiKeyAuth secreta routeUrl apiKey = .pass ↔
      (∃ url, routeUrl = some url ∧
        url ∈ ["/", "/health", "/docs", "/docs/json", "/api/auth/login"]) ∨
      (∃ k, k ≠ "" ∧ apiKey = some k ∧ secreta = some k) := by
    unfold apiKeyAuth
    by_cases hp : (match routeUrl with
        | some url => rutasPublicas.contains url
        | none => false) = true
    · rw [if_pos hp]
      simp only [true_iff]
      exact Or.inl ((hpub routeUrl).mp hp)
    · rw [if_neg hp]
      have hp2 : ¬ ∃ url, routeUrl = some url ∧
          url ∈ ["/", "/health", "/docs", "/docs/json", "/api/auth/login"] :=
        fun h => hp ((hpub routeUrl).mpr h)
      by_cases hk : (!truthyStr apiKey || apiKey != secreta) = true
      · rw [if_pos hk]
        have hk2 : ¬ ∃ k, k ≠ "" ∧ apiKey = some k ∧ secreta = some k := by
          intro h
          have := hkey.mpr h
          rw [hk] at this
          cases this
        simp only [reduceCtorEq, false_iff, not_or]
        exact ⟨hp2, hk2⟩
      · rw [if_neg hk]
        simp only [true_iff]
        exact Or.inr (hkey.mp (by simpa using hk))
  have other : apiKeyAuth secreta routeUrl apiKey ≠ .pass →
      apiKeyAuth secreta routeUrl apiKey
        = .reply { status := 401, code := "INVALID_API_KEY" } := by
    unfold apiKeyAuth
    split
    · simp
    · split <;> simp
  refine ⟨main, other, ?_⟩
  intro hs hr
  apply other
  rw [Ne, main]
  rintro (⟨url, h1, h2⟩ | ⟨k, h1, h2, h3⟩)
  · exact hr url h1 h2
  · rcases hs with hs | hs
    · rw [hs] at h3; cases h3
    · rw [hs] at h3
      exact h1 (Option.some.inj h3).symm

/-- With unique ids, the first row selected by id is the only row with that id. -/
theorem usuarios_head_of_pk (l : List Usuario) (uid : Nat)
    (hpk : (l.map (fun u => u.id)).Nodup) (row : Usuario) (rest : List Usuario)
    (h : l.filter (fun u => u.id == uid) = row :: rest) :
    ∀ u ∈ l, u.id = uid → u = row := by
  intro u hu hid
  have hrow : row ∈ l.filter (fun u => u.id == uid) := by rw [h]; exact List.mem_cons_self _ _
  have hr := List.mem_filter.mp hrow
  have hrid : row.id = uid := by simpa using hr.2
  exact List.inj_on_of_nodup_map hpk hu hr.1 (hid.trans hrid.symm)

/-- C8: with `usuarios.id` a key, `authenticate` accepts a request exactly when the
token verifies, its claims carry a non-empty `usuario_id` (JavaScript truthiness:
present and not 0) and the
store holds a row with that id whose `activo` is true; it answers 401 USER_INACTIVE
when no such row exists, 401 INVALID_TOKEN when the token does not verify and
401 INVALID_TOKEN_PAYLOAD when `usuario_id` is missing or 0. -/
theorem authenticate_accepts_iff (db : Db) (jwtVerify : Except String JwtClaims)
    (hpk : (db.usuarios.map (fun u => u.id)).Nodup) :
    (authenticate (some db) jwtVerify = .pass ↔
      ∃ user uid, jwtVerify = .ok user ∧ user.usuario_id = some uid ∧ uid ≠ 0 ∧
        ∃ u ∈ db.usuarios, u.id = uid ∧ u.activo = true) ∧
    (∀ user uid, jwtVerify = .ok user → user.usuario_id = some uid → uid ≠ 0 →
      (¬ ∃ u ∈ db.usuarios, u.id = uid ∧ u.activo = true) →
      authenticate (some db) jwtVerify = .reply { status := 401, code := "USER_INACTIVE" }) ∧
    (∀ msg, jwtVerify = .error msg →
      authenticate (some db) jwtVerify = .reply { status := 401, code := "INVALID_TOKEN" }) ∧
    (∀ user, jwtVerify = .ok user → (user.usuario_id = none ∨ user.usuario_id = some 0) →
      authenticate (some db) jwtVerify
        = .reply { status := 401, code := "INVALID_TOKEN_PAYLOAD" }) := by
  have core : ∀ user uid, jwtVerify = .ok user → user.usuario_id = some uid → uid ≠ 0 →
      (authenticate (some db) jwtVerify = .pass ↔
        ∃ u ∈ db.usuarios, u.id = uid ∧ u.activo = true) ∧
      ((¬ ∃ u ∈ db.usuarios, u.id = uid ∧ u.activo = true) →
        authenticate (some db) jwtVerify
          = .reply { status := 401, code := "USER_INACTIVE" }) := by
    intro user uid hv hid h0
    subst hv
    have htr : truthyId (some uid) = true := by simp [truthyId, h0]
    simp only [authenticate, hid, htr, Bool.not_true, Bool.false_eq_true, ↓reduceIte]
    rw [show (fun u : Usuario => some u.id == some uid) = (fun u => u.id == uid) from by
      funext u; simp]
    split
    · next h =>
      have hn : ¬ ∃ u ∈ db.usuarios, u.id = uid ∧ u.activo = true := by
        rintro ⟨u, hu, h1, _⟩
        have := (filter_nil_iff _ _).mp h u hu
        simp [h1] at this
      exact ⟨by simp only [reduceCtorEq, false_iff]; exact hn, fun _ => rfl⟩
    · next row rest h =>
      have huniq := usuarios_head_of_pk db.usuarios uid hpk row rest h
      have hrow : row ∈ db.usuarios.filter (fun u => u.id == uid) := by
        rw [h]; exact List.mem_cons_self _ _
      have hr := List.mem_filter.mp hrow
      have hrid : row.id = uid := by simpa using hr.2
      by_cases ha : row.activo = true
      · simp only [ha, Bool.not_true, Bool.false_eq_true, ↓reduceIte, true_iff]
        exact ⟨⟨row, hr.1, hrid, ha⟩, fun hn => absurd ⟨row, hr.1, hrid, ha⟩ hn⟩
      · have hn : ¬ ∃ u ∈ db.usuarios, u.id = uid ∧ u.activo = true := by
          rintro ⟨u, hu, h1, h2⟩
          rw [huniq u hu h1] at h2
          exact ha h2
        simp only [Bool.not_eq_true] at ha
        simp only [ha, Bool.not_false, ↓reduceIte, reduceCtorEq, false_iff]
        exact ⟨hn, fun _ => trivial⟩
  refine ⟨?_, ?_, ?_, ?_⟩
  · constructor
    · intro hp
      cases hv : jwtVerify with
      | error msg => rw [hv] at hp; simp [authenticate] at hp
      | ok user =>
        cases hid : user.usuario_id with
        | none => rw [hv] at hp; simp [authenticate, hid, truthyId] at hp
        | some uid =>
          by_cases h0 : uid = 0
          · rw [hv] at hp; simp [authenticate, hid, truthyId, h0] at hp
          · exact ⟨user, uid, rfl, hid, h0, ((core user uid hv hid h0).1).mp hp⟩
    · rintro ⟨user, uid, hv, hid, h0, hex⟩
      exact ((core user uid hv hid h0).1).mpr hex
  · intro user uid hv hid h0 hn
    exact (core user uid hv hid h0).2 hn
  · intro msg hv
    subst hv
    rfl
  · intro user hv hid
    subst hv
    rcases hid with hid | hid <;> simp [authenticate, hid, truthyId]

/-- Witness for C8: the active user 1 of `dbAdminRole` is accepted. -/
theorem authenticate_accepts_iff_witness :
    authenticate (some dbAdminRole)
      (.ok { usuario_id := some 1, email := "root@b.com", roles := ["administrador"] })
      = .pass :=
  (authenticate_accepts_iff dbAdminRole
    (.ok { usuario_id := some 1, email := "root@b.com", roles := ["administrador"] })
    (by decide)).1.mpr
    ⟨_, 1, rfl, rfl, by decide,
      { id := 1, email := "root@b.com", activo := true }, by decide, rfl, rfl⟩

/-- A filtered list is non-empty exactly when some row satisfies the predicate. -/
theorem filter_isEmpty_false_iff {α : Type} (p : α → Bool) (l : List α) :
    (l.filter p).isEmpty = false ↔ ∃ x ∈ l, p x = true := by
  rw [← filter_cons_iff]
  cases l.filter p with
  | nil => simp
  | cons y ys => simp

/-- C5: `requireCourseAccess` lets the request pass exactly when the user is an
active teacher of the course or has an enrollment in it whose status is not
`retirado`; on a pass it stores `docente` or `estudiante` in `request.courseAccess`
and the stored relationship is one the user really has; a user with neither
relationship (a student whose enrollments are all `retirado`, or a stranger) is
answered 403 COURSE_ACCESS_DENIED and nothing is stored. -/
theorem requireCourseAccess_grants_iff (db : Db) (docenteFirst : Bool) (courseId : Nat)
    (user : JwtClaims) :
    ((requireCourseAccess (some db) docenteFirst courseId user).1 = .pass ↔
      IsActiveTeacher db courseId user ∨ IsEnrolledStudent db courseId user) ∧
    ((requireCourseAccess (some db) docenteFirst courseId user).1 = .pass →
      ((requireCourseAccess (some db) docenteFirst courseId user).2 = some "docente" ∧
          IsActiveTeacher db courseId user) ∨
      ((requireCourseAccess (some db) docenteFirst courseId user).2 = some "estudiante" ∧
          IsEnrolledStudent db courseId user)) ∧
    (¬ IsActiveTeacher db courseId user → ¬ IsEnrolledStudent db courseId user →
      requireCourseAccess (some db) docenteFirst courseId user
        = (.reply { status := 403, code := "COURSE_ACCESS_DENIED" }, none)) := by
  have hd : (db.curso_docentes.filter (fun d =>
        d.curso_id == courseId && some d.usuario_id == user.usuario_id && d.activo)).isEmpty
        = false ↔ IsActiveTeacher db courseId user := by
    rw [filter_isEmpty_false_iff]
    unfold IsActiveTeacher
    constructor
    · rintro ⟨d, hd, hp⟩
      exact ⟨d, hd, by simpa [and_assoc] using hp⟩
    · rintro ⟨d, hd, hp⟩
      exact ⟨d, hd, by simpa [and_assoc] using hp⟩
  have he : (db.curso_estudiantes.filter (fun e =>
        e.curso_id == courseId && some e.usuario_id == user.usuario_id
          && e.estado != "retirado")).isEmpty
        = false ↔ IsEnrolledStudent db courseId user := by
    rw [filter_isEmpty_false_iff]
    unfold IsEnrolledStudent
    constructor
    · rintro ⟨d, hd, hp⟩
      exact ⟨d, hd, by simpa [and_assoc] using hp⟩
    · rintro ⟨d, hd, hp⟩
      exact ⟨d, hd, by simpa [and_assoc] using hp⟩
  cases hA : (db.curso_docentes.filter (fun d =>
        d.curso_id == courseId && some d.usuario_id == user.usuario_id && d.activo)).isEmpty <;>
  cases hB : (db.curso_estudiantes.filter (fun e =>
        e.curso_id == courseId && some e.usuario_id == user.usuario_id
          && e.estado != "retirado")).isEmpty <;>
  cases docenteFirst <;>
  simp only [hA, hB, true_iff, false_iff, Bool.true_eq_false, Bool.false_eq_true] at hd he <;>
  simp [requireCourseAccess, courseAccessRows, hA, hB, hd, he]

/-! ## Enrollment -/

/-- After the insert, the pair that had no row has exactly the inserted one. -/
theorem insert_enrollmentsOf (db : Db) (courseId usuario_id : Nat) (estado : String)
    (h : db.curso_estudiantes.filter
        (fun e => e.curso_id == courseId && e.usuario_id == usuario_id) = []) :
    (insertCursoEstudiante db courseId usuario_id estado).2.curso_estudiantes.filter
        (fun e => e.curso_id == courseId && e.usuario_id == usuario_id)
      = [(insertCursoEstudiante db courseId usuario_id estado).1] := by
  simp [insertCursoEstudiante, List.filter_append, h]

/-- Two requests in a row through `POST /api/courses/:id/enroll-student`. -/
theorem postEnrollStudent_twice (db : Db) (courseId usuario_id : Nat) (estado estado2 : String)
    (h : (postEnrollStudent db courseId usuario_id estado).2.status = 201) :
    postEnrollStudent (postEnrollStudent db courseId usuario_id estado).1 courseId usuario_id
        estado2
      = ((postEnrollStudent db courseId usuario_id estado).1,
          { status := 409, code := "ALREADY_ENROLLED" }) ∧
    (enrollmentsOf (postEnrollStudent db courseId usuario_id estado).1 courseId
        usuario_id).length = 1 := by
  unfold postEnrollStudent at h
  split at h
  · simp at h
  · next c cs hc =>
    split at h
    · simp at h
    · next u us hu =>
      split at h
      · simp at h
      · next he =>
        have hdb : (postEnrollStudent db courseId usuario_id estado).1
            = (insertCursoEstudiante db courseId usuario_id estado).2 := by
          simp only [postEnrollStudent, hc, hu, he]
        rw [hdb]
        have hins := insert_enrollmentsOf db courseId usuario_id estado he
        refine ⟨?_, ?_⟩
        · have h1 : (insertCursoEstudiante db courseId usuario_id estado).2.cursos = db.cursos :=
            rfl
          have h2 : (insertCursoEstudiante db courseId usuario_id estado).2.usuarios
              = db.usuarios := rfl
          have h3 : (insertCursoEstudiante db courseId usuario_id estado).2.usuario_roles
              = db.usuario_roles := rfl
          simp only [postEnrollStudent, h1, h2, h3, hc, hu, hins]
        · simp only [enrollmentsOf, hins, List.length_singleton]

/-- Two requests in a row through `POST /api/courses/:id/assign-student`. -/
theorem postAssignStudent_twice (db : Db) (courseId usuario_id : Nat) (estado estado2 : String)
    (h : (postAssignStudent db courseId usuario_id estado).2.status = 201) :
    postAssignStudent (postAssignStudent db courseId usuario_id estado).1 courseId usuario_id
        estado2
      = ((postAssignStudent db courseId usuario_id estado).1,
          { status := 409, code := "ALREADY_ENROLLED" }) ∧
    (enrollmentsOf (postAssignStudent db courseId usuario_id estado).1 courseId
        usuario_id).length = 1 := by
  unfold postAssignStudent assignStudentToCourse at h
  split at h
  · simp at h
  · next r rs hr =>
    split at h
    · simp at h
    · next c cs hc =>
      split at h
      · simp at h
      · next he =>
        have hdb : (postAssignStudent db courseId usuario_id estado).1
            = (insertCursoEstudiante db courseId usuario_id estado).2 := by
          simp only [postAssignStudent, assignStudentToCourse, hr, hc, he]
        rw [hdb]
        have hins := insert_enrollmentsOf db courseId usuario_id estado he
        refine ⟨?_, ?_⟩
        · have h1 : (insertCursoEstudiante db courseId usuario_id estado).2.cursos = db.cursos :=
            rfl
          have h3 : (insertCursoEstudiante db courseId usuario_id estado).2.usuario_roles
              = db.usuario_roles := rfl
          simp [postAssignStudent, assignStudentToCourse, h1, h3, hr, hc, hins]
        · simp only [enrollmentsOf, hins, List.length_singleton]

/-- Two requests in a row through `POST /api/users/enroll/:courseId`. -/
theorem postUserEnroll_twice (db : Db) (usuario_id courseId : Nat)
    (h : (postUserEnroll db usuario_id courseId).2.status = 201) :
    postUserEnroll (postUserEnroll db usuario_id courseId).1 usuario_id courseId
      = ((postUserEnroll db usuario_id courseId).1,
          { status := 409, code := "ALREADY_ENROLLED" }) ∧
    (enrollmentsOf (postUserEnroll db usuario_id courseId).1 courseId usuario_id).length = 1 := by
  cases hc : db.cursos.filter (fun c => c.id == courseId && c.activo) with
  | nil => simp [postUserEnroll, enrollInCourse, enrollInCourseBody, hc] at h
  | cons c cs =>
    cases he : db.curso_estudiantes.filter
        (fun e => e.curso_id == courseId && e.usuario_id == usuario_id) with
    | cons e es => simp [postUserEnroll, enrollInCourse, enrollInCourseBody, hc, he] at h
    | nil =>
      have hdb : (postUserEnroll db usuario_id courseId).1
          = (insertCursoEstudiante db courseId usuario_id estadoInscrito).2 := by
        simp only [postUserEnroll, enrollInCourse, enrollInCourseBody, hc, he]
      rw [hdb]
      have hins := insert_enrollmentsOf db courseId usuario_id estadoInscrito he
      refine ⟨?_, ?_⟩
      · have h1 : (insertCursoEstudiante db courseId usuario_id estadoInscrito).2.cursos
            = db.cursos := rfl
        simp [postUserEnroll, enrollInCourse, enrollInCourseBody, h1, hc, hins]
      · simp only [enrollmentsOf, hins, List.length_singleton]

/-- Two requests in a row through the same entry point: when the first succeeds
(201), the second is answered 409 ALREADY_ENROLLED, changes nothing, and the pair
has exactly one enrollment row. -/
theorem enroll_same_path_twice (path : EnrollPath) (db : Db) (courseId usuario_id : Nat)
    (estado estado2 : String)
    (h : (enroll path db courseId usuario_id estado).2.status = 201) :
    enroll path (enroll path db courseId usuario_id estado).1 courseId usuario_id estado2
      = ((enroll path db courseId usuario_id estado).1,
          { status := 409, code := "ALREADY_ENROLLED" }) ∧
    (enrollmentsOf (enroll path db courseId usuario_id estado).1 courseId usuario_id).length
      = 1 := by
  cases path with
  | enrollStudentRoute => exact postEnrollStudent_twice db courseId usuario_id estado estado2 h
  | assignStudentRoute => exact postAssignStudent_twice db courseId usuario_id estado estado2 h
  | userEnrollRoute => exact postUserEnroll_twice db usuario_id courseId h

/-- C7: at a store where user 2 is already enrolled in course 1, the admin path
`AdminService.enrollStudent` inserts without looking for an existing row and leaves
two rows for the pair (the route answers 200), while the sibling entry points answer
409 ALREADY_ENROLLED at the same store. -/
theorem enrollStudent_inserts_duplicate :
    (enrollmentsOf dbEnrolledOnce 1 2).length = 1 ∧
    (postAdminEnrollStudent dbEnrolledOnce 1 2).2 = { status := 200, code := "" } ∧
    (enrollmentsOf (postAdminEnrollStudent dbEnrolledOnce 1 2).1 1 2).length = 2 ∧
    (postEnrollStudent dbEnrolledOnce 1 2 "inscrito").2
      = { status := 409, code := "ALREADY_ENROLLED" } ∧
    (postAssignStudent dbEnrolledOnce 1 2 "inscrito").2
      = { status := 409, code := "ALREADY_ENROLLED" } ∧
    (postUserEnroll dbEnrolledOnce 2 1).2 = { status := 409, code := "ALREADY_ENROLLED" } := by
  decide

/-! ## Exam scheduling: the capacity invariant -/

/-- C10, as stated, fails: schedule 1 has three of its five slots taken and
`updateExamSchedule` with `cupos_disponibles = 1` (a body the route schema accepts)
stores the new capacity unchecked, leaving `cupos_ocupados = 3 > 1`. -/
theorem updateExamSchedule_breaks_capacity :
    CapacityOk dbThreeTaken ∧
    (updateExamSchedule dbThreeTaken 1 { cupos_disponibles := some 1 }).1.horarios_examenes.map
        (fun h => (h.cupos_ocupados, h.cupos_disponibles)) = [(3, 1)] ∧
    ¬ CapacityOk (updateExamSchedule dbThreeTaken 1 { cupos_disponibles := some 1 }).1 := by
  decide

/-- Mapping the rows keeps the invariant when every rewritten row satisfies it. -/
theorem capacityOk_map (db : Db) (f : HorarioExamen → HorarioExamen)
    (hf : ∀ h ∈ db.horarios_examenes, (f h).cupos_ocupados ≤ (f h).cupos_disponibles)
    (db2 : Db) (h2 : db2.horarios_examenes = db.horarios_examenes.map f) : CapacityOk db2 := by
  intro h hh
  rw [h2] at hh
  obtain ⟨h0, hmem, rfl⟩ := List.mem_map.mp hh
  exact hf h0 hmem

/-- `createExamSchedule` keeps the invariant when the new capacity is not negative. -/
theorem createExamSchedule_capacity (timeIn : String → Option Nat) (db : Db)
    (hinv : CapacityOk db) (hoy : Int) (d : ScheduleData) (hd : 0 ≤ d.cupos_disponibles) :
    CapacityOk (createExamSchedule timeIn db hoy d).db := by
  unfold createExamSchedule
  split
  · exact hinv
  · split
    · exact hinv
    · split
      · exact hinv
      · split
        · exact hinv
        · split
          · exact hinv
          · intro h hh
            simp only [List.mem_append, List.mem_singleton] at hh
            rcases hh with hh | rfl
            · exact hinv h hh
            · exact hd

/-- `addStudentToExamSchedule` keeps the invariant when schedule ids are unique. -/
theorem addStudent_capacity (db : Db) (hinv : CapacityOk db)
    (hpk : (db.horarios_examenes.map (fun h => h.id)).Nodup) (s u : Nat) :
    CapacityOk (addStudentToExamSchedule db s u).db := by
  cases hh : db.horarios_examenes.filter (fun h => h.id == s && h.activo) with
  | nil => simpa [addStudentToExamSchedule, addStudentToExamScheduleBody, hh] using hinv
  | cons horario rest =>
    by_cases hfull : horario.cupos_ocupados ≥ horario.cupos_disponibles
    · simpa [addStudentToExamSchedule, addStudentToExamScheduleBody, hh, hfull] using hinv
    · cases ha : db.agendamientos_examen.filter
          (fun a => a.horario_examen_id == s && a.estudiante_id == u) with
      | cons a as =>
        simpa [addStudentToExamSchedule, addStudentToExamScheduleBody, hh, hfull, ha] using hinv
      | nil =>
        cases he : db.estudiantes.filter (fun e => e.usuario_id == u) with
        | nil =>
          simpa [addStudentToExamSchedule, addStudentToExamScheduleBody, hh, hfull, ha, he]
            using hinv
        | cons e es =>
          have hmem : horario ∈ db.horarios_examenes.filter (fun h => h.id == s && h.activo) := by
            rw [hh]; exact List.mem_cons_self _ _
          have hm := List.mem_filter.mp hmem
          have hid : horario.id = s := by
            have := hm.2
            simp only [Bool.and_eq_true, beq_iff_eq] at this
            exact this.1
          apply capacityOk_map db
            (fun h => if h.id == s then { h with cupos_ocupados := h.cupos_ocupados + 1 } else h)
          · intro h hmem2
            by_cases hs : h.id = s
            · have heq : h = horario :=
                List.inj_on_of_nodup_map hpk hmem2 hm.1 (hs.trans hid.symm)
              subst heq
              simp only [hs, beq_self_eq_true, ↓reduceIte]
              omega
            · have : (h.id == s) = false := by simpa using hs
              simp only [this, Bool.false_eq_true, ↓reduceIte]
              exact hinv h hmem2
          · simp [addStudentToExamSchedule, addStudentToExamScheduleBody, hh, hfull, ha, he]

/-- `removeStudentFromExamSchedule` keeps the invariant on a schedule whose capacity
is not negative. -/
theorem removeStudent_capacity (db : Db) (hinv : CapacityOk db) (s u : Nat)
    (hnn : ∀ h ∈ db.horarios_examenes, h.id = s → 0 ≤ h.cupos_disponibles) :
    CapacityOk (removeStudentFromExamSchedule db s u).db := by
  cases he : db.estudiantes.filter (fun e => e.usuario_id == u) with
  | nil =>
    simpa [removeStudentFromExamSchedule, removeStudentFromExamScheduleBody, he] using hinv
  | cons e es =>
    by_cases hdel : (db.agendamientos_examen.filter
        (fun a => a.horario_examen_id == s && a.estudiante_id == e.id)).length = 0
    · simpa [removeStudentFromExamSchedule, removeStudentFromExamScheduleBody, he, hdel]
        using hinv
    · apply capacityOk_map db
        (fun h => if h.id == s then { h with cupos_ocupados := max (h.cupos_ocupados - 1) 0 }
          else h)
      · intro h hmem
        by_cases hs : h.id = s
        · simp only [hs, beq_self_eq_true, ↓reduceIte]
          have h1 := hinv h hmem
          have h2 := hnn h hmem hs
          omega
        · have : (h.id == s) = false := by simpa using hs
          simp only [this, Bool.false_eq_true, ↓reduceIte]
          exact hinv h hmem
      · simp [removeStudentFromExamSchedule, removeStudentFromExamScheduleBody, he, hdel]

/-- `updateStudentExamStatus` leaves the schedule table untouched. -/
theorem updateStudentExamStatus_horarios (db : Db) (s u : Nat) (st : String) :
    (updateStudentExamStatus db s u st).db.horarios_examenes = db.horarios_examenes := by
  unfold updateStudentExamStatus
  split
  · rfl
  · simp only []
    split
    · rfl
    · split <;> rfl

/-- `updateExamSchedule` keeps the invariant exactly when the values it stores
satisfy it. -/
theorem updateExamSchedule_capacity_iff (db : Db) (hinv : CapacityOk db) (s : Nat)
    (upd : UpdateData) :
    CapacityOk (updateExamSchedule db s upd).1 ↔
      ∀ h ∈ db.horarios_examenes, h.id = s →
        upd.cupos_ocupados.getD h.cupos_ocupados ≤ upd.cupos_disponibles.getD h.cupos_disponibles := by
  cases hf : db.horarios_examenes.filter (fun h => h.id == s) with
  | nil =>
    have hno := (filter_nil_iff _ _).mp hf
    simp only [updateExamSchedule, hf]
    constructor
    · intro _ h hmem hs
      have := hno h hmem
      simp [hs] at this
    · intro _
      exact hinv
  | cons found rest =>
    by_cases hemp : upd.isEmpty = true
    · simp only [updateExamSchedule, hf, hemp, ↓reduceIte]
      constructor
      · intro _ h hmem _
        have h1 : upd.cupos_ocupados = none := by
          simp only [UpdateData.isEmpty, Bool.and_eq_true, Option.isNone_iff_eq_none] at hemp
          exact hemp.1.2
        have h2 : upd.cupos_disponibles = none := by
          simp only [UpdateData.isEmpty, Bool.and_eq_true, Option.isNone_iff_eq_none] at hemp
          exact hemp.1.1.2
        rw [h1, h2]
        exact hinv h hmem
      · intro _
        exact hinv
    · simp only [updateExamSchedule, hf, hemp, Bool.false_eq_true, ↓reduceIte]
      constructor
      · intro hok h hmem hs
        have hm : (if h.id == s then upd.apply h else h) ∈
            db.horarios_examenes.map (fun h => if h.id == s then upd.apply h else h) :=
          List.mem_map.mpr ⟨h, hmem, rfl⟩
        have := hok _ hm
        simpa [hs, UpdateData.apply] using this
      · intro hnew
        apply capacityOk_map db (fun h => if h.id == s then upd.apply h else h)
        · intro h hmem
          by_cases hs : h.id = s
          · simpa [hs, UpdateData.apply] using hnew h hmem hs
          · have : (h.id == s) = false := by simpa using hs
            simp only [this, Bool.false_eq_true, ↓reduceIte]
            exact hinv h hmem
        · rfl

/-- C10, amended: starting from a store where every schedule has
`cupos_ocupados <= cupos_disponibles`, the invariant still holds after
`createExamSchedule` (capacity not negative), `addStudentToExamSchedule` (schedule
ids unique), `removeStudentFromExamSchedule` (capacity of the schedule not negative)
and `updateStudentExamStatus`; after `updateExamSchedule` it holds exactly when the
values the update stores in the addressed schedule satisfy it, since the update
performs no check. -/
theorem capacity_preserved_unless_update_stores_excess (db : Db) (hinv : CapacityOk db) :
    (∀ timeIn hoy d, 0 ≤ d.cupos_disponibles →
      CapacityOk (createExamSchedule timeIn db hoy d).db) ∧
    (∀ s u, (db.horarios_examenes.map (fun h => h.id)).Nodup →
      CapacityOk (addStudentToExamSchedule db s u).db) ∧
    (∀ s u, (∀ h ∈ db.horarios_examenes, h.id = s → 0 ≤ h.cupos_disponibles) →
      CapacityOk (removeStudentFromExamSchedule db s u).db) ∧
    (∀ s u st, CapacityOk (updateStudentExamStatus db s u st).db) ∧
    (∀ s upd, CapacityOk (updateExamSchedule db s upd).1 ↔
      ∀ h ∈ db.horarios_examenes, h.id = s →
        upd.cupos_ocupados.getD h.cupos_ocupados
          ≤ upd.cupos_disponibles.getD h.cupos_disponibles) := by
  refine ⟨?_, ?_, ?_, ?_, ?_⟩
  · intro timeIn hoy d hd
    exact createExamSchedule_capacity timeIn db hinv hoy d hd
  · intro s u hpk
    exact addStudent_capacity db hinv hpk s u
  · intro s u hnn
    exact removeStudent_capacity db hinv s u hnn
  · intro s u st h hh
    rw [updateStudentExamStatus_horarios] at hh
    exact hinv h hh
  · intro s upd
    exact updateExamSchedule_capacity_iff db hinv s upd

/-- Witness for C10: the invariant across an add and a remove on schedule 1. -/
theorem capacity_preserved_witness :
    CapacityOk dbAlreadyBooked ∧
    CapacityOk (addStudentToExamSchedule dbAlreadyBooked 1 2).db ∧
    CapacityOk (removeStudentFromExamSchedule dbAlreadyBooked 1 2).db :=
  ⟨by decide,
    (capacity_preserved_unless_update_stores_excess dbAlreadyBooked (by decide)).2.1 1 2
      (by decide),
    (capacity_preserved_unless_update_stores_excess dbAlreadyBooked (by decide)).2.2.1 1 2
      (by decide)⟩

/-! ## Exam scheduling: removal, atomicity, deletion -/

/-- C11: when the student record of the user has a booking in the schedule, the
first `removeStudentFromExamSchedule` succeeds, deletes the booking rows of the pair
and sets `cupos_ocupados` of the schedule to `max (old - 1) 0`; the second call
throws `Agendamiento no encontrado` (404 APPOINTMENT_NOT_FOUND at the route) and
leaves the store, counter and bookings included, as the first call left it. -/
theorem removeStudent_twice (db : Db) (s u : Nat) (e : Estudiante) (es : List Estudiante)
    (he : db.estudiantes.filter (fun x => x.usuario_id == u) = e :: es)
    (hb : ∃ a ∈ db.agendamientos_examen, a.horario_examen_id = s ∧ a.estudiante_id = e.id) :
    (removeStudentFromExamSchedule db s u).result = .ok () ∧
    (removeStudentFromExamSchedule db s u).db.agendamientos_examen
      = db.agendamientos_examen.filter
          (fun a => !(a.horario_examen_id == s && a.estudiante_id == e.id)) ∧
    (removeStudentFromExamSchedule db s u).db.horarios_examenes
      = db.horarios_examenes.map (fun h =>
          if h.id == s then { h with cupos_ocupados := max (h.cupos_ocupados - 1) 0 } else h) ∧
    (removeStudentFromExamSchedule (removeStudentFromExamSchedule db s u).db s u).result
      = .error { message := "Agendamiento no encontrado" } ∧
    deleteExamScheduleStudent (removeStudentFromExamSchedule db s u).db s u
      = ((removeStudentFromExamSchedule db s u).db,
          { status := 404, code := "APPOINTMENT_NOT_FOUND" }) := by
  have hdel : ¬ (db.agendamientos_examen.filter
      (fun a => a.horario_examen_id == s && a.estudiante_id == e.id)).length = 0 := by
    obtain ⟨a, ha, h1, h2⟩ := hb
    intro h0
    have hnil := List.length_eq_zero.mp h0
    have := (filter_nil_iff _ _).mp hnil a ha
    simp [h1, h2] at this
  have hfirst : removeStudentFromExamSchedule db s u
      = { db := { db with
                  agendamientos_examen := db.agendamientos_examen.filter
                    (fun a => !(a.horario_examen_id == s && a.estudiante_id == e.id)),
                  horarios_examenes := db.horarios_examenes.map (fun h =>
                    if h.id == s then { h with cupos_ocupados := max (h.cupos_ocupados - 1) 0 }
                    else h) },
          result := .ok () } := by
    simp [removeStudentFromExamSchedule, removeStudentFromExamScheduleBody, he, hdel]
  have hsecond : removeStudentFromExamSchedule (removeStudentFromExamSchedule db s u).db s u
      = { db := (removeStudentFromExamSchedule db s u).db,
          result := .error { message := "Agendamiento no encontrado" } } := by
    rw [hfirst]
    simp [removeStudentFromExamSchedule, removeStudentFromExamScheduleBody, he,
      List.filter_filter]
  refine ⟨by rw [hfirst], by rw [hfirst], by rw [hfirst], by rw [hsecond], ?_⟩
  · unfold deleteExamScheduleStudent
    rw [hsecond]
    simp only []
    rw [if_pos (by decide)]

/-- Witness for C11: user 2, booked into schedule 1, removed twice. -/
theorem removeStudent_twice_witness :
    (removeStudentFromExamSchedule dbAlreadyBooked 1 2).db.horarios_examenes.map
        (fun h => h.cupos_ocupados) = [0] ∧
    deleteExamScheduleStudent (removeStudentFromExamSchedule dbAlreadyBooked 1 2).db 1 2
      = ((removeStudentFromExamSchedule dbAlreadyBooked 1 2).db,
          { status := 404, code := "APPOINTMENT_NOT_FOUND" }) :=
  ⟨by decide,
    (removeStudent_twice dbAlreadyBooked 1 2 { id := 7, usuario_id := 2 } [] (by decide)
      ⟨{ id := 1, horario_examen_id := 1, estudiante_id := 7, estado := "agendado" },
        by decide, rfl, rfl⟩).2.2.2.2⟩

/-- A filtered list has positive length exactly when some row satisfies the
predicate. -/
theorem filter_length_pos_iff {α : Type} (p : α → Bool) (l : List α) :
    (l.filter p).length > 0 ↔ ∃ x ∈ l, p x = true := by
  rw [← filter_cons_iff]
  cases l.filter p with
  | nil => simp
  | cons y ys => simp

/-- A rollback right after `BEGIN` changes nothing. -/
theorem rollback_self (db : Db) : rollback db db = db := rfl

/-- On a store that rejects nothing, the fault-aware body is the plain one. -/
theorem addStudentToExamScheduleBodyWith_no_faults (db : Db) (s u : Nat) :
    addStudentToExamScheduleBodyWith {} db s u = addStudentToExamScheduleBody db s u := by
  simp only [addStudentToExamScheduleBodyWith, addStudentToExamScheduleBody,
    Bool.false_eq_true, ↓reduceIte]

/-- The plain body throws before its first write. -/
theorem addStudentToExamScheduleBody_error_store (db : Db) (s u : Nat) (e : JsError)
    (w : Db) (h : addStudentToExamScheduleBody db s u = .error (e, w)) : w = db := by
  unfold addStudentToExamScheduleBody at h
  split at h
  · simp only [Except.error.injEq, Prod.mk.injEq] at h
    exact h.2.symm
  · split at h
    · simp only [Except.error.injEq, Prod.mk.injEq] at h
      exact h.2.symm
    · split at h
      · simp only [Except.error.injEq, Prod.mk.injEq] at h
        exact h.2.symm
      · split at h
        · simp only [Except.error.injEq, Prod.mk.injEq] at h
          exact h.2.symm
        · simp at h

/-- On a store that rejects nothing, the fault-aware call is the plain one. -/
theorem addStudentToExamScheduleWith_no_faults (db : Db) (s u : Nat) :
    addStudentToExamScheduleWith {} db s u = addStudentToExamSchedule db s u := by
  unfold addStudentToExamScheduleWith addStudentToExamSchedule
  rw [addStudentToExamScheduleBodyWith_no_faults]
  cases hb : addStudentToExamScheduleBody db s u with
  | ok r => rfl
  | error p =>
    obtain ⟨e, w⟩ := p
    have hw := addStudentToExamScheduleBody_error_store db s u e w hb
    subst hw
    rfl

/-- C12: whatever step of `addStudentToExamSchedule` throws (schedule missing or
inactive, no slots, already scheduled, student record absent, a rejected `INSERT`
or a rejected counter `UPDATE`), every table of the store is after the call what it
was before it: same bookings, same schedules with the same `cupos_ocupados`. -/
theorem addStudent_failure_restores_store (faults : StoreFaults) (db : Db) (s u : Nat)
    (err : JsError) (h : (addStudentToExamScheduleWith faults db s u).result = .error err) :
    (addStudentToExamScheduleWith faults db s u).db.agendamientos_examen
      = db.agendamientos_examen ∧
    (addStudentToExamScheduleWith faults db s u).db.horarios_examenes
      = db.horarios_examenes ∧
    (addStudentToExamScheduleWith faults db s u).db.estudiantes = db.estudiantes ∧
    (addStudentToExamScheduleWith faults db s u).db.curso_estudiantes
      = db.curso_estudiantes := by
  unfold addStudentToExamScheduleWith at h ⊢
  cases hb : addStudentToExamScheduleBodyWith faults db s u with
  | error e => exact ⟨rfl, rfl, rfl, rfl⟩
  | ok r => rw [hb] at h; simp at h

/-- Witness for C12: the counter update is rejected after the booking row was
written to the working store; the call throws and the tables are those before. -/
theorem addStudent_failure_restores_store_witness :
    (addStudentToExamScheduleBodyWith { updateFails := true } dbFreshSchedule 1 2
      = .error (storeError,
          { dbFreshSchedule with
            agendamientos_examen := [{ id := 1, horario_examen_id := 1, estudiante_id := 7,
                                       estado := "agendado" }],
            agendamientos_examen_seq := 2 })) ∧
    (addStudentToExamScheduleWith { updateFails := true } dbFreshSchedule 1 2).result
      = .error storeError ∧
    (addStudentToExamScheduleWith { updateFails := true } dbFreshSchedule 1 2).db.agendamientos_examen
      = [] ∧
    (addStudentToExamScheduleWith { updateFails := true } dbFreshSchedule 1
      2).db.horarios_examenes.map (fun h => h.cupos_ocupados) = [0] :=
  ⟨by decide, by decide,
    (addStudent_failure_restores_store { updateFails := true } dbFreshSchedule 1 2 storeError
      (by decide)).1,
    by decide⟩

/-- C13: `deleteExamSchedule` throws its has-students error (400
SCHEDULE_HAS_STUDENTS at the route) exactly when some booking row references the
schedule, whatever the row's `estado`, and then leaves the store untouched; when no
booking references an existing schedule the call returns `true` (200 at the
route), removes the rows with that id and nothing else. -/
theorem deleteExamSchedule_refuses_iff_booked (db : Db) (s : Nat) :
    ((deleteExamSchedule db s).result
        = .error { message := "No se puede eliminar un horario que tiene estudiantes agendados" }
      ↔ ∃ a ∈ db.agendamientos_examen, a.horario_examen_id = s) ∧
    ((∃ a ∈ db.agendamientos_examen, a.horario_examen_id = s) →
      deleteExamScheduleRoute db s = (db, { status := 400, code := "SCHEDULE_HAS_STUDENTS" })) ∧
    ((¬ ∃ a ∈ db.agendamientos_examen, a.horario_examen_id = s) →
      (∃ x ∈ db.horarios_examenes, x.id = s) →
      (deleteExamSchedule db s).result = .ok true ∧
      (deleteExamScheduleRoute db s).2 = { status := 200, code := "" } ∧
      (deleteExamScheduleRoute db s).1.horarios_examenes
        = db.horarios_examenes.filter (fun x => !(x.id == s)) ∧
      (deleteExamScheduleRoute db s).1.agendamientos_examen = db.agendamientos_examen) := by
  have hcount : (db.agendamientos_examen.filter (fun a => a.horario_examen_id == s)).length > 0
      ↔ ∃ a ∈ db.agendamientos_examen, a.horario_examen_id = s := by
    rw [filter_length_pos_iff]
    simp
  refine ⟨?_, ?_, ?_⟩
  · unfold deleteExamSchedule
    by_cases hc : (db.agendamientos_examen.filter
        (fun a => a.horario_examen_id == s)).length > 0
    · rw [if_pos hc]
      simp only [true_iff]
      exact hcount.mp hc
    · rw [if_neg hc]
      simp only [reduceCtorEq, false_iff]
      exact fun h => hc (hcount.mpr h)
  · intro hb
    have hc := hcount.mpr hb
    unfold deleteExamScheduleRoute deleteExamSchedule
    rw [if_pos hc]
    simp only []
    rw [if_pos (by decide)]
  · intro hnb hex
    have hc : ¬ (db.agendamientos_examen.filter
        (fun a => a.horario_examen_id == s)).length > 0 := fun h => hnb (hcount.mp h)
    have hrow : (db.horarios_examenes.filter (fun x => x.id == s)).length > 0 := by
      rw [filter_length_pos_iff]
      simpa using hex
    unfold deleteExamScheduleRoute deleteExamSchedule
    rw [if_neg hc]
    simp [hrow]

/-- Scenario of C13 on schedule 1 with the single booking of user 2: the delete is
refused, the booking is removed, the delete then succeeds and the schedule is
gone. -/
theorem deleteExamSchedule_after_last_removal :
    deleteExamScheduleRoute dbAlreadyBooked 1
      = (dbAlreadyBooked, { status := 400, code := "SCHEDULE_HAS_STUDENTS" }) ∧
    (deleteExamScheduleRoute (removeStudentFromExamSchedule dbAlreadyBooked 1 2).db 1).2
      = { status := 200, code := "" } ∧
    (deleteExamScheduleRoute (removeStudentFromExamSchedule dbAlreadyBooked 1 2).db
      1).1.horarios_examenes = [] := by
  decide

/-- The store after `updateStudentExamStatus` when the student record exists and
the status is a label of the enum. -/
theorem updateStudentExamStatus_db (db : Db) (s u : Nat) (st : String) (e : Estudiante)
    (es : List Estudiante) (he : db.estudiantes.filter (fun x => x.usuario_id == u) = e :: es)
    (hl : estadoAgendamientoLabels.contains st = true) :
    (updateStudentExamStatus db s u st).db.agendamientos_examen
      = db.agendamientos_examen.map (fun a =>
          if a.horario_examen_id == s && a.estudiante_id == e.id
          then { a with estado := st } else a) := by
  unfold updateStudentExamStatus
  rw [he]
  simp only [hl, Bool.not_true, Bool.false_eq_true, ↓reduceIte]
  split <;> rfl

/-- The store after `updateStudentExamStatus` when the status is no label of the
enum. -/
theorem updateStudentExamStatus_bad_label (db : Db) (s u : Nat) (st : String)
    (hl : ¬ estadoAgendamientoLabels.contains st = true) :
    (updateStudentExamStatus db s u st).db = db ∧
    ∀ row, (updateStudentExamStatus db s u st).result ≠ .ok row := by
  unfold updateStudentExamStatus
  split
  · exact ⟨rfl, fun row h => by simp at h⟩
  · simp only [Bool.not_eq_true] at hl
    simp only [hl, Bool.not_false, ↓reduceIte]
    exact ⟨trivial, fun row h => by simp at h⟩

/-- C14: `updateStudentExamStatus` leaves every table but `agendamientos_examen`
as it was, `horarios_examenes` with its `cupos_ocupados` and `cupos_disponibles`
included; in `agendamientos_examen` it keeps the number and order of the rows, keeps
`id`, `horario_examen_id` and `estudiante_id` of every row, leaves every row outside
the addressed (schedule, student record) pair untouched and gives an addressed row
either its old `estado` or the new one, the new one whenever the call succeeds.  So
the bookings of a schedule stay as many after a change to `cancelado`. -/
theorem updateStudentExamStatus_frame (db : Db) (s u : Nat) (st : String) :
    (updateStudentExamStatus db s u st).db.horarios_examenes = db.horarios_examenes ∧
    (updateStudentExamStatus db s u st).db.estudiantes = db.estudiantes ∧
    (updateStudentExamStatus db s u st).db.curso_estudiantes = db.curso_estudiantes ∧
    (∃ f : AgendamientoExamen → AgendamientoExamen,
      (updateStudentExamStatus db s u st).db.agendamientos_examen
        = db.agendamientos_examen.map f ∧
      ∀ a, (f a).id = a.id ∧ (f a).horario_examen_id = a.horario_examen_id ∧
        (f a).estudiante_id = a.estudiante_id ∧
        ((f a).estado = a.estado ∨ (f a).estado = st) ∧
        (¬ IsAddressedBooking db s u a → f a = a) ∧
        (∀ row, (updateStudentExamStatus db s u st).result = .ok row →
          IsAddressedBooking db s u a → (f a).estado = st)) ∧
    (bookingsOf (updateStudentExamStatus db s u st).db s).length
      = (bookingsOf db s).length := by
  have hframe : ∃ f : AgendamientoExamen → AgendamientoExamen,
      (updateStudentExamStatus db s u st).db.agendamientos_examen
        = db.agendamientos_examen.map f ∧
      ∀ a, (f a).id = a.id ∧ (f a).horario_examen_id = a.horario_examen_id ∧
        (f a).estudiante_id = a.estudiante_id ∧
        ((f a).estado = a.estado ∨ (f a).estado = st) ∧
        (¬ IsAddressedBooking db s u a → f a = a) ∧
        (∀ row, (updateStudentExamStatus db s u st).result = .ok row →
          IsAddressedBooking db s u a → (f a).estado = st) := by
    cases he : db.estudiantes.filter (fun x => x.usuario_id == u) with
    | nil =>
      refine ⟨id, by simp [updateStudentExamStatus, he], ?_⟩
      intro a
      refine ⟨rfl, rfl, rfl, Or.inl rfl, fun _ => rfl, ?_⟩
      intro row hr
      simp [updateStudentExamStatus, he] at hr
    | cons e es =>
      by_cases hl : estadoAgendamientoLabels.contains st = true
      · refine ⟨fun a => if a.horario_examen_id == s && a.estudiante_id == e.id
            then { a with estado := st } else a, ?_, ?_⟩
        · exact updateStudentExamStatus_db db s u st e es he hl
        · intro a
          by_cases hit : (a.horario_examen_id == s && a.estudiante_id == e.id) = true
          · simp only [hit, ↓reduceIte, or_true, true_and]
            refine ⟨?_, fun _ _ _ => trivial⟩
            intro hno
            exfalso
            apply hno
            simp only [Bool.and_eq_true, beq_iff_eq] at hit
            exact ⟨hit.1, e, es, he, hit.2⟩
          · simp only [hit, Bool.false_eq_true, ↓reduceIte, true_or, true_and, implies_true]
            intro row _ hadd
            exfalso
            apply hit
            obtain ⟨h1, e2, es2, h2, h3⟩ := hadd
            rw [he] at h2
            cases h2
            simp [h1, h3]
      · have hbad := updateStudentExamStatus_bad_label db s u st hl
        refine ⟨id, by rw [hbad.1]; simp, ?_⟩
        intro a
        refine ⟨rfl, rfl, rfl, Or.inl rfl, fun _ => rfl, ?_⟩
        intro row hr
        exact absurd hr (hbad.2 row)
  have hother : (updateStudentExamStatus db s u st).db.horarios_examenes = db.horarios_examenes ∧
      (updateStudentExamStatus db s u st).db.estudiantes = db.estudiantes ∧
      (updateStudentExamStatus db s u st).db.curso_estudiantes = db.curso_estudiantes := by
    unfold updateStudentExamStatus
    split
    · exact ⟨rfl, rfl, rfl⟩
    · simp only []
      split
      · exact ⟨rfl, rfl, rfl⟩
      · split <;> exact ⟨rfl, rfl, rfl⟩
  refine ⟨hother.1, hother.2.1, hother.2.2, hframe, ?_⟩
  obtain ⟨f, hf, hprop⟩ := hframe
  unfold bookingsOf
  rw [hf, List.filter_map]
  simp only [List.length_map]
  congr 1
  apply List.filter_congr
  intro a _
  simp [(hprop a).2.1]

/-! ## Exam scheduling: times and conflicts of `createExamSchedule` -/

/-- C15: the request with `hora_inicio = "10:00"` and `hora_fin = "9:30"` (both
strings, as the route schema asks) passes the check `hora_fin <= hora_inicio`,
which compares the two as strings, and is stored (201) with an end time of day,
34200 s, earlier than its start, 36000 s; the request from `"9:00"` to `"10:00"`,
whose end is later than its start, is rejected. -/
theorem createExamSchedule_stores_end_before_start :
    timeOfDay "10:00" = some 36000 ∧ timeOfDay "9:30" = some 34200 ∧
    jsStrLe "9:30" "10:00" = false ∧
    (createExamSchedule timeOfDay Db.empty 0
        { fecha_examen := 20000, hora_inicio := "10:00", hora_fin := "9:30",
          cupos_disponibles := 5, creado_por := 1 }).db.horarios_examenes.map
        (fun h => (h.hora_inicio, h.hora_fin)) = [(36000, 34200)] ∧
    (postExamSchedules timeOfDay Db.empty 0
        { fecha_examen := 20000, hora_inicio := "10:00", hora_fin := "9:30",
          cupos_disponibles := 5, creado_por := 1 }).2 = { status := 201, code := "" } ∧
    (createExamSchedule timeOfDay Db.empty 0
        { fecha_examen := 20000, hora_inicio := "9:00", hora_fin := "10:00",
          cupos_disponibles := 5, creado_por := 1 }).result
      = .error { message := "La hora de fin debe ser posterior a la hora de inicio" } := by
  decide

/-- The conflict check of `createExamSchedule` for a request that passes the date
check and the string check of the times and whose start time the store reads as
`inicio`: the conflict error (409 SCHEDULE_CONFLICT at the route, nothing stored)
exactly when a stored schedule has the same date and the start time `inicio`; when
none has, the row is appended as soon as the store reads the end time. -/
theorem createExamSchedule_conflict_check (timeIn : String → Option Nat) (db : Db) (hoy : Int)
    (d : ScheduleData) (inicio : Nat) (hdate : ¬ d.fecha_examen < hoy)
    (htime : jsStrLe d.hora_fin d.hora_inicio = false) (hin : timeIn d.hora_inicio = some inicio) :
    ((createExamSchedule timeIn db hoy d).result
        = .error { message := "Ya existe un horario para esa fecha y hora" }
      ↔ ∃ h ∈ db.horarios_examenes, h.fecha_examen = d.fecha_examen ∧ h.hora_inicio = inicio) ∧
    ((∃ h ∈ db.horarios_examenes, h.fecha_examen = d.fecha_examen ∧ h.hora_inicio = inicio) →
      postExamSchedules timeIn db hoy d = (db, { status := 409, code := "SCHEDULE_CONFLICT" })) ∧
    ((¬ ∃ h ∈ db.horarios_examenes, h.fecha_examen = d.fecha_examen ∧ h.hora_inicio = inicio) →
      ∀ fin, timeIn d.hora_fin = some fin →
        (postExamSchedules timeIn db hoy d).2 = { status := 201, code := "" } ∧
        (postExamSchedules timeIn db hoy d).1.horarios_examenes
          = db.horarios_examenes ++
              [{ id := db.horarios_examenes_seq, fecha_examen := d.fecha_examen,
                 hora_inicio := inicio, hora_fin := fin,
                 cupos_disponibles := d.cupos_disponibles,
                 cupos_ocupados := cuposOcupadosDefault, activo := activoDefault,
                 creado_por := d.creado_por }]) := by
  have hex : (∃ x xs, db.horarios_examenes.filter
        (fun h => h.fecha_examen == d.fecha_examen && h.hora_inicio == inicio) = x :: xs)
      ↔ ∃ h ∈ db.horarios_examenes, h.fecha_examen = d.fecha_examen ∧ h.hora_inicio = inicio := by
    rw [filter_cons_iff]
    simp
  cases hf : db.horarios_examenes.filter
      (fun h => h.fecha_examen == d.fecha_examen && h.hora_inicio == inicio) with
  | nil =>
    have hno : ¬ ∃ h ∈ db.horarios_examenes,
        h.fecha_examen = d.fecha_examen ∧ h.hora_inicio = inicio := by
      intro h
      obtain ⟨x, xs, hx⟩ := hex.mpr h
      rw [hf] at hx
      cases hx
    refine ⟨?_, fun h => absurd h hno, ?_⟩
    · simp only [hno, iff_false]
      simp only [createExamSchedule, hdate, htime, hin, hf, ↓reduceIte, Bool.false_eq_true]
      cases timeIn d.hora_fin with
      | none => simp [invalidTimeError]
      | some fin => simp
    · intro _ fin hfin
      simp [postExamSchedules, createExamSchedule, hdate, htime, hin, hf, hfin]
  | cons x xs =>
    have hyes := hex.mp ⟨x, xs, hf⟩
    refine ⟨?_, ?_, fun h => absurd hyes h⟩
    · simp only [hyes, iff_true]
      simp only [createExamSchedule, hdate, htime, hin, hf, ↓reduceIte, Bool.false_eq_true]
    · intro _
      simp only [postExamSchedules, createExamSchedule, hdate, htime, hin, hf, ↓reduceIte,
        Bool.false_eq_true]
      rw [if_pos (by decide)]

/-! ## Enrollment: preconditions and initial state -/

/-- C17, as stated, fails on the assign path: for user 3, who holds no student
role, `assignStudentToCourse` throws USER_NOT_STUDENT and the route answers 400
USER_NOT_STUDENT, where the enroll-student route answers 404 STUDENT_NOT_FOUND. -/
theorem assignStudent_reports_user_not_student :
    (assignStudentToCourse dbNotEnrolled 1 3 "inscrito").result
      = .error { message := "El usuario no tiene rol de estudiante",
                 code := some "USER_NOT_STUDENT" } ∧
    postAssignStudent dbNotEnrolled 1 3 "inscrito"
      = (dbNotEnrolled, { status := 400, code := "USER_NOT_STUDENT" }) ∧
    postEnrollStudent dbNotEnrolled 1 3 "inscrito"
      = (dbNotEnrolled, { status := 404, code := "STUDENT_NOT_FOUND" }) := by
  decide

/-- The course check shared by the enrollment paths. -/
theorem cursos_filter_iff (db : Db) (courseId : Nat) :
    (∃ x xs, db.cursos.filter (fun c => c.id == courseId && c.activo) = x :: xs)
      ↔ HasActiveCourse db courseId := by
  rw [filter_cons_iff]
  unfold HasActiveCourse
  simp

/-- The role check of `assignStudentToCourse`. -/
theorem roles_filter_iff (db : Db) (u : Nat) :
    (∃ x xs, db.usuario_roles.filter
        (fun ur => ur.usuario_id == u && ur.rol == "estudiante") = x :: xs)
      ↔ HasStudentRole db u := by
  rw [filter_cons_iff]
  unfold HasStudentRole
  simp

/-- The student check of the enroll-student route. -/
theorem student_filter_iff (db : Db) (u : Nat) :
    (∃ x xs, db.usuarios.filter (fun usr => usr.id == u && usr.activo &&
        db.usuario_roles.any (fun ur => ur.usuario_id == usr.id && ur.rol == "estudiante"))
        = x :: xs)
      ↔ IsActiveStudent db u := by
  rw [filter_cons_iff]
  unfold IsActiveStudent HasStudentRole
  constructor
  · rintro ⟨usr, hmem, hp⟩
    simp only [Bool.and_eq_true, beq_iff_eq, List.any_eq_true] at hp
    obtain ⟨⟨hid, hact⟩, r, hr, h1, h2⟩ := hp
    exact ⟨⟨usr, hmem, hid, hact⟩, r, hr, h1.trans hid, h2⟩
  · rintro ⟨⟨usr, hmem, hid, hact⟩, r, hr, h1, h2⟩
    refine ⟨usr, hmem, ?_⟩
    simp only [Bool.and_eq_true, beq_iff_eq, List.any_eq_true]
    exact ⟨⟨hid, hact⟩, r, hr, h1.trans hid.symm, h2⟩

/-- C17, amended: the enroll-student route succeeds only when the course exists and
is active and the user exists, is active and holds the student role; it answers 404
COURSE_NOT_FOUND without the course and 404 STUDENT_NOT_FOUND without such a user,
inserting nothing.  `assignStudentToCourse` succeeds only when the user holds the
student role and the course exists and is active; it throws USER_NOT_STUDENT (400 at
the route) without the role and COURSE_NOT_FOUND without the course, inserting
nothing. -/
theorem enroll_preconditions (db : Db) (courseId usuario_id : Nat) (estado : String) :
    ((postEnrollStudent db courseId usuario_id estado).2.status = 201 →
      HasActiveCourse db courseId ∧ IsActiveStudent db usuario_id) ∧
    (¬ HasActiveCourse db courseId →
      postEnrollStudent db courseId usuario_id estado
        = (db, { status := 404, code := "COURSE_NOT_FOUND" })) ∧
    (HasActiveCourse db courseId → ¬ IsActiveStudent db usuario_id →
      postEnrollStudent db courseId usuario_id estado
        = (db, { status := 404, code := "STUDENT_NOT_FOUND" })) ∧
    ((∃ row, (assignStudentToCourse db courseId usuario_id estado).result = .ok row) →
      HasStudentRole db usuario_id ∧ HasActiveCourse db courseId) ∧
    (¬ HasStudentRole db usuario_id →
      (assignStudentToCourse db courseId usuario_id estado).result
        = .error { message := "El usuario no tiene rol de estudiante",
                   code := some "USER_NOT_STUDENT" } ∧
      postAssignStudent db courseId usuario_id estado
        = (db, { status := 400, code := "USER_NOT_STUDENT" })) ∧
    (HasStudentRole db usuario_id → ¬ HasActiveCourse db courseId →
      (assignStudentToCourse db courseId usuario_id estado).result
        = .error { message := "Curso no encontrado", code := some "COURSE_NOT_FOUND" } ∧
      (assignStudentToCourse db courseId usuario_id estado).db = db) := by
  have hc := cursos_filter_iff db courseId
  have hr := roles_filter_iff db usuario_id
  have hs := student_filter_iff db usuario_id
  cases hfc : db.cursos.filter (fun c => c.id == courseId && c.activo) with
  | nil =>
    have hnc : ¬ HasActiveCourse db courseId := by
      intro h
      obtain ⟨x, xs, hx⟩ := hc.mpr h
      rw [hfc] at hx
      cases hx
    cases hfr : db.usuario_roles.filter
        (fun ur => ur.usuario_id == usuario_id && ur.rol == "estudiante") with
    | nil =>
      have hnr : ¬ HasStudentRole db usuario_id := by
        intro h
        obtain ⟨x, xs, hx⟩ := hr.mpr h
        rw [hfr] at hx
        cases hx
      refine ⟨?_, fun _ => ?_, fun h => absurd h hnc, ?_, fun _ => ?_, fun h => absurd h hnr⟩
      · simp [postEnrollStudent, hfc]
      · simp [postEnrollStudent, hfc]
      · simp [assignStudentToCourse, hfr]
      · simp [postAssignStudent, assignStudentToCourse, hfr]
    | cons r rs =>
      have hyr := hr.mp ⟨r, rs, hfr⟩
      refine ⟨?_, fun _ => ?_, fun h => absurd h hnc, ?_, fun h => absurd hyr h, fun _ _ => ?_⟩
      · simp [postEnrollStudent, hfc]
      · simp [postEnrollStudent, hfc]
      · simp [assignStudentToCourse, hfr, hfc]
      · simp [assignStudentToCourse, hfr, hfc]
  | cons c cs =>
    have hyc := hc.mp ⟨c, cs, hfc⟩
    have hassign : ((∃ row, (assignStudentToCourse db courseId usuario_id estado).result
          = .ok row) → HasStudentRole db usuario_id ∧ HasActiveCourse db courseId) ∧
        (¬ HasStudentRole db usuario_id →
          (assignStudentToCourse db courseId usuario_id estado).result
            = .error { message := "El usuario no tiene rol de estudiante",
                       code := some "USER_NOT_STUDENT" } ∧
          postAssignStudent db courseId usuario_id estado
            = (db, { status := 400, code := "USER_NOT_STUDENT" })) := by
      cases hfr : db.usuario_roles.filter
          (fun ur => ur.usuario_id == usuario_id && ur.rol == "estudiante") with
      | nil =>
        refine ⟨?_, fun _ => ?_⟩
        · simp [assignStudentToCourse, hfr]
        · simp [postAssignStudent, assignStudentToCourse, hfr]
      | cons r rs =>
        have hyr := hr.mp ⟨r, rs, hfr⟩
        exact ⟨fun _ => ⟨hyr, hyc⟩, fun h => absurd hyr h⟩
    cases hfs : db.usuarios.filter (fun usr => usr.id == usuario_id && usr.activo &&
        db.usuario_roles.any (fun ur => ur.usuario_id == usr.id && ur.rol == "estudiante")) with
    | nil =>
      have hns : ¬ IsActiveStudent db usuario_id := by
        intro h
        obtain ⟨x, xs, hx⟩ := hs.mpr h
        rw [hfs] at hx
        cases hx
      refine ⟨?_, fun h => absurd hyc h, fun _ _ => ?_, hassign.1, hassign.2,
        fun _ h => absurd hyc h⟩
      · simp [postEnrollStudent, hfc, hfs]
      · simp [postEnrollStudent, hfc, hfs]
    | cons usr us =>
      have hys := hs.mp ⟨usr, us, hfs⟩
      exact ⟨fun _ => ⟨hyc, hys⟩, fun h => absurd hyc h, fun _ h => absurd hys h,
        hassign.1, hassign.2, fun _ h => absurd hyc h⟩

/-- C18, as stated, fails: the enroll-student route with `estado: 'aprobado'` in the
body (a value of the schema's enum) creates the enrollment of user 2 in course 1
directly in `aprobado`. -/
theorem enroll_creates_row_in_body_estado :
    (enrollWithBody .enrollStudentRoute dbNotEnrolled 1 2 (some "aprobado")).2
      = { status := 201, code := "" } ∧
    (enrollmentsOf (enrollWithBody .enrollStudentRoute dbNotEnrolled 1 2 (some "aprobado")).1
        1 2).map (fun e => e.estado) = ["aprobado"] := by
  decide

/-- A successful enroll-student request leaves the inserted row as the only row of
the pair. -/
theorem postEnrollStudent_created (db : Db) (courseId usuario_id : Nat) (estado : String)
    (h : (postEnrollStudent db courseId usuario_id estado).2.status = 201) :
    enrollmentsOf (postEnrollStudent db courseId usuario_id estado).1 courseId usuario_id
      = [(insertCursoEstudiante db courseId usuario_id estado).1] := by
  cases hc : db.cursos.filter (fun c => c.id == courseId && c.activo) with
  | nil => simp [postEnrollStudent, hc] at h
  | cons c cs =>
    cases hu : db.usuarios.filter (fun u => u.id == usuario_id && u.activo &&
        db.usuario_roles.any (fun ur => ur.usuario_id == u.id && ur.rol == "estudiante")) with
    | nil => simp [postEnrollStudent, hc, hu] at h
    | cons u us =>
      cases he : db.curso_estudiantes.filter
          (fun e => e.curso_id == courseId && e.usuario_id == usuario_id) with
      | cons e es => simp [postEnrollStudent, hc, hu, he] at h
      | nil =>
        have hdb : (postEnrollStudent db courseId usuario_id estado).1
            = (insertCursoEstudiante db courseId usuario_id estado).2 := by
          simp only [postEnrollStudent, hc, hu, he]
        rw [hdb]
        exact insert_enrollmentsOf db courseId usuario_id estado he

/-- A successful assign-student request leaves the inserted row as the only row of
the pair. -/
theorem postAssignStudent_created (db : Db) (courseId usuario_id : Nat) (estado : String)
    (h : (postAssignStudent db courseId usuario_id estado).2.status = 201) :
    enrollmentsOf (postAssignStudent db courseId usuario_id estado).1 courseId usuario_id
      = [(insertCursoEstudiante db courseId usuario_id estado).1] := by
  cases hr : db.usuario_roles.filter
      (fun ur => ur.usuario_id == usuario_id && ur.rol == "estudiante") with
  | nil => simp [postAssignStudent, assignStudentToCourse, hr] at h
  | cons r rs =>
    cases hc : db.cursos.filter (fun c => c.id == courseId && c.activo) with
    | nil => simp [postAssignStudent, assignStudentToCourse, hr, hc] at h
    | cons c cs =>
      cases he : db.curso_estudiantes.filter
          (fun e => e.curso_id == courseId && e.usuario_id == usuario_id) with
      | cons e es => simp [postAssignStudent, assignStudentToCourse, hr, hc, he] at h
      | nil =>
        have hdb : (postAssignStudent db courseId usuario_id estado).1
            = (insertCursoEstudiante db courseId usuario_id estado).2 := by
          simp only [postAssignStudent, assignStudentToCourse, hr, hc, he]
        rw [hdb]
        exact insert_enrollmentsOf db courseId usuario_id estado he

/-- A successful self-enroll request leaves the inserted row as the only row of the
pair. -/
theorem postUserEnroll_created (db : Db) (usuario_id courseId : Nat)
    (h : (postUserEnroll db usuario_id courseId).2.status = 201) :
    enrollmentsOf (postUserEnroll db usuario_id courseId).1 courseId usuario_id
      = [(insertCursoEstudiante db courseId usuario_id estadoInscrito).1] := by
  cases hc : db.cursos.filter (fun c => c.id == courseId && c.activo) with
  | nil => simp [postUserEnroll, enrollInCourse, enrollInCourseBody, hc] at h
  | cons c cs =>
    cases he : db.curso_estudiantes.filter
        (fun e => e.curso_id == courseId && e.usuario_id == usuario_id) with
    | cons e es => simp [postUserEnroll, enrollInCourse, enrollInCourseBody, hc, he] at h
    | nil =>
      have hdb : (postUserEnroll db usuario_id courseId).1
          = (insertCursoEstudiante db courseId usuario_id estadoInscrito).2 := by
        simp only [postUserEnroll, enrollInCourse, enrollInCourseBody, hc, he]
      rw [hdb]
      exact insert_enrollmentsOf db courseId usuario_id estadoInscrito he

/-- C18, amended: after a successful enroll the pair has exactly one row; through
the enroll-student and assign-student routes its `estado` is the one the request
body supplies, `inscrito` when the body supplies none, and through the self-enroll
route it is `inscrito`. -/
theorem enroll_initial_estado (path : EnrollPath) (db : Db) (courseId usuario_id : Nat)
    (estado : Option String)
    (h : (enrollWithBody path db courseId usuario_id estado).2.status = 201) :
    (enrollmentsOf (enrollWithBody path db courseId usuario_id estado).1 courseId
        usuario_id).map (fun e => e.estado)
      = [match path with
         | .userEnrollRoute => "inscrito"
         | _ => estado.getD "inscrito"] := by
  cases path with
  | enrollStudentRoute =>
    have := postEnrollStudent_created db courseId usuario_id (bodyEstado estado) h
    simp only [enrollWithBody, enroll]
    rw [this]
    rfl
  | assignStudentRoute =>
    have := postAssignStudent_created db courseId usuario_id (bodyEstado estado) h
    simp only [enrollWithBody, enroll]
    rw [this]
    rfl
  | userEnrollRoute =>
    have := postUserEnroll_created db usuario_id courseId h
    simp only [enrollWithBody, enroll]
    rw [this]
    rfl

/-- Witness for C18: a body without `estado` enrolls user 2 in `inscrito`. -/
theorem enroll_initial_estado_witness :
    (enrollmentsOf (enrollWithBody .enrollStudentRoute dbNotEnrolled 1 2 none).1 1 2).map
        (fun e => e.estado) = ["inscrito"] :=
  enroll_initial_estado .enrollStudentRoute dbNotEnrolled 1 2 none (by decide)

/-! ## Enrollment: status updates and removal -/

/-- C19, as stated, fails: `updateEnrollment` with a body that supplies `estado`
only writes `NULL` over the stored grade 45 of enrollment 1. -/
theorem updateEnrollment_clears_unsupplied_nota :
    dbGraded.curso_estudiantes.map (fun e => (e.id, e.estado, e.nota_final))
      = [(1, "inscrito", some 45)] ∧
    (putStudentEnrollment dbGraded 100 1 { estado := some "aprobado" }).2
      = { status := 200, code := "" } ∧
    (putStudentEnrollment dbGraded 100 1 { estado := some "aprobado" }).1.curso_estudiantes.map
        (fun e => (e.id, e.estado, e.nota_final)) = [(1, "aprobado", none)] := by
  decide

/-- C19, amended.  `updateStudentCourseStatus`: for a pair without enrollment row it
throws ENROLLMENT_NOT_FOUND (404 at the route) and changes nothing; for a pair with
a row and a body that supplies neither field it throws NO_FIELDS_TO_UPDATE and
changes nothing; for a pair with a row and a body that supplies `estado` or a
numeric `nota_final` (0 included) it writes exactly the supplied fields and
`fecha_estado` on the rows of the pair and leaves every other row.
`updateEnrollment`: for an id without row it throws and changes nothing; for an id
with a row and a body with `estado` it writes `estado`, `fecha_estado` and
`nota_final`, the latter `NULL` when the body supplies none or the empty string.
`updateStudentEnrollment`: for an id without row it returns `null` and changes
nothing; with a row and a body with `estado` it writes `estado`, `fecha_estado` and
a numeric `nota_final` when supplied (0 included), keeping the stored grade
otherwise. -/
theorem updateStatus_writes (db : Db) (now : Nat) (req : StatusUpdate) :
    (∀ courseId studentId,
      (¬ ∃ e ∈ db.curso_estudiantes, e.curso_id = courseId ∧ e.usuario_id = studentId) →
      (updateStudentCourseStatus db now courseId studentId req).result
        = .error { message := "Inscripción no encontrada",
                   code := some "ENROLLMENT_NOT_FOUND" } ∧
      putStudentStatus db now courseId studentId req
        = (db, { status := 404, code := "ENROLLMENT_NOT_FOUND" })) ∧
    (∀ courseId studentId,
      (∃ e ∈ db.curso_estudiantes, e.curso_id = courseId ∧ e.usuario_id = studentId) →
      req.estado = none → req.nota_final = .absent →
      (updateStudentCourseStatus db now courseId studentId req).result
        = .error { message := "No hay campos para actualizar",
                   code := some "NO_FIELDS_TO_UPDATE" } ∧
      (updateStudentCourseStatus db now courseId studentId req).db = db) ∧
    (∀ courseId studentId,
      (∃ e ∈ db.curso_estudiantes, e.curso_id = courseId ∧ e.usuario_id = studentId) →
      ¬ (req.estado = none ∧ req.nota_final = .absent) → req.nota_final ≠ .empty →
      (putStudentStatus db now courseId studentId req).2 = { status := 200, code := "" } ∧
      (putStudentStatus db now courseId studentId req).1.curso_estudiantes
        = db.curso_estudiantes.map (fun e =>
            if e.curso_id == courseId && e.usuario_id == studentId then
              { e with estado := req.estado.getD e.estado,
                       nota_final := (match req.nota_final with
                         | .num n => some n
                         | _ => e.nota_final),
                       fecha_estado := now }
            else e)) ∧
    (∀ enrollmentId, (¬ ∃ e ∈ db.curso_estudiantes, e.id = enrollmentId) →
      (updateEnrollment db now enrollmentId req).result
        = .error { message := "Inscripción no encontrada" } ∧
      (updateEnrollment db now enrollmentId req).db = db ∧
      updateStudentEnrollment db now enrollmentId req = { db := db, result := .ok none }) ∧
    (∀ enrollmentId estado, (∃ e ∈ db.curso_estudiantes, e.id = enrollmentId) →
      req.estado = some estado → req.nota_final ≠ .num 0 →
      (updateEnrollment db now enrollmentId req).db.curso_estudiantes
        = db.curso_estudiantes.map (fun e =>
            if e.id == enrollmentId then
              { e with estado := estado,
                       nota_final := (match req.nota_final with
                         | .num n => some n
                         | _ => none),
                       fecha_estado := now }
            else e)) ∧
    (∀ enrollmentId estado, (∃ e ∈ db.curso_estudiantes, e.id = enrollmentId) →
      req.estado = some estado →
      (updateStudentEnrollment db now enrollmentId req).db.curso_estudiantes
        = db.curso_estudiantes.map (fun e =>
            if e.id == enrollmentId then
              { e with estado := estado,
                       nota_final := (match req.nota_final with
                         | .num n => some n
                         | _ => e.nota_final),
                       fecha_estado := now }
            else e)) := by
  have hpair : ∀ courseId studentId,
      (∃ x xs, db.curso_estudiantes.filter
          (fun e => e.curso_id == courseId && e.usuario_id == studentId) = x :: xs)
        ↔ ∃ e ∈ db.curso_estudiantes, e.curso_id = courseId ∧ e.usuario_id = studentId := by
    intro c u
    rw [filter_cons_iff]
    simp
  have hid : ∀ enrollmentId,
      (db.curso_estudiantes.filter (fun e => e.id == enrollmentId)).length > 0
        ↔ ∃ e ∈ db.curso_estudiantes, e.id = enrollmentId := by
    intro i
    rw [filter_length_pos_iff]
    simp
  refine ⟨?_, ?_, ?_, ?_, ?_, ?_⟩
  · intro c u hno
    cases hf : db.curso_estudiantes.filter
        (fun e => e.curso_id == c && e.usuario_id == u) with
    | nil => simp [putStudentStatus, updateStudentCourseStatus, hf]
    | cons x xs => exact absurd ((hpair c u).mp ⟨x, xs, hf⟩) hno
  · intro c u hyes he hn
    obtain ⟨x, xs, hf⟩ := (hpair c u).mpr hyes
    simp [updateStudentCourseStatus, hf, he, hn]
  · intro c u hyes hsome hne
    obtain ⟨x, xs, hf⟩ := (hpair c u).mpr hyes
    cases hN : req.nota_final with
    | empty => exact absurd hN hne
    | absent =>
      cases hE : req.estado with
      | none => exact absurd ⟨hE, hN⟩ hsome
      | some v => simp [putStudentStatus, updateStudentCourseStatus, hf, hN, hE]
    | num n =>
      simp [putStudentStatus, updateStudentCourseStatus, hf, hN]
  · intro i hno
    have h0 : (db.curso_estudiantes.filter (fun e => e.id == i)).length = 0 := by
      have := (hid i).not.mpr hno
      omega
    have hnil := List.length_eq_zero.mp h0
    simp [updateEnrollment, updateStudentEnrollment, h0, hnil]
  · intro i estado hyes hE hne
    have hpos := (hid i).mpr hyes
    have h0 : ¬ (db.curso_estudiantes.filter (fun e => e.id == i)).length = 0 := by omega
    have hnota : notaFinalValue req.nota_final
        = (match req.nota_final with
           | .num n => some n
           | _ => none) := by
      cases hN : req.nota_final with
      | absent => rfl
      | empty => rfl
      | num n =>
        have : n ≠ 0 := fun h0 => hne (by rw [hN, h0])
        simp [notaFinalValue, this]
    simp only [updateEnrollment, h0, hE, ↓reduceIte, hnota]
  · intro i estado hyes hE
    have hpos := (hid i).mpr hyes
    cases hf : db.curso_estudiantes.filter (fun e => e.id == i) with
    | nil => rw [hf] at hpos; simp at hpos
    | cons x xs => simp only [updateStudentEnrollment, hf, hE]

/-- C20: no enrollment has id 99; `deleteEnrollment` throws a plain error without
`code`, deletes nothing, and the route answers 500 ENROLLMENT_DELETE_ERROR, while
the status-update route answers 404 ENROLLMENT_NOT_FOUND for a missing enrollment
at the same store.  On the existing id 1 the delete removes exactly that row. -/
theorem deleteEnrollment_missing_id_answers_500 :
    dbEnrolledOnce.curso_estudiantes.map (fun e => e.id) = [1] ∧
    (deleteEnrollment dbEnrolledOnce 99).result
      = .error { message := "Inscripción no encontrada" } ∧
    deleteStudentEnrollment dbEnrolledOnce 99
      = (dbEnrolledOnce, { status := 500, code := "ENROLLMENT_DELETE_ERROR" }) ∧
    putStudentStatus dbEnrolledOnce 100 1 99 { estado := some "aprobado" }
      = (dbEnrolledOnce, { status := 404, code := "ENROLLMENT_NOT_FOUND" }) ∧
    (deleteStudentEnrollment dbEnrolledOnce 1).2 = { status := 200, code := "" } ∧
    (deleteStudentEnrollment dbEnrolledOnce 1).1.curso_estudiantes = [] := by
  decide

/-- `deleteEnrollment` on any store: a missing id changes nothing, an existing id
removes the rows with that id and no other. -/
theorem deleteEnrollment_effect (db : Db) (enrollmentId : Nat) :
    ((¬ ∃ e ∈ db.curso_estudiantes, e.id = enrollmentId) →
      (deleteEnrollment db enrollmentId).db = db) ∧
    ((∃ e ∈ db.curso_estudiantes, e.id = enrollmentId) →
      (deleteEnrollment db enrollmentId).result = .ok () ∧
      (deleteEnrollment db enrollmentId).db.curso_estudiantes
        = db.curso_estudiantes.filter (fun e => !(e.id == enrollmentId))) := by
  have hid : (db.curso_estudiantes.filter (fun e => e.id == enrollmentId)).length > 0
      ↔ ∃ e ∈ db.curso_estudiantes, e.id = enrollmentId := by
    rw [filter_length_pos_iff]
    simp
  constructor
  · intro hno
    have h0 : (db.curso_estudiantes.filter (fun e => e.id == enrollmentId)).length = 0 := by
      have := hid.not.mpr hno
      omega
    simp only [deleteEnrollment, h0, ↓reduceIte]
  · intro hyes
    have hpos := hid.mpr hyes
    have h0 : ¬ (db.curso_estudiantes.filter (fun e => e.id == enrollmentId)).length = 0 := by
      omega
    simp only [deleteEnrollment, h0, ↓reduceIte, and_self]

/-! ## Tokens: `parseTimeToMs` -/

/-- Every character `digitChar` produces is a decimal digit. -/
theorem isDigit_digitChar (d : Nat) : isDigit (digitChar d) = true := by
  unfold digitChar
  split <;> decide

/-- The value `parseInt` gives a digit produced by `digitChar`. -/
theorem digitChar_value (d : Nat) (h : d < 10) : (digitChar d).toNat - 48 = d := by
  interval_cases d <;> rfl

/-- The characters of a decimal numeral are digits. -/
theorem decimal_digits (n : Nat) : ∀ c ∈ decimal n, isDigit c = true := by
  intro c hc
  unfold decimal at hc
  split at hc
  · simp only [List.mem_singleton] at hc
    subst hc
    decide
  · obtain ⟨d, _, rfl⟩ := List.mem_map.mp hc
    exact isDigit_digitChar d

/-- A decimal numeral is not empty. -/
theorem decimal_ne_nil (n : Nat) : decimal n ≠ [] := by
  unfold decimal
  split
  · simp
  · rename_i h
    simp only [ne_eq, List.map_eq_nil_iff, List.reverse_eq_nil_iff]
    exact fun h0 => h (Nat.digits_eq_nil_iff_eq_zero.mp h0)

/-- Reading the digits of a numeral from the left gives the number back. -/
theorem digits_foldl (L : List Nat) (hL : ∀ d ∈ L, d < 10) :
    (L.reverse.map digitChar).foldl (fun n c => 10 * n + (c.toNat - 48)) 0
      = Nat.ofDigits 10 L := by
  induction L with
  | nil => rfl
  | cons d L ih =>
    have hd : d < 10 := hL d (List.mem_cons_self _ _)
    have hL2 : ∀ x ∈ L, x < 10 := fun x hx => hL x (List.mem_cons_of_mem _ hx)
    simp only [List.reverse_cons, List.map_append, List.map_cons, List.map_nil,
      List.foldl_append, List.foldl_cons, List.foldl_nil, ih hL2, digitChar_value d hd,
      Nat.ofDigits_cons]
    omega

/-- The digits of a decimal numeral read back as the number. -/
theorem decimal_value (n : Nat) :
    (decimal n).foldl (fun k c => 10 * k + (c.toNat - 48)) 0 = n := by
  unfold decimal
  split
  · rename_i h
    subst h
    rfl
  · rw [digits_foldl _ (fun d hd => Nat.digits_lt_base (by norm_num) hd), Nat.ofDigits_digits]

/-- The bounds of a decimal digit. -/
theorem isDigit_bounds (c : Char) (h : isDigit c = true) : 48 ≤ c.toNat ∧ c.toNat ≤ 57 := by
  simpa [isDigit] using h

/-- The leading digits of digits followed by a unit letter, or by nothing. -/
theorem takeWhile_digits (ds suf : List Char) (hds : ∀ c ∈ ds, isDigit c = true)
    (hsuf : ∀ c ∈ suf, isDigit c = false) : (ds ++ suf).takeWhile isDigit = ds := by
  induction ds with
  | nil =>
    cases suf with
    | nil => rfl
    | cons c r => simp [List.takeWhile, hsuf c (List.mem_cons_self _ _)]
  | cons d ds ih =>
    have hd := hds d (List.mem_cons_self _ _)
    have ih2 := ih (fun c hc => hds c (List.mem_cons_of_mem _ hc))
    simp only [List.cons_append, List.takeWhile, hd]
    exact congrArg (List.cons d) ih2

/-- A needle that starts with a letter is not found among digits. -/
theorem includesChars_digits (ds suf : List Char) (x : Char) (xs : List Char)
    (hds : ∀ c ∈ ds, isDigit c = true) (hx : isDigit x = false) :
    includesChars (ds ++ suf) (x :: xs) = includesChars suf (x :: xs) := by
  induction ds with
  | nil => rfl
  | cons d ds ih =>
    have hd := hds d (List.mem_cons_self _ _)
    have hne : (x == d) = false := by
      rw [beq_eq_false_iff_ne]
      intro h
      rw [h, hd] at hx
      cases hx
    simp only [List.cons_append, includesChars, List.isPrefixOf, hne, Bool.false_and,
      Bool.false_or]
    exact ih (fun c hc => hds c (List.mem_cons_of_mem _ hc))

/-- `parseDigits` reads the leading decimal digits when the text has no `x`. -/
theorem parseDigits_decimal (l : List Char)
    (hx : ∀ c ∈ l, c.toNat ≠ 120 ∧ c.toNat ≠ 88) :
    parseDigits l
      = if (l.takeWhile isDigit).isEmpty then none
        else some ((l.takeWhile isDigit).foldl (fun n c => 10 * n + (c.toNat - 48)) 0) := by
  cases l with
  | nil => rfl
  | cons a t =>
    cases t with
    | nil => rfl
    | cons b r =>
      have hb := hx b (by simp)
      simp [parseDigits, hb.1, hb.2]

/-- `parseInt` of a decimal numeral followed by unit letters is the number. -/
theorem parseInt_decimal (n : Nat) (suf : List Char) (hsuf : ∀ c ∈ suf, isDigit c = false)
    (hx : ∀ c ∈ suf, c.toNat ≠ 120 ∧ c.toNat ≠ 88) :
    parseInt (decimal n ++ suf) = some (n : Int) := by
  have hds := decimal_digits n
  have hall : ∀ c ∈ decimal n ++ suf, c.toNat ≠ 120 ∧ c.toNat ≠ 88 := by
    intro c hc
    rcases List.mem_append.mp hc with h | h
    · have := isDigit_bounds c (hds c h)
      omega
    · exact hx c h
  cases hdec : decimal n with
  | nil => exact absurd hdec (decimal_ne_nil n)
  | cons d rest =>
    have hd : isDigit d = true := hds d (by rw [hdec]; exact List.mem_cons_self _ _)
    have hb := isDigit_bounds d hd
    have hsp : isJsSpace d = false := by
      have h1 : 48 ≤ d.toNat := hb.1
      have h2 : d.toNat ≤ 57 := hb.2
      unfold isJsSpace
      generalize d.toNat = k at h1 h2
      interval_cases k <;> decide
    have h45 : (d.toNat == 45) = false := by
      rw [beq_eq_false_iff_ne]; omega
    have h43 : (d.toNat == 43) = false := by
      rw [beq_eq_false_iff_ne]; omega
    have hpd := parseDigits_decimal (d :: (rest ++ suf))
      (by rw [← List.cons_append, ← hdec]; exact hall)
    have htw : (d :: (rest ++ suf)).takeWhile isDigit = d :: rest := by
      rw [← List.cons_append, ← hdec]
      exact takeWhile_digits (decimal n) suf hds hsuf
    have hval := decimal_value n
    rw [hdec] at hval
    rw [htw] at hpd
    simp only [List.isEmpty_cons, Bool.false_eq_true, ↓reduceIte, hval] at hpd
    have hdrop : (d :: (rest ++ suf)).dropWhile isJsSpace = d :: (rest ++ suf) := by
      simp [List.dropWhile, hsp]
    unfold parseInt
    rw [List.cons_append, hdrop]
    simp only [h45, h43, Bool.false_eq_true, ↓reduceIte, hpd, Option.map_some']
    rfl

/-- Lower-casing leaves digits and the unit letters as they are. -/
theorem map_lowerChar_decimal (n : Nat) (suf : List Char)
    (hsuf : ∀ c ∈ suf, lowerChar c = c) :
    (decimal n ++ suf).map lowerChar = decimal n ++ suf := by
  have hall : ∀ c ∈ decimal n ++ suf, lowerChar c = id c := by
    intro c hc
    rcases List.mem_append.mp hc with h | h
    · have := isDigit_bounds c (decimal_digits n c h)
      have hcond : (decide (65 ≤ c.toNat) && decide (c.toNat ≤ 90)) = false := by
        simp only [Bool.and_eq_false_imp, decide_eq_true_eq, decide_eq_false_iff_not]
        omega
      simp [lowerChar, hcond]
    · exact hsuf c h
  rw [List.map_congr_left hall, List.map_id]

/-- C23: for every non-negative integer `n` in the range where JavaScript numbers
are exact (`n * 86400000` at most 2^53 - 1), `parseTimeToMs` returns `n` for the
number `n`, `n * 1000` for the string of `n` followed by `s`, `n * 60000` for `m`,
`n * 3600000` for `h`, `n * 86400000` for `d`, and `n * 1000` for the bare numeral. -/
theorem parseTimeToMs_units (n : Nat) (_hsafe : n * 86400000 ≤ 9007199254740991) :
    parseTimeToMs (.number n) = some (n : Int) ∧
    parseTimeToMs (.str (String.mk (decimal n ++ ['s']))) = some ((n : Int) * 1000) ∧
    parseTimeToMs (.str (String.mk (decimal n ++ ['m']))) = some ((n : Int) * 60000) ∧
    parseTimeToMs (.str (String.mk (decimal n ++ ['h']))) = some ((n : Int) * 3600000) ∧
    parseTimeToMs (.str (String.mk (decimal n ++ ['d']))) = some ((n : Int) * 86400000) ∧
    parseTimeToMs (.str (String.mk (decimal n))) = some ((n : Int) * 1000) := by
  have hds := decimal_digits n
  have hne : ∀ suf : List Char, (String.mk (decimal n ++ suf) == "") = false := by
    intro suf
    rw [beq_eq_false_iff_ne]
    intro h
    have h2 := congrArg String.toList h
    simp only [String.toList] at h2
    cases hdec : decimal n with
    | nil => exact decimal_ne_nil n hdec
    | cons d r => rw [hdec] at h2; cases h2
  have key : ∀ (c : Char), isDigit c = false → lowerChar c = c →
      (c.toNat ≠ 120 ∧ c.toNat ≠ 88) →
      parseInt ((decimal n ++ [c]).map lowerChar) = some (n : Int) ∧
      ∀ x xs, isDigit x = false →
        includesChars ((decimal n ++ [c]).map lowerChar) (x :: xs)
          = includesChars [c] (x :: xs) := by
    intro c hc hl hx
    rw [map_lowerChar_decimal n [c] (by simpa using hl)]
    refine ⟨parseInt_decimal n [c] (by simpa using hc) (by simpa using hx), ?_⟩
    intro x xs hxd
    exact includesChars_digits (decimal n) [c] x xs hds hxd
  refine ⟨rfl, ?_, ?_, ?_, ?_, ?_⟩
  · obtain ⟨hp, hi⟩ := key 's' (by decide) (by decide) (by decide)
    simp only [parseTimeToMs, hne, Bool.false_eq_true, ↓reduceIte, String.toList, hp,
      hi 'm' ['s'] (by decide), hi 's' [] (by decide)]
    simp [includesChars, List.isPrefixOf]
  · obtain ⟨hp, hi⟩ := key 'm' (by decide) (by decide) (by decide)
    simp only [parseTimeToMs, hne, Bool.false_eq_true, ↓reduceIte, String.toList, hp,
      hi 'm' ['s'] (by decide), hi 's' [] (by decide), hi 'm' [] (by decide)]
    simp [includesChars, List.isPrefixOf]
    ring
  · obtain ⟨hp, hi⟩ := key 'h' (by decide) (by decide) (by decide)
    simp only [parseTimeToMs, hne, Bool.false_eq_true, ↓reduceIte, String.toList, hp,
      hi 'm' ['s'] (by decide), hi 's' [] (by decide), hi 'm' [] (by decide),
      hi 'h' [] (by decide)]
    simp [includesChars, List.isPrefixOf]
    ring
  · obtain ⟨hp, hi⟩ := key 'd' (by decide) (by decide) (by decide)
    simp only [parseTimeToMs, hne, Bool.false_eq_true, ↓reduceIte, String.toList, hp,
      hi 'm' ['s'] (by decide), hi 's' [] (by decide), hi 'm' [] (by decide),
      hi 'h' [] (by decide), hi 'd' [] (by decide)]
    simp [includesChars, List.isPrefixOf]
    ring
  · have hmap := map_lowerChar_decimal n [] (by simp)
    have hp := parseInt_decimal n [] (by simp) (by simp)
    have hi : ∀ x xs, isDigit x = false →
        includesChars (decimal n) (x :: xs) = includesChars [] (x :: xs) := by
      intro x xs hxd
      have := includesChars_digits (decimal n) [] x xs hds hxd
      simpa using this
    simp only [List.append_nil] at hmap hp
    have hne0 := hne []
    simp only [List.append_nil] at hne0
    simp only [parseTimeToMs, hne0, Bool.false_eq_true, ↓reduceIte, String.toList, hmap, hp,
      hi 'm' ['s'] (by decide), hi 's' [] (by decide), hi 'm' [] (by decide),
      hi 'h' [] (by decide), hi 'd' [] (by decide)]
    simp [includesChars]

/-- Witness for C23: fifteen minutes. -/
theorem parseTimeToMs_units_witness :
    decimal 15 = ['1', '5'] ∧ parseTimeToMs (.str "15m") = some 900000 := by
  have hd : decimal 15 = ['1', '5'] := by simp [decimal, digitChar]
  have h := (parseTimeToMs_units 15 (by norm_num)).2.2.1
  rw [hd] at h
  exact ⟨hd, h⟩

/-! ## Tokens: issue, verification, refresh -/

/-- A token verified with the secret it was signed with, before its expiry, is
returned as signed. -/
theorem jwtVerifyWith_jwtSign (payload : JwtClaims) (secret : String) (now ttl t : Nat)
    (h : t < now + ttl) :
    jwtVerifyWith secret t (jwtSign payload secret now ttl) =
      .ok (jwtSign payload secret now ttl) := by
  simp [jwtVerifyWith, jwtSign, h]

/-- A token verified with the secret it was signed with, at or after its expiry,
fails with `TokenExpiredError`. -/
theorem jwtVerifyWith_expired (payload : JwtClaims) (secret : String) (now ttl t : Nat)
    (h : now + ttl ≤ t) :
    jwtVerifyWith secret t (jwtSign payload secret now ttl) = .error .expired := by
  simp [jwtVerifyWith, jwtSign, h]

/-- C21: for every payload, the access token and the refresh token `createTokens`
returns carry the same claims; before their expiry, verifying the access token with
the primary secret and the refresh token with `verifyRefreshToken` both succeed and
yield claims equal to the payload, the token adding only the timing fields `iat` and
`exp`. -/
theorem createTokens_round_trip (env : Env) (now t : Nat) (payload : JwtClaims)
    (ha : t < now + env.accessTtl) (hr : t < now + env.refreshTtl) :
    (createTokens env now payload).accessToken.claims =
        (createTokens env now payload).refreshToken.claims ∧
      (∃ tok, verifyAccessToken env t (.jwt (createTokens env now payload).accessToken)
          = .ok tok ∧ tok.claims = payload ∧ tok.iat = now ∧
            tok.exp = now + env.accessTtl) ∧
      (∃ tok, verifyRefreshToken env t (.jwt (createTokens env now payload).refreshToken)
          = .ok tok ∧ tok.claims = payload ∧ tok.iat = now ∧
            tok.exp = now + env.refreshTtl) := by
  refine ⟨rfl, ⟨jwtSign payload env.JWT_SECRET now env.accessTtl, ?_, rfl, rfl, rfl⟩,
    ⟨jwtSign payload (refreshSecret env) now env.refreshTtl, ?_, rfl, rfl, rfl⟩⟩
  · exact jwtVerifyWith_jwtSign payload env.JWT_SECRET now env.accessTtl t ha
  · exact jwtVerifyWith_jwtSign payload (refreshSecret env) now env.refreshTtl t hr

/-- Witness for C21: the payload of `test-jwt.js`, signed at time 0 with one hour of
life for the access token and a day for the refresh token, verified at time 10. -/
theorem createTokens_round_trip_witness :
    (10 < 0 + envSample.accessTtl ∧ 10 < 0 + envSample.refreshTtl) ∧
    ((createTokens envSample 0 payloadSample).accessToken.claims =
        (createTokens envSample 0 payloadSample).refreshToken.claims ∧
      (∃ tok, verifyAccessToken envSample 10
            (.jwt (createTokens envSample 0 payloadSample).accessToken)
          = .ok tok ∧ tok.claims = payloadSample ∧ tok.iat = 0 ∧
            tok.exp = 0 + envSample.accessTtl) ∧
      (∃ tok, verifyRefreshToken envSample 10
            (.jwt (createTokens envSample 0 payloadSample).refreshToken)
          = .ok tok ∧ tok.claims = payloadSample ∧ tok.iat = 0 ∧
            tok.exp = 0 + envSample.refreshTtl)) :=
  ⟨⟨by decide, by decide⟩,
    createTokens_round_trip envSample 0 10 payloadSample (by decide) (by decide)⟩

/-- The refresh handler on a refresh token that verifies: the object it sends has
status 200, a new access token signed over exactly the `usuario_id`, `email` and
`roles` of the refresh token's claims, and the refresh token it received. -/
theorem postRefresh_valid (env : Env) (now : Nat) (raw : RawToken) (decoded : Token)
    (h : verifyRefreshToken env now raw = .ok decoded) :
    postRefresh env now (some raw) =
      { status := 200,
        token := some (jwtSign decoded.claims env.JWT_SECRET now env.accessTtl),
        refreshToken := some raw,
        message := some "Token renovado exitosamente" } := by
  cases raw with
  | garbage text => simp [verifyRefreshToken] at h
  | jwt t => simp [postRefresh, refreshTokenMissing, h]

/-- The refresh handler on a body without a refresh token answers 400
`REFRESH_TOKEN_MISSING`, on an expired one 401 `REFRESH_TOKEN_EXPIRED`, on any other
one that does not verify 401 `REFRESH_TOKEN_INVALID`; the framework serialises these
replies with their `error` and `code`. -/
theorem postRefresh_failures (env : Env) (now : Nat) :
    ((refreshResponse (postRefresh env now none)).status = 400 ∧
      (refreshResponse (postRefresh env now none)).code = some "REFRESH_TOKEN_MISSING") ∧
    (∀ t, verifyRefreshToken env now (.jwt t) = .error .expired →
      (refreshResponse (postRefresh env now (some (.jwt t)))).status = 401 ∧
      (refreshResponse (postRefresh env now (some (.jwt t)))).code =
        some "REFRESH_TOKEN_EXPIRED") ∧
    (∀ raw, refreshTokenMissing (some raw) = false →
      verifyRefreshToken env now raw = .error .invalid →
      (refreshResponse (postRefresh env now (some raw))).status = 401 ∧
      (refreshResponse (postRefresh env now (some raw))).code =
        some "REFRESH_TOKEN_INVALID") := by
  refine ⟨by simp [postRefresh, refreshResponse], ?_, ?_⟩
  · intro t h
    simp [postRefresh, refreshTokenMissing, h, refreshResponse]
  · intro raw hm h
    simp [postRefresh, hm, h, refreshResponse]

/-- The response to a refresh token that verifies never carries a `refreshToken`:
the response schema of the route does not list the property. -/
theorem refreshResponse_valid (env : Env) (now : Nat) (raw : RawToken) (decoded : Token)
    (h : verifyRefreshToken env now raw = .ok decoded) :
    refreshResponse (postRefresh env now (some raw)) =
      { status := 200,
        token := some (jwtSign decoded.claims env.JWT_SECRET now env.accessTtl),
        message := some "Token renovado exitosamente" } := by
  rw [postRefresh_valid env now raw decoded h]
  simp [refreshResponse]

/-- C22: with the refresh token `createTokens` issued for the sample payload, still
valid at time 10, the refresh handler hands `reply.send` a new access token over the
same claims together with the refresh token it received, but the response the
client gets has status 200, the new access token and the message only: the
`refreshToken` is not in it. -/
theorem refresh_response_omits_refreshToken :
    verifyRefreshToken envSample 10
        (.jwt (createTokens envSample 0 payloadSample).refreshToken) =
      .ok (createTokens envSample 0 payloadSample).refreshToken ∧
    (postRefresh envSample 10
        (some (.jwt (createTokens envSample 0 payloadSample).refreshToken))).refreshToken =
      some (.jwt (createTokens envSample 0 payloadSample).refreshToken) ∧
    refreshResponse (postRefresh envSample 10
        (some (.jwt (createTokens envSample 0 payloadSample).refreshToken))) =
      { status := 200,
        token := some (jwtSign payloadSample "clave" 10 3600),
        refreshToken := none,
        message := some "Token renovado exitosamente" } := by
  refine ⟨by decide, by decide, by decide⟩

/-! ## Login -/

/-- The text of a store array is never the empty string. -/
theorem pgArrayText_ne_empty (xs : List (Option String)) : (pgArrayText xs == "") = false := by
  have h : pgArrayText xs ≠ "" := by
    intro h
    have h2 := congrArg String.length h
    simp [pgArrayText, String.length_append] at h2
    exact absurd h2.2 (by decide)
  simpa using h

/-- The aggregate of the roles of a user who has a role row lacks no role, in either
form the driver hands it over. -/
theorem rolesFaltan_of_role (asText : Bool) (db : Db) (id : Nat) (rol : String)
    (rest : List String) (h : rolesOf db id = rol :: rest) :
    rolesFaltan (driverRoles asText (arrayAggRoles db id)) = false := by
  cases asText with
  | true => simp [driverRoles, rolesFaltan, pgArrayText_ne_empty]
  | false => simp [driverRoles, arrayAggRoles, h, rolesFaltan]

/-- C24 (counterexample): the email `a@b.com` matches no user of the store, but the
number the stub draws is the institutional code of user 1; `login` creates no user,
leaves the store as it is and answers with tokens for user 1, `x@y.com`, with the
roles `docente`. -/
theorem login_new_email_reuses_other_user :
    dbOneTeacher.usuarios.filter (fun u => u.email == "a@b.com") = [] ∧
    (login envSample 0 false dbOneTeacher "a@b.com" "1234567890").1 = dbOneTeacher ∧
    (login envSample 0 false dbOneTeacher "a@b.com" "1234567890").2.token.claims =
      { usuario_id := some 1, email := "x@y.com", roles := ["docente"] } := by
  refine ⟨by decide, by decide, by decide⟩

/-- `login` with an email and a drawn number that match no user: one user row and
one `estudiante` role row are appended and the tokens carry the new user. -/
theorem login_creates (env : Env) (now : Nat) (asText : Bool) (db : Db)
    (email cedula : String) (hnone : loginLookup db email cedula = []) :
    login env now asText db email cedula =
      ({ db with
          usuarios := db.usuarios ++ [{ id := db.usuarios_seq, email := email, activo := true,
                                        codigo_institucional := some cedula }],
          usuarios_seq := db.usuarios_seq + 1,
          usuario_roles := db.usuario_roles ++
            [{ usuario_id := db.usuarios_seq, rol := "estudiante" }] },
        loginResponse env now
          { id := db.usuarios_seq, email := email, activo := true,
            codigo_institucional := some cedula } ["estudiante"]) := by
  simp [login, hnone]

/-- C24 (amended): when the email and the number the stub draws match no user,
`login` appends one user row with that email, active, and one role row `estudiante`
for it, and both tokens carry the new id, the email and the roles `estudiante`; a
second login with the same email, whose drawn number is the institutional code of
no earlier user, answers for the same user id and leaves the store as the first
login left it: no user row and no role row is added. -/
theorem login_creates_then_reuses (env : Env) (now later : Nat) (asText : Bool) (db : Db)
    (email cedula cedula2 : String)
    (hnone : loginLookup db email cedula = [])
    (hnone2 : ∀ u ∈ db.usuarios, u.codigo_institucional ≠ some cedula2) :
    (login env now asText db email cedula).1.usuarios =
        db.usuarios ++ [{ id := db.usuarios_seq, email := email, activo := true,
                          codigo_institucional := some cedula }] ∧
      (login env now asText db email cedula).1.usuario_roles =
        db.usuario_roles ++ [{ usuario_id := db.usuarios_seq, rol := "estudiante" }] ∧
      (login env now asText db email cedula).2.roles = ["estudiante"] ∧
      (login env now asText db email cedula).2.token.claims =
        { usuario_id := some db.usuarios_seq, email := email, roles := ["estudiante"] } ∧
      (login env now asText db email cedula).2.refreshToken.claims =
        { usuario_id := some db.usuarios_seq, email := email, roles := ["estudiante"] } ∧
      (login env later asText (login env now asText db email cedula).1 email cedula2).1 =
        (login env now asText db email cedula).1 ∧
      (login env later asText (login env now asText db email cedula).1 email cedula2).2.id =
        db.usuarios_seq ∧
      (login env later asText (login env now asText db email cedula).1 email cedula2).2.email =
        email := by
  rw [login_creates env now asText db email cedula hnone]
  refine ⟨rfl, rfl, rfl, rfl, rfl, ?_⟩
  have hemail : ∀ u ∈ db.usuarios, (u.email == email) = false := by
    intro u hu
    have h := (filter_nil_iff _ _).1 hnone u hu
    simp at h
    simp [h.1]
  have hlook : loginLookup
      { db with
          usuarios := db.usuarios ++ [{ id := db.usuarios_seq, email := email, activo := true,
                                        codigo_institucional := some cedula }],
          usuarios_seq := db.usuarios_seq + 1,
          usuario_roles := db.usuario_roles ++
            [{ usuario_id := db.usuarios_seq, rol := "estudiante" }] } email cedula2 =
      [{ id := db.usuarios_seq, email := email, activo := true,
         codigo_institucional := some cedula }] := by
    simp only [loginLookup, List.filter_append]
    have h0 : db.usuarios.filter
        (fun u => u.email == email || u.codigo_institucional == some cedula2) = [] := by
      apply (filter_nil_iff _ _).2
      intro u hu
      have h1 := hemail u hu
      have h2 := hnone2 u hu
      simp [h1, h2]
    rw [h0]
    simp
  have hroles : ∃ rol rest, rolesOf
      { db with
          usuarios := db.usuarios ++ [{ id := db.usuarios_seq, email := email, activo := true,
                                        codigo_institucional := some cedula }],
          usuarios_seq := db.usuarios_seq + 1,
          usuario_roles := db.usuario_roles ++
            [{ usuario_id := db.usuarios_seq, rol := "estudiante" }] } db.usuarios_seq =
      rol :: rest := by
    simp only [rolesOf, List.filter_append, List.map_append]
    cases h : (db.usuario_roles.filter (fun r => r.usuario_id == db.usuarios_seq)).map
        (fun r => r.rol) with
    | nil => exact ⟨"estudiante", [], by simp⟩
    | cons a l => exact ⟨a, l ++ ["estudiante"], by simp⟩
  obtain ⟨rol, rest, hro⟩ := hroles
  have hf := rolesFaltan_of_role asText _ db.usuarios_seq rol rest hro
  simp only [login, hlook]
  simp [hf, loginResponse]

/-- Witness for C24: two logins of `a@b.com` on the empty store. -/
theorem login_creates_then_reuses_witness :
    (loginLookup Db.empty "a@b.com" "1234567890" = [] ∧
      ∀ u ∈ Db.empty.usuarios, u.codigo_institucional ≠ some "2222222222") ∧
    (login envSample 0 false Db.empty "a@b.com" "1234567890").1.usuarios =
      [{ id := 1, email := "a@b.com", activo := true,
         codigo_institucional := some "1234567890" }] ∧
    (login envSample 0 false Db.empty "a@b.com" "1234567890").1.usuario_roles =
      [{ usuario_id := 1, rol := "estudiante" }] ∧
    (login envSample 5 false
        (login envSample 0 false Db.empty "a@b.com" "1234567890").1 "a@b.com" "2222222222").1 =
      (login envSample 0 false Db.empty "a@b.com" "1234567890").1 ∧
    (login envSample 5 false
        (login envSample 0 false Db.empty "a@b.com" "1234567890").1 "a@b.com" "2222222222").2.id =
      1 :=
  have h := login_creates_then_reuses envSample 0 5 false Db.empty "a@b.com" "1234567890"
    "2222222222" (by decide) (by simp [Db.empty])
  ⟨⟨by decide, by simp [Db.empty]⟩, h.1, h.2.1, h.2.2.2.2.2.1, h.2.2.2.2.2.2.1⟩

/-- `authenticate` lets a verified token pass when its `usuario_id` is truthy, some
user row has that id and every user row with that id is active. -/
theorem authenticate_pass_of_active (db : Db) (user : JwtClaims) (id : Nat)
    (hclaim : user.usuario_id = some id) (hid : id ≠ 0)
    (hex : ∃ v ∈ db.usuarios, v.id = id)
    (hall : ∀ v ∈ db.usuarios, v.id = id → v.activo = true) :
    authenticate (some db) (.ok user) = .pass := by
  simp only [authenticate, hclaim, truthyId]
  have hne : (id != 0) = true := by simpa using hid
  simp only [hne, Bool.not_true, Bool.false_eq_true, if_false]
  cases hf : db.usuarios.filter (fun u => some u.id == some id) with
  | nil =>
    obtain ⟨v, hv, hvid⟩ := hex
    have := (filter_nil_iff _ _).1 hf v hv
    simp [hvid] at this
  | cons row rows =>
    have hmem : row ∈ db.usuarios.filter (fun u => some u.id == some id) := by
      rw [hf]; exact List.mem_cons_self _ _
    rw [List.mem_filter] at hmem
    have hrid : row.id = id := by simpa using hmem.2
    have := hall row hmem.1 hrid
    simp [this]

/-- The store and the access token after `login` found a user: the user rows with
the id of the row found are set active when the row found was not, and the token
carries that id. -/
theorem login_found (env : Env) (now : Nat) (asText : Bool) (db : Db)
    (email cedula : String) (u : Usuario) (rest : List Usuario)
    (hrow : loginLookup db email cedula = u :: rest) :
    (login env now asText db email cedula).1.usuarios =
        (if !u.activo then db.usuarios.map (fun v =>
            if v.id == u.id then { v with activo := true } else v)
          else db.usuarios) ∧
      ∃ roles, (login env now asText db email cedula).2.token =
        jwtSign { usuario_id := some u.id, email := u.email, roles := roles }
          env.JWT_SECRET now env.accessTtl := by
  simp only [login, hrow]
  split
  · refine ⟨?_, ["estudiante"], rfl⟩
    cases u.activo <;> simp
  · refine ⟨?_, _, rfl⟩
    cases u.activo <;> simp

/-- After `login` found a user whose row was not active, `authenticate` lets the
access token it returned pass until the token expires. -/
theorem login_reactivates_aux (env : Env) (now t : Nat) (asText : Bool) (db : Db)
    (email cedula : String) (u : Usuario) (rest : List Usuario)
    (hrow : loginLookup db email cedula = u :: rest) (hact : u.activo = false)
    (hid : u.id ≠ 0) (ht : t < now + env.accessTtl) :
    (∀ v ∈ (login env now asText db email cedula).1.usuarios, v.id = u.id → v.activo = true) ∧
      (login env now asText db email cedula).2.token.claims.usuario_id = some u.id ∧
      authenticate (some (login env now asText db email cedula).1)
        (requestJwtVerify env t (.jwt (login env now asText db email cedula).2.token)) =
          .pass := by
  obtain ⟨husers, roles, htoken⟩ := login_found env now asText db email cedula u rest hrow
  have humem : u ∈ db.usuarios := by
    have : u ∈ loginLookup db email cedula := by rw [hrow]; exact List.mem_cons_self _ _
    exact (List.mem_filter.1 this).1
  have hall : ∀ v ∈ (login env now asText db email cedula).1.usuarios,
      v.id = u.id → v.activo = true := by
    intro v hv hvid
    rw [husers] at hv
    simp only [hact, Bool.not_false, if_true, List.mem_map] at hv
    obtain ⟨w, _, hw⟩ := hv
    by_cases hwid : w.id = u.id
    · simp [hwid] at hw
      rw [← hw]
    · simp [hwid] at hw
      rw [hw] at hwid
      exact absurd hvid hwid
  have hex : ∃ v ∈ (login env now asText db email cedula).1.usuarios, v.id = u.id := by
    rw [husers]
    simp only [hact, Bool.not_false, if_true, List.mem_map]
    exact ⟨{ u with activo := true }, ⟨u, humem, by simp⟩, rfl⟩
  refine ⟨hall, by rw [htoken]; rfl, ?_⟩
  have hverify : requestJwtVerify env t (.jwt (login env now asText db email cedula).2.token) =
      .ok { usuario_id := some u.id, email := u.email, roles := roles } := by
    rw [htoken]
    have hlt : ¬ (now + env.accessTtl ≤ t) := by omega
    simp [requestJwtVerify, verifyAccessToken, jwtVerifyWith, jwtSign, hlt]
  rw [hverify]
  exact authenticate_pass_of_active _ _ u.id rfl hid hex hall

/-- C29 (amended): when the row the login lookup finds first, by the email or by
the number drawn for the external user, belongs to a user whose `activo` flag is
false, `login` leaves every user row of that id active and returns a token pair for
that id, and `authenticate` lets the access token pass until it expires: the
deactivated user has access again. -/
theorem login_reactivates_user (env : Env) (now t : Nat) (asText : Bool) (db : Db)
    (email cedula : String) (u : Usuario) (rest : List Usuario)
    (hrow : loginLookup db email cedula = u :: rest) (hact : u.activo = false)
    (hid : u.id ≠ 0) (ht : t < now + env.accessTtl) :
    (∀ v ∈ (login env now asText db email cedula).1.usuarios, v.id = u.id → v.activo = true) ∧
      (login env now asText db email cedula).2.token.claims.usuario_id = some u.id ∧
      (login env now asText db email cedula).2.refreshToken.claims =
        (login env now asText db email cedula).2.token.claims ∧
      authenticate (some (login env now asText db email cedula).1)
        (requestJwtVerify env t (.jwt (login env now asText db email cedula).2.token)) =
          .pass := by
  obtain ⟨h1, h2, h3⟩ :=
    login_reactivates_aux env now t asText db email cedula u rest hrow hact hid ht
  refine ⟨h1, h2, ?_, h3⟩
  simp only [login, hrow]
  split <;> rfl

/-- The login lookup after an update of `activo` alone finds the updated rows of the
users it found before. -/
theorem loginLookup_map (db : Db) (email cedula : String) (f : Usuario → Usuario)
    (hemail : ∀ v, (f v).email = v.email)
    (hcodigo : ∀ v, (f v).codigo_institucional = v.codigo_institucional) :
    loginLookup { db with usuarios := db.usuarios.map f } email cedula =
      (loginLookup db email cedula).map f := by
  simp only [loginLookup, List.filter_map]
  congr 1
  apply List.filter_congr
  intro v _
  simp [hemail, hcodigo]

/-- A user found by the login lookup, deactivated through `deleteUser` or through
`toggleUserStatus`, passes `authenticate` again with the token of the next login. -/
theorem login_after_deactivation (env : Env) (now t : Nat) (asText : Bool) (db : Db)
    (email cedula : String) (u : Usuario) (rest : List Usuario)
    (hrow : loginLookup db email cedula = u :: rest)
    (hid : u.id ≠ 0) (ht : t < now + env.accessTtl) :
    authenticate (some (login env now asText (deleteUser db u.id).1 email cedula).1)
        (requestJwtVerify env t
          (.jwt (login env now asText (deleteUser db u.id).1 email cedula).2.token)) = .pass ∧
      authenticate (some (login env now asText (toggleUserStatus db u.id false).1 email cedula).1)
        (requestJwtVerify env t
          (.jwt (login env now asText (toggleUserStatus db u.id false).1 email cedula).2.token))
        = .pass := by
  constructor
  · have hl := loginLookup_map db email cedula
      (fun v => if v.id == u.id && v.activo then { v with activo := false } else v)
      (by intro v; dsimp only; split <;> rfl) (by intro v; dsimp only; split <;> rfl)
    rw [hrow, List.map_cons] at hl
    have h := login_reactivates_aux env now t asText (deleteUser db u.id).1 email cedula _ _ hl
      (by cases hu : u.activo <;> simp [hu]) (by split <;> exact hid) ht
    exact h.2.2
  · have hl := loginLookup_map db email cedula
      (fun v => if v.id == u.id then { v with activo := false } else v)
      (by intro v; dsimp only; split <;> rfl) (by intro v; dsimp only; split <;> rfl)
    rw [hrow, List.map_cons] at hl
    have h := login_reactivates_aux env now t asText (toggleUserStatus db u.id false).1
      email cedula _ _ hl (by simp) (by simpa using hid) ht
    exact h.2.2

/-- Witness for C29: user 1 of the sample store is deactivated through `deleteUser`
and logs in again. -/
theorem login_reactivates_user_witness :
    (loginLookup (deleteUser dbOneTeacher 1).1 "x@y.com" "5555555555" =
        [{ id := 1, email := "x@y.com", activo := false,
           codigo_institucional := some "1234567890" }] ∧
      10 < 0 + envSample.accessTtl) ∧
    (login envSample 0 false (deleteUser dbOneTeacher 1).1 "x@y.com" "5555555555").1.usuarios =
      [{ id := 1, email := "x@y.com", activo := true,
         codigo_institucional := some "1234567890" }] ∧
    authenticate
        (some (login envSample 0 false (deleteUser dbOneTeacher 1).1 "x@y.com" "5555555555").1)
        (requestJwtVerify envSample 10 (.jwt
          (login envSample 0 false (deleteUser dbOneTeacher 1).1 "x@y.com"
            "5555555555").2.token)) = .pass :=
  ⟨⟨by decide, by decide⟩, by decide,
    (login_reactivates_user envSample 0 10 false (deleteUser dbOneTeacher 1).1 "x@y.com"
      "5555555555" { id := 1, email := "x@y.com", activo := false,
                     codigo_institucional := some "1234567890" } []
      (by decide) rfl (by decide) (by decide)).2.2.2⟩

/-! ## The admin gate -/

/-- C28 (counterexample): user 1 is active and the store holds no role for the user
any more, but the refresh token signed while the role `administrador` was held is
still valid.  The refresh handler signs a new access token over the old roles;
with it `requireAdmin` lets the request pass, while `authorize(['administrador'])`
answers 403 `INSUFFICIENT_ROLE`. -/
theorem requireAdmin_admits_removed_role :
    requestJwtVerify envSample 20 (.jwt (jwtSign adminClaims "clave" 10 3600)) =
      .ok adminClaims ∧
    (postRefresh envSample 10
        (some (.jwt (createTokens envSample 0 adminClaims).refreshToken))).token =
      some (jwtSign adminClaims "clave" 10 3600) ∧
    dbRoleRemoved.usuario_roles = [] ∧
    requireAdmin (some dbRoleRemoved) (.ok adminClaims) = .pass ∧
    authorize (some dbRoleRemoved) ["administrador"] adminClaims =
      .reply { status := 403, code := "INSUFFICIENT_ROLE" } := by
  refine ⟨by decide, by decide, by decide, by decide, by decide⟩

/-- C28 (amended): for every request that `authenticate` lets pass, `requireAdmin`
admits it exactly when the roles of the token include `administrador`, and
`authorize(['administrador'])` admits it exactly when the store holds a row of
`usuario_roles` with the user's id and the role `administrador`; the two gates
agree whenever the token's roles and the store agree on that role. -/
theorem requireAdmin_token_authorize_store (db : Db) (user : JwtClaims)
    (hauth : authenticate (some db) (.ok user) = .pass) :
    (requireAdmin (some db) (.ok user) = .pass ↔ "administrador" ∈ user.roles) ∧
      (authorize (some db) ["administrador"] user = .pass ↔
        ∃ r ∈ db.usuario_roles, some r.usuario_id = user.usuario_id ∧
          r.rol = "administrador") ∧
      (("administrador" ∈ user.roles ↔
          ∃ r ∈ db.usuario_roles, some r.usuario_id = user.usuario_id ∧
            r.rol = "administrador") →
        (requireAdmin (some db) (.ok user) = .pass ↔
          authorize (some db) ["administrador"] user = .pass)) := by
  have h1 : requireAdmin (some db) (.ok user) = .pass ↔ "administrador" ∈ user.roles := by
    simp only [requireAdmin, hauth]
    by_cases h : "administrador" ∈ user.roles
    · simp [h]
    · simp [h]
  have h2 : authorize (some db) ["administrador"] user = .pass ↔
      ∃ r ∈ db.usuario_roles, some r.usuario_id = user.usuario_id ∧
        r.rol = "administrador" := by
    simp only [authorize]
    cases hf : db.usuario_roles.filter
        (fun r => some r.usuario_id == user.usuario_id && ["administrador"].contains r.rol) with
    | nil =>
      constructor
      · intro h
        cases h
      · rintro ⟨r, hr, hid, hrol⟩
        have := (filter_nil_iff _ _).1 hf r hr
        simp [hid, hrol] at this
    | cons row rows =>
      have hmem : row ∈ db.usuario_roles.filter
          (fun r => some r.usuario_id == user.usuario_id && ["administrador"].contains r.rol) := by
        rw [hf]; exact List.mem_cons_self _ _
      rw [List.mem_filter] at hmem
      constructor
      · intro _
        refine ⟨row, hmem.1, ?_⟩
        simpa using hmem.2
      · intro _
        rfl
  exact ⟨h1, h2, fun h => by rw [h1, h2, h]⟩

/-- Witness for C28: user 1 holds the role in the store and in the token; both
gates admit the request. -/
theorem requireAdmin_token_authorize_store_witness :
    authenticate (some dbAdminRole) (.ok adminClaims) = .pass ∧
    ((requireAdmin (some dbAdminRole) (.ok adminClaims) = .pass ↔
        "administrador" ∈ adminClaims.roles) ∧
      (authorize (some dbAdminRole) ["administrador"] adminClaims = .pass ↔
        ∃ r ∈ dbAdminRole.usuario_roles, some r.usuario_id = adminClaims.usuario_id ∧
          r.rol = "administrador") ∧
      (("administrador" ∈ adminClaims.roles ↔
          ∃ r ∈ dbAdminRole.usuario_roles, some r.usuario_id = adminClaims.usuario_id ∧
            r.rol = "administrador") →
        (requireAdmin (some dbAdminRole) (.ok adminClaims) = .pass ↔
          authorize (some dbAdminRole) ["administrador"] adminClaims = .pass))) :=
  ⟨by decide, requireAdmin_token_authorize_store dbAdminRole adminClaims (by decide)⟩

/-! ## Error codes, registration, failure bodies -/

/-- For every code listed in `statusMap`, `getStatusCodeFromErrorCode` returns the
status the table gives it. -/
theorem getStatusCodeFromErrorCode_listed :
    ∀ entry ∈ statusMap, getStatusCodeFromErrorCode entry.1 = .number entry.2 := by
  decide

/-- For every string that is neither a key of `statusMap` nor a property name of
`Object.prototype`, `getStatusCodeFromErrorCode` returns 500. -/
theorem getStatusCodeFromErrorCode_unlisted (errorCode : String)
    (hkey : statusMap.lookup errorCode = none)
    (hproto : errorCode ∉ objectPrototypeKeys) :
    getStatusCodeFromErrorCode errorCode = .number 500 := by
  have hc : objectPrototypeKeys.contains errorCode = false := by
    simpa using hproto
  simp only [getStatusCodeFromErrorCode, hkey, hc]
  rfl

/-- The lookup of `statusMap[errorCode]` also finds the property names every object
inherits: for the string `constructor`, which is no key of the table and no code
the handlers, the driver or the framework set, the value returned is the inherited
function. -/
theorem getStatusCodeFromErrorCode_inherited :
    statusMap.lookup "constructor" = none ∧
    getStatusCodeFromErrorCode "constructor" = .inherited "constructor" := by
  refine ⟨by decide, by decide⟩

/-- C26: for every store and every body, the handler of `POST /api/auth/register`
answers 500 `REGISTRATION_ERROR` and leaves the store as it is: the service has no
`register`, so an email that is not registered yet does not give 201 and a
registered one does not give 409. -/
theorem postRegister_always_500 (db : Db) (body : RegisterBody) :
    postRegister db body = ({ status := 500, code := "REGISTRATION_ERROR" }, db) := by
  rfl

/-- C27: when the query of `getAllUsers` rejects, the handler of `GET /api/users`
answers with status 500 and a body that has the property `error` and no property
`code`. -/
theorem getUsersRoute_failure_has_no_code (asText : Bool) :
    getUsersRoute asText none =
      .error { status := 500, error := some "store error", code := none } := by
  rfl

/-! ## Role sets -/

/-- On a native array without empty strings the two normalisers agree: both drop
the nulls and keep the strings. -/
theorem normalisers_agree_on_arrays (xs : List (Option String))
    (h : ∀ x ∈ xs, x ≠ some "") :
    parsePgArray (.array xs) = processUserRoles (.array xs) ∧
      ∀ role ∈ parsePgArray (.array xs), role ≠ "" := by
  constructor
  · simp only [parsePgArray, processUserRoles]
    induction xs with
    | nil => rfl
    | cons x xs ih =>
      have ih2 := ih (fun y hy => h y (List.mem_cons_of_mem _ hy))
      cases x with
      | none => simpa [List.filterMap_cons] using ih2
      | some role =>
        have hne : role ≠ "" := by
          intro he
          exact h (some role) (List.mem_cons_self _ _) (by rw [he])
        simpa [List.filterMap_cons, hne] using ih2
  · intro role hrole
    simp only [parsePgArray, List.mem_filterMap] at hrole
    obtain ⟨x, _, hx⟩ := hrole
    cases x with
    | none => simp at hx
    | some r =>
      by_cases hr : r = ""
      · simp [hr] at hx
      · simp [hr] at hx
        rw [← hx]
        exact hr

/-- C30: for the text `{}`, which is the store's empty array and the default of the
`roles` column of `getAllUsers`, `processUserRoles` returns no role while
`parsePgArray` returns the list holding one empty role name, and `getAllUsers`
reports a user without roles with that list; on the text `{estudiante,docente}` and
on a native array with a null the two agree. -/
theorem parsePgArray_empty_text_differs :
    pgArrayText [] = "\x7b\x7d" ∧
    processUserRoles (.text "\x7b\x7d") = [] ∧
    parsePgArray (.text "\x7b\x7d") = [""] ∧
    getAllUsers true dbRoleRemoved =
      [{ usuario := { id := 1, email := "root@b.com", activo := true }, roles := [""] }] ∧
    processUserRoles (.text "\x7bestudiante,docente\x7d") = ["estudiante", "docente"] ∧
    parsePgArray (.text "\x7bestudiante,docente\x7d") = ["estudiante", "docente"] ∧
    processUserRoles (.array [some "estudiante", none]) = ["estudiante"] ∧
    parsePgArray (.array [some "estudiante", none]) = ["estudiante"] := by
  refine ⟨by decide, by decide, by decide, by decide, by decide, by decide, by decide,
    by decide⟩

/-! ## Enrollment: two requests in a row through any entry points -/

/-- A successful enrollment request found an active course and no row of the pair,
and left the store of the insert. -/
theorem enroll_success (path : EnrollPath) (db : Db) (courseId usuario_id : Nat)
    (estado : String) (h : (enroll path db courseId usuario_id estado).2.status = 201) :
    (∃ c cs, db.cursos.filter (fun c => c.id == courseId && c.activo) = c :: cs) ∧
      db.curso_estudiantes.filter
        (fun e => e.curso_id == courseId && e.usuario_id == usuario_id) = [] ∧
      ∃ e, (enroll path db courseId usuario_id estado).1 =
        (insertCursoEstudiante db courseId usuario_id e).2 := by
  cases path with
  | enrollStudentRoute =>
    simp only [enroll] at h ⊢
    cases hc : db.cursos.filter (fun c => c.id == courseId && c.activo) with
    | nil => simp [postEnrollStudent, hc] at h
    | cons c cs =>
      cases hu : db.usuarios.filter (fun u => u.id == usuario_id && u.activo &&
          db.usuario_roles.any (fun ur => ur.usuario_id == u.id && ur.rol == "estudiante")) with
      | nil => simp [postEnrollStudent, hc, hu] at h
      | cons u us =>
        cases he : db.curso_estudiantes.filter
            (fun e => e.curso_id == courseId && e.usuario_id == usuario_id) with
        | cons e es => simp [postEnrollStudent, hc, hu, he] at h
        | nil =>
          refine ⟨⟨c, cs, rfl⟩, rfl, estado, ?_⟩
          simp only [postEnrollStudent, hc, hu, he]
  | assignStudentRoute =>
    simp only [enroll] at h ⊢
    cases hr : db.usuario_roles.filter
        (fun ur => ur.usuario_id == usuario_id && ur.rol == "estudiante") with
    | nil => simp [postAssignStudent, assignStudentToCourse, hr] at h
    | cons r rs =>
      cases hc : db.cursos.filter (fun c => c.id == courseId && c.activo) with
      | nil => simp [postAssignStudent, assignStudentToCourse, hr, hc] at h
      | cons c cs =>
        cases he : db.curso_estudiantes.filter
            (fun e => e.curso_id == courseId && e.usuario_id == usuario_id) with
        | cons e es => simp [postAssignStudent, assignStudentToCourse, hr, hc, he] at h
        | nil =>
          refine ⟨⟨c, cs, rfl⟩, rfl, estado, ?_⟩
          simp only [postAssignStudent, assignStudentToCourse, hr, hc, he]
  | userEnrollRoute =>
    simp only [enroll] at h ⊢
    cases hc : db.cursos.filter (fun c => c.id == courseId && c.activo) with
    | nil => simp [postUserEnroll, enrollInCourse, enrollInCourseBody, hc] at h
    | cons c cs =>
      cases he : db.curso_estudiantes.filter
          (fun e => e.curso_id == courseId && e.usuario_id == usuario_id) with
      | cons e es => simp [postUserEnroll, enrollInCourse, enrollInCourseBody, hc, he] at h
      | nil =>
        refine ⟨⟨c, cs, rfl⟩, rfl, estadoInscrito, ?_⟩
        simp only [postUserEnroll, enrollInCourse, enrollInCourseBody, hc, he]

/-- The three entry points on the store an insert of the pair left. -/
theorem enroll_after_insert (db : Db) (courseId usuario_id : Nat) (e estado2 : String)
    (hc : ∃ c cs, db.cursos.filter (fun c => c.id == courseId && c.activo) = c :: cs)
    (he : db.curso_estudiantes.filter
        (fun e => e.curso_id == courseId && e.usuario_id == usuario_id) = []) :
    postUserEnroll (insertCursoEstudiante db courseId usuario_id e).2 usuario_id courseId =
        ((insertCursoEstudiante db courseId usuario_id e).2,
          { status := 409, code := "ALREADY_ENROLLED" }) ∧
      (HasStudentRole db usuario_id →
        postAssignStudent (insertCursoEstudiante db courseId usuario_id e).2 courseId usuario_id
            estado2 =
          ((insertCursoEstudiante db courseId usuario_id e).2,
            { status := 409, code := "ALREADY_ENROLLED" })) ∧
      (¬ HasStudentRole db usuario_id →
        postAssignStudent (insertCursoEstudiante db courseId usuario_id e).2 courseId usuario_id
            estado2 =
          ((insertCursoEstudiante db courseId usuario_id e).2,
            { status := 400, code := "USER_NOT_STUDENT" })) ∧
      (IsActiveStudent db usuario_id →
        postEnrollStudent (insertCursoEstudiante db courseId usuario_id e).2 courseId usuario_id
            estado2 =
          ((insertCursoEstudiante db courseId usuario_id e).2,
            { status := 409, code := "ALREADY_ENROLLED" })) ∧
      (¬ IsActiveStudent db usuario_id →
        postEnrollStudent (insertCursoEstudiante db courseId usuario_id e).2 courseId usuario_id
            estado2 =
          ((insertCursoEstudiante db courseId usuario_id e).2,
            { status := 404, code := "STUDENT_NOT_FOUND" })) := by
  obtain ⟨c, cs, hc⟩ := hc
  have hins := insert_enrollmentsOf db courseId usuario_id e he
  have h1 : (insertCursoEstudiante db courseId usuario_id e).2.cursos = db.cursos := rfl
  have h2 : (insertCursoEstudiante db courseId usuario_id e).2.usuarios = db.usuarios := rfl
  have h3 : (insertCursoEstudiante db courseId usuario_id e).2.usuario_roles
      = db.usuario_roles := rfl
  refine ⟨?_, ?_, ?_, ?_, ?_⟩
  · simp [postUserEnroll, enrollInCourse, enrollInCourseBody, h1, hc, hins]
  · intro hrole
    obtain ⟨r, rs, hr⟩ := (roles_filter_iff db usuario_id).2 hrole
    simp [postAssignStudent, assignStudentToCourse, h1, h3, hr, hc, hins]
  · intro hrole
    have hr : db.usuario_roles.filter
        (fun ur => ur.usuario_id == usuario_id && ur.rol == "estudiante") = [] := by
      cases hf : db.usuario_roles.filter
          (fun ur => ur.usuario_id == usuario_id && ur.rol == "estudiante") with
      | nil => rfl
      | cons r rs => exact absurd ((roles_filter_iff db usuario_id).1 ⟨r, rs, hf⟩) hrole
    simp [postAssignStudent, assignStudentToCourse, h3, hr]
  · intro hst
    obtain ⟨u, us, hu⟩ := (student_filter_iff db usuario_id).2 hst
    simp only [postEnrollStudent, h1, h2, h3, hc, hu, hins]
  · intro hst
    have hu : db.usuarios.filter (fun usr => usr.id == usuario_id && usr.activo &&
        db.usuario_roles.any (fun ur => ur.usuario_id == usr.id && ur.rol == "estudiante"))
        = [] := by
      cases hf : db.usuarios.filter (fun usr => usr.id == usuario_id && usr.activo &&
          db.usuario_roles.any (fun ur => ur.usuario_id == usr.id && ur.rol == "estudiante")) with
      | nil => rfl
      | cons u us => exact absurd ((student_filter_iff db usuario_id).1 ⟨u, us, hf⟩) hst
    simp only [postEnrollStudent, h1, h2, h3, hc, hu]

/-- C6 (counterexample): user 3 is active and holds no role.  The user's own
enrollment into course 1 succeeds (201); a second enroll of the same pair through
the assign-student route is answered 400 USER_NOT_STUDENT and through the
enroll-student route 404 STUDENT_NOT_FOUND, not 409 ALREADY_ENROLLED.  The inactive
student user 2, assigned to course 1 (201), is answered 404 STUDENT_NOT_FOUND by
the enroll-student route.  One row of the pair exists afterwards in each case. -/
theorem second_enroll_not_already_enrolled :
    (enroll .userEnrollRoute dbRolelessUser 1 3 "inscrito").2 = { status := 201, code := "" } ∧
    enroll .assignStudentRoute (enroll .userEnrollRoute dbRolelessUser 1 3 "inscrito").1 1 3
        "inscrito" =
      ((enroll .userEnrollRoute dbRolelessUser 1 3 "inscrito").1,
        { status := 400, code := "USER_NOT_STUDENT" }) ∧
    enroll .enrollStudentRoute (enroll .userEnrollRoute dbRolelessUser 1 3 "inscrito").1 1 3
        "inscrito" =
      ((enroll .userEnrollRoute dbRolelessUser 1 3 "inscrito").1,
        { status := 404, code := "STUDENT_NOT_FOUND" }) ∧
    (enrollmentsOf (enroll .userEnrollRoute dbRolelessUser 1 3 "inscrito").1 1 3).length = 1 ∧
    (enroll .assignStudentRoute dbInactiveStudent 1 2 "inscrito").2 =
      { status := 201, code := "" } ∧
    enroll .enrollStudentRoute (enroll .assignStudentRoute dbInactiveStudent 1 2 "inscrito").1 1 2
        "inscrito" =
      ((enroll .assignStudentRoute dbInactiveStudent 1 2 "inscrito").1,
        { status := 404, code := "STUDENT_NOT_FOUND" }) := by
  refine ⟨by decide, by decide, by decide, by decide, by decide, by decide⟩

/-- C6 (amended): for every (course, student) pair and every pair of entry points,
when an enroll through the first succeeds (201), a second enroll of the same pair
through the second adds no row and changes nothing, so exactly one enrollment row of
the pair exists afterwards.  The second call is answered 409 ALREADY_ENROLLED when
it goes through the same entry point as the first, through the user's own enroll
route, or through any entry point when the user is active and holds the role
`estudiante`; the assign-student route answers 409 exactly for the users holding
the role and 400 USER_NOT_STUDENT for the others, the enroll-student route 409
exactly for the active students and 404 STUDENT_NOT_FOUND for the others. -/
theorem enroll_then_enroll (first : EnrollPath) (db : Db) (courseId usuario_id : Nat)
    (estado estado2 : String)
    (h : (enroll first db courseId usuario_id estado).2.status = 201) :
    (enrollmentsOf (enroll first db courseId usuario_id estado).1 courseId usuario_id).length
        = 1 ∧
      (∀ second, (enroll second (enroll first db courseId usuario_id estado).1 courseId
          usuario_id estado2).1 = (enroll first db courseId usuario_id estado).1) ∧
      (∀ second, (enrollmentsOf (enroll second (enroll first db courseId usuario_id estado).1
          courseId usuario_id estado2).1 courseId usuario_id).length = 1) ∧
      enroll first (enroll first db courseId usuario_id estado).1 courseId usuario_id estado2 =
        ((enroll first db courseId usuario_id estado).1,
          { status := 409, code := "ALREADY_ENROLLED" }) ∧
      enroll .userEnrollRoute (enroll first db courseId usuario_id estado).1 courseId usuario_id
          estado2 =
        ((enroll first db courseId usuario_id estado).1,
          { status := 409, code := "ALREADY_ENROLLED" }) ∧
      (IsActiveStudent db usuario_id →
        ∀ second, enroll second (enroll first db courseId usuario_id estado).1 courseId
            usuario_id estado2 =
          ((enroll first db courseId usuario_id estado).1,
            { status := 409, code := "ALREADY_ENROLLED" })) ∧
      (HasStudentRole db usuario_id →
        enroll .assignStudentRoute (enroll first db courseId usuario_id estado).1 courseId
            usuario_id estado2 =
          ((enroll first db courseId usuario_id estado).1,
            { status := 409, code := "ALREADY_ENROLLED" })) ∧
      (¬ HasStudentRole db usuario_id →
        enroll .assignStudentRoute (enroll first db courseId usuario_id estado).1 courseId
            usuario_id estado2 =
          ((enroll first db courseId usuario_id estado).1,
            { status := 400, code := "USER_NOT_STUDENT" })) ∧
      (¬ IsActiveStudent db usuario_id →
        enroll .enrollStudentRoute (enroll first db courseId usuario_id estado).1 courseId
            usuario_id estado2 =
          ((enroll first db courseId usuario_id estado).1,
            { status := 404, code := "STUDENT_NOT_FOUND" })) := by
  have hsame := enroll_same_path_twice first db courseId usuario_id estado estado2 h
  obtain ⟨hc, he, e, hdb⟩ := enroll_success first db courseId usuario_id estado h
  obtain ⟨huser, hassign, hassignNot, henroll, henrollNot⟩ :=
    enroll_after_insert db courseId usuario_id e estado2 hc he
  rw [← hdb] at huser hassign hassignNot henroll henrollNot
  have hstore : ∀ second, (enroll second (enroll first db courseId usuario_id estado).1 courseId
      usuario_id estado2).1 = (enroll first db courseId usuario_id estado).1 := by
    intro second
    cases second with
    | enrollStudentRoute =>
      show (postEnrollStudent _ courseId usuario_id estado2).1 = _
      by_cases hst : IsActiveStudent db usuario_id
      · rw [henroll hst]
      · rw [henrollNot hst]
    | assignStudentRoute =>
      show (postAssignStudent _ courseId usuario_id estado2).1 = _
      by_cases hr : HasStudentRole db usuario_id
      · rw [hassign hr]
      · rw [hassignNot hr]
    | userEnrollRoute =>
      show (postUserEnroll _ usuario_id courseId).1 = _
      rw [huser]
  refine ⟨hsame.2, hstore, ?_, hsame.1, huser, ?_, hassign, hassignNot, henrollNot⟩
  · intro second
    rw [hstore second]
    exact hsame.2
  · intro hst second
    cases second with
    | enrollStudentRoute => exact henroll hst
    | assignStudentRoute => exact hassign hst.2
    | userEnrollRoute => exact huser

/-- Witness for C6: the student user 2 enrolls into course 1 through the user's own
route and is then assigned to it through the assign-student route. -/
theorem enroll_then_enroll_witness :
    (enroll .userEnrollRoute dbNotEnrolled 1 2 "inscrito").2.status = 201 ∧
    enroll .assignStudentRoute (enroll .userEnrollRoute dbNotEnrolled 1 2 "inscrito").1 1 2
        "aprobado" =
      ((enroll .userEnrollRoute dbNotEnrolled 1 2 "inscrito").1,
        { status := 409, code := "ALREADY_ENROLLED" }) ∧
    (enrollmentsOf (enroll .userEnrollRoute dbNotEnrolled 1 2 "inscrito").1 1 2).length = 1 :=
  have h := enroll_then_enroll .userEnrollRoute dbNotEnrolled 1 2 "inscrito" "aprobado"
    (by decide)
  ⟨by decide,
    h.2.2.2.2.2.1 (by
      refine ⟨⟨{ id := 2, email := "a@b.com", activo := true }, by decide, rfl, rfl⟩,
        ⟨{ usuario_id := 2, rol := "estudiante" }, by decide, rfl, rfl⟩⟩) .assignStudentRoute,
    h.1⟩

/-! ## Exam scheduling: the conflict check among the checks of `createExamSchedule` -/

/-- C16 (counterexample): schedule 1 is stored on date 20000 from 09:00 to 10:00.  A
request for the same date and start time sent when that date is past is answered
400 INVALID_EXAM_DATE, and one whose end time is not later than its start, `09:00`
to `08:30`, is answered 500 SCHEDULE_CREATE_ERROR: the two earlier checks answer
before the conflict check.  The request `9:00` to `10:00`, whose start the store
reads as the stored 09:00, is answered 500 too, and the request `9:30` to `10:30`,
which overlaps schedule 1 and starts at another time, is refused: both are stopped
by the comparison of the two times as strings.  None is answered 409 and none is
stored. -/
theorem createExamSchedule_checks_before_conflict :
    dbFreshSchedule.horarios_examenes.map (fun h => (h.fecha_examen, h.hora_inicio, h.hora_fin))
      = [(20000, 32400, 36000)] ∧
    postExamSchedules timeOfDay dbFreshSchedule 20001
        { fecha_examen := 20000, hora_inicio := "09:00", hora_fin := "11:00",
          cupos_disponibles := 5, creado_por := 1 }
      = (dbFreshSchedule, { status := 400, code := "INVALID_EXAM_DATE" }) ∧
    postExamSchedules timeOfDay dbFreshSchedule 0
        { fecha_examen := 20000, hora_inicio := "09:00", hora_fin := "08:30",
          cupos_disponibles := 5, creado_por := 1 }
      = (dbFreshSchedule, { status := 500, code := "SCHEDULE_CREATE_ERROR" }) ∧
    timeOfDay "9:00" = some 32400 ∧
    postExamSchedules timeOfDay dbFreshSchedule 0
        { fecha_examen := 20000, hora_inicio := "9:00", hora_fin := "10:00",
          cupos_disponibles := 5, creado_por := 1 }
      = (dbFreshSchedule, { status := 500, code := "SCHEDULE_CREATE_ERROR" }) ∧
    timeOfDay "9:30" = some 34200 ∧ timeOfDay "10:30" = some 37800 ∧
    postExamSchedules timeOfDay dbFreshSchedule 0
        { fecha_examen := 20000, hora_inicio := "9:30", hora_fin := "10:30",
          cupos_disponibles := 5, creado_por := 1 }
      = (dbFreshSchedule, { status := 500, code := "SCHEDULE_CREATE_ERROR" }) := by
  refine ⟨by decide, by decide, by decide, by decide, by decide, by decide, by decide,
    by decide⟩

/-- C16 (amended): for a request whose date is not past, whose end time is later than
its start time both in the comparison of the two strings and as the times of day
`inicio` and `fin` the store reads, `createExamSchedule` throws its conflict error
(409 SCHEDULE_CONFLICT at the route, nothing stored) exactly when a stored schedule
has the same date and the start time `inicio`, and that is the only conflict it
detects: when no stored schedule has that date and start, the request is accepted
(201) and its row appended, whatever the intervals of the schedules stored on that
date. -/
theorem createExamSchedule_conflict_after_checks (timeIn : String → Option Nat) (db : Db)
    (hoy : Int) (d : ScheduleData) (inicio fin : Nat) (hdate : ¬ d.fecha_examen < hoy)
    (htime : jsStrLe d.hora_fin d.hora_inicio = false)
    (hin : timeIn d.hora_inicio = some inicio) (hfin : timeIn d.hora_fin = some fin)
    (_horder : inicio < fin) :
    ((createExamSchedule timeIn db hoy d).result
        = .error { message := "Ya existe un horario para esa fecha y hora" }
      ↔ ∃ h ∈ db.horarios_examenes, h.fecha_examen = d.fecha_examen ∧ h.hora_inicio = inicio) ∧
    ((∃ h ∈ db.horarios_examenes, h.fecha_examen = d.fecha_examen ∧ h.hora_inicio = inicio) →
      postExamSchedules timeIn db hoy d = (db, { status := 409, code := "SCHEDULE_CONFLICT" })) ∧
    ((¬ ∃ h ∈ db.horarios_examenes, h.fecha_examen = d.fecha_examen ∧ h.hora_inicio = inicio) →
      (postExamSchedules timeIn db hoy d).2 = { status := 201, code := "" } ∧
      (postExamSchedules timeIn db hoy d).1.horarios_examenes
        = db.horarios_examenes ++
            [{ id := db.horarios_examenes_seq, fecha_examen := d.fecha_examen,
               hora_inicio := inicio, hora_fin := fin,
               cupos_disponibles := d.cupos_disponibles,
               cupos_ocupados := cuposOcupadosDefault, activo := activoDefault,
               creado_por := d.creado_por }]) := by
  obtain ⟨h1, h2, h3⟩ := createExamSchedule_conflict_check timeIn db hoy d inicio hdate htime hin
  exact ⟨h1, h2, fun hno => h3 hno fin hfin⟩

/-- Witness for C16: on the date of schedule 1 (09:00 to 10:00) a request from 09:30
to 10:30 overlaps it and is accepted. -/
theorem createExamSchedule_conflict_after_checks_witness :
    (postExamSchedules timeOfDay dbFreshSchedule 0
        { fecha_examen := 20000, hora_inicio := "09:30", hora_fin := "10:30",
          cupos_disponibles := 5, creado_por := 1 }).2 = { status := 201, code := "" } ∧
    (postExamSchedules timeOfDay dbFreshSchedule 0
        { fecha_examen := 20000, hora_inicio := "09:30", hora_fin := "10:30",
          cupos_disponibles := 5, creado_por := 1 }).1.horarios_examenes.map
        (fun h => (h.hora_inicio, h.hora_fin)) = [(32400, 36000), (34200, 37800)] :=
  have h := (createExamSchedule_conflict_after_checks timeOfDay dbFreshSchedule 0
      { fecha_examen := 20000, hora_inicio := "09:30", hora_fin := "10:30",
        cupos_disponibles := 5, creado_por := 1 } 34200 37800 (by decide) (by decide)
      (by decide) (by decide) (by decide)).2.2 (by decide)
  ⟨h.1, by rw [h.2]; decide⟩

/-- On the date of schedule 1 a request from 09:00 to 11:00, with the stored start
time, is refused with 409 SCHEDULE_CONFLICT. -/
theorem createExamSchedule_same_start_refused :
    postExamSchedules timeOfDay dbFreshSchedule 0
        { fecha_examen := 20000, hora_inicio := "09:00", hora_fin := "11:00",
          cupos_disponibles := 5, creado_por := 1 }
      = (dbFreshSchedule, { status := 409, code := "SCHEDULE_CONFLICT" }) := by
  decide

/-! ## Error codes: the codes the handler receives -/

/-- A string without a lower-case letter is none of the property names an object
inherits. -/
theorem not_inherited_of_no_lower (errorCode : String)
    (hform : ∀ c ∈ errorCode.toList, c.isLower = false) :
    objectPrototypeKeys.contains errorCode = false := by
  have hnot : errorCode ∉ objectPrototypeKeys := by
    intro hmem
    simp only [objectPrototypeKeys, List.mem_cons, List.mem_singleton, List.not_mem_nil,
      or_false] at hmem
    rcases hmem with h | h | h | h | h | h | h | h | h | h | h | h <;> subst h
    · exact absurd (hform 'c' (by decide)) (by decide)
    · exact absurd (hform 'd' (by decide)) (by decide)
    · exact absurd (hform 'd' (by decide)) (by decide)
    · exact absurd (hform 'h' (by decide)) (by decide)
    · exact absurd (hform 'l' (by decide)) (by decide)
    · exact absurd (hform 'l' (by decide)) (by decide)
    · exact absurd (hform 'i' (by decide)) (by decide)
    · exact absurd (hform 'p' (by decide)) (by decide)
    · exact absurd (hform 't' (by decide)) (by decide)
    · exact absurd (hform 'v' (by decide)) (by decide)
    · exact absurd (hform 'p' (by decide)) (by decide)
    · exact absurd (hform 't' (by decide)) (by decide)
  simpa using hnot

/-- The keys of `statusMap` are distinct and none of its statuses is 0, so the
lookup of a key gives the status written next to it, which is truthy. -/
theorem statusMap_lookup_entry :
    ∀ entry ∈ statusMap, statusMap.lookup entry.1 = some entry.2 ∧ entry.2 ≠ 0 := by
  decide

/-- C25: for every error code written without lower-case letters, as are the codes
the handlers of the repository, the store's driver (SQLSTATE) and the framework set
on an error, `getStatusCodeFromErrorCode` returns the status the lookup table gives
the code when the code is a key of the table, and 500 when it is not; every key of
the table is such a code and gets the status written next to it. -/
theorem getStatusCodeFromErrorCode_table (errorCode : String)
    (hform : ∀ c ∈ errorCode.toList, c.isLower = false) :
    (∀ entry ∈ statusMap, getStatusCodeFromErrorCode entry.1 = .number entry.2) ∧
      (∀ entry ∈ statusMap, ∀ c ∈ entry.1.toList, c.isLower = false) ∧
      (∀ status, (errorCode, status) ∈ statusMap →
        getStatusCodeFromErrorCode errorCode = .number status) ∧
      ((∀ entry ∈ statusMap, entry.1 ≠ errorCode) →
        getStatusCodeFromErrorCode errorCode = .number 500) := by
  refine ⟨getStatusCodeFromErrorCode_listed, by decide, ?_, ?_⟩
  · intro status hmem
    exact getStatusCodeFromErrorCode_listed (errorCode, status) hmem
  · intro hkey
    have hnone : statusMap.lookup errorCode = none := by
      rw [List.lookup_eq_none_iff]
      intro entry hentry
      simpa using (hkey entry hentry).symm
    simp only [getStatusCodeFromErrorCode, hnone, not_inherited_of_no_lower errorCode hform]
    rfl

/-- Witness for C25: the store's code for a foreign-key violation is no key of the
table and gets 500. -/
theorem getStatusCodeFromErrorCode_table_witness :
    (∀ c ∈ "23503".toList, c.isLower = false) ∧
    getStatusCodeFromErrorCode "23503" = .number 500 ∧
    getStatusCodeFromErrorCode "EXAM_TIME_EXPIRED" = .number 410 :=
  have h := getStatusCodeFromErrorCode_table "23503" (by decide)
  ⟨by decide, h.2.2.2 (by decide), h.1 ("EXAM_TIME_EXPIRED", 410) (by decide)⟩

/-! ## Login: the user the lookup finds -/

/-- C29 (counterexample): user 2, `z@w.com`, exists and is not active.  The user logs
in with that email and the number drawn for the external user is the institutional
code of user 1: the lookup finds user 1 first, `login` leaves the store as it is,
user 2 stays inactive, and the tokens returned are those of user 1; a token for
user 2 is still refused by `authenticate` with 401 USER_INACTIVE. -/
theorem login_leaves_user_inactive :
    dbInactiveSecond.usuarios.filter (fun u => u.email == "z@w.com") =
      [{ id := 2, email := "z@w.com", activo := false,
         codigo_institucional := some "2222222222" }] ∧
    (login envSample 0 false dbInactiveSecond "z@w.com" "1234567890").1 = dbInactiveSecond ∧
    (login envSample 0 false dbInactiveSecond "z@w.com" "1234567890").2.token.claims =
      { usuario_id := some 1, email := "x@y.com", roles := ["docente"] } ∧
    authenticate (some (login envSample 0 false dbInactiveSecond "z@w.com" "1234567890").1)
        (.ok { usuario_id := some 2, email := "z@w.com", roles := ["estudiante"] }) =
      .reply { status := 401, code := "USER_INACTIVE" } := by
  refine ⟨by decide, by decide, by decide, by decide⟩

end Autoaprendizaje
